import Mathlib

/-!
# Restaurant analytics: the filtered aggregation query layer

A shallow embedding of `backend/queries.js` and of the request handlers of
`backend/server.js`.

Every report is a JavaScript function that assembles an SQL text with positional
placeholders `$k`, a `params` array, and hands both to `db.query`.  The embedding
has two layers:

* the text layer reproduces the assembled SQL text and the `params` array;
* the execution layer gives the meaning of the SQL text over a dataset.  A
  placeholder `$k` is resolved against `params[k-1]`; a placeholder without a
  parameter, or with a parameter of another type than the SQL text requires, makes
  `db.query` reject, which is the `Except.error` outcome.

Timestamps are microseconds on a linear time line (a day is `86400000000`),
monetary columns are exact rationals (SQL `numeric`).
-/

namespace RestaurantAnalytics

/-! ## Parameters and SQL text -/

/-- A timestamp, in microseconds since the epoch. -/
abbrev Timestamp := Int

/-- One entry of the `params` array given to `db.query`. -/
inductive Param where
  | ts (t : Timestamp)
  | ids (l : List Int)
  | num (n : Int)
deriving DecidableEq, Repr

/-- An SQL text together with its positional parameters. -/
structure Query where
  sql : String
  params : List Param
deriving DecidableEq, Repr

/-- Truthiness of `xs?.length` for a nullable array `xs`. -/
def hasLength (xs : Option (List Int)) : Bool :=
  match xs with
  | some (_ :: _) => true
  | _ => false

/-- Value of `params.push(xs)` guarded by `if (xs?.length)`. -/
def pushIds (params : List Param) (xs : Option (List Int)) : List Param :=
  match xs with
  | some (x :: rest) => params ++ [Param.ids (x :: rest)]
  | _ => params

/-- Value of `params.splice(i, 0, xs)` guarded by `if (xs?.length)`. -/
def spliceIds (params : List Param) (i : Nat) (xs : Option (List Int)) : List Param :=
  match xs with
  | some (x :: rest) => params.take i ++ Param.ids (x :: rest) :: params.drop i
  | _ => params

/-- The `storeFilter` fragment (the same text in every report). -/
def storeFilter (storeIds : Option (List Int)) : String :=
  if hasLength storeIds then "AND s.store_id = ANY($3::int[])" else ""

/-- The `channelFilter` fragment (the same text in every report that has it). -/
def channelFilter (channelIds : Option (List Int)) : String :=
  if hasLength channelIds then "AND s.channel_id = ANY($4::int[])" else ""

/-- Numeric value of a run of decimal digits. -/
def digitsValue (ds : List Char) : Nat :=
  ds.foldl (fun n d => 10 * n + (d.toNat - '0'.toNat)) 0

/-- The placeholder numbers `$k` occurring in a text, in order of occurrence. -/
def scanPlaceholders : List Char → List Nat
  | [] => []
  | c :: rest =>
    if c = '$' ∧ (rest.takeWhile Char.isDigit) ≠ [] then
      digitsValue (rest.takeWhile Char.isDigit) :: scanPlaceholders rest
    else scanPlaceholders rest

/-- The placeholder numbers of an SQL text. -/
def placeholders (sql : String) : List Nat := scanPlaceholders sql.toList

/-- SQL text of `getOverview`. -/
def getOverview_sql (storeFilter channelFilter : String) : String :=
  "
    SELECT 
      COUNT(*) as total_sales,
      COUNT(*) FILTER (WHERE sale_status_desc = 'COMPLETED') as completed_sales,
      COUNT(*) FILTER (WHERE sale_status_desc = 'CANCELLED') as cancelled_sales,
      ROUND(AVG(total_amount) FILTER (WHERE sale_status_desc = 'COMPLETED')::numeric, 2) as avg_ticket,
      ROUND(SUM(total_amount) FILTER (WHERE sale_status_desc = 'COMPLETED')::numeric, 2) as total_revenue,
      ROUND(SUM(total_discount) FILTER (WHERE sale_status_desc = 'COMPLETED')::numeric, 2) as total_discounts
    FROM sales s
    WHERE s.created_at >= $1 
      AND s.created_at <= $2
      " ++ storeFilter ++ "
      " ++ channelFilter ++ "
  "

/-- SQL text of `getSalesByDate`. -/
def getSalesByDate_sql (storeFilter channelFilter : String) : String :=
  "
    SELECT 
      DATE(s.created_at) as date,
      COUNT(*) FILTER (WHERE sale_status_desc = 'COMPLETED') as total_sales,
      ROUND(SUM(total_amount) FILTER (WHERE sale_status_desc = 'COMPLETED')::numeric, 2) as revenue
    FROM sales s
    WHERE s.created_at >= $1 
      AND s.created_at <= $2
      " ++ storeFilter ++ "
      " ++ channelFilter ++ "
    GROUP BY DATE(s.created_at)
    ORDER BY date
  "

/-- The number after `LIMIT $` in `getTopProducts`:
`storeIds?.length && channelIds?.length ? 5 : storeIds?.length || channelIds?.length ? 4 : 3`. -/
def limitPlaceholder (storeIds channelIds : Option (List Int)) : Nat :=
  if hasLength storeIds && hasLength channelIds then 5
  else if hasLength storeIds || hasLength channelIds then 4
  else 3

/-- SQL text of `getTopProducts`. -/
def getTopProducts_sql (storeFilter channelFilter : String) (limitIndex : Nat) : String :=
  "
    SELECT 
      p.name as product_name,
      COUNT(ps.id) as times_sold,
      ROUND(SUM(ps.quantity)::numeric, 2) as total_quantity,
      ROUND(SUM(ps.total_price)::numeric, 2) as total_revenue,
      ROUND(AVG(ps.total_price)::numeric, 2) as avg_price
    FROM product_sales ps
    JOIN products p ON p.id = ps.product_id
    JOIN sales s ON s.id = ps.sale_id
    WHERE s.sale_status_desc = 'COMPLETED'
      AND s.created_at >= $1 
      AND s.created_at <= $2
      " ++ storeFilter ++ "
      " ++ channelFilter ++ "
    GROUP BY p.id, p.name
    ORDER BY total_revenue DESC
    LIMIT $" ++ toString limitIndex ++ "
  "

/-- SQL text of `getSalesByHour`. -/
def getSalesByHour_sql (storeFilter channelFilter : String) : String :=
  "
    SELECT 
      EXTRACT(HOUR FROM s.created_at)::int as hour,
      COUNT(*) FILTER (WHERE sale_status_desc = 'COMPLETED') as total_sales,
      ROUND(SUM(total_amount) FILTER (WHERE sale_status_desc = 'COMPLETED')::numeric, 2) as revenue
    FROM sales s
    WHERE s.created_at >= $1 
      AND s.created_at <= $2
      AND s.sale_status_desc = 'COMPLETED'
      " ++ storeFilter ++ "
      " ++ channelFilter ++ "
    GROUP BY hour
    ORDER BY hour
  "

/-- SQL text of `getSalesByWeekday`. -/
def getSalesByWeekday_sql (storeFilter channelFilter : String) : String :=
  "
    SELECT 
      EXTRACT(DOW FROM s.created_at)::int as weekday,
      CASE EXTRACT(DOW FROM s.created_at)::int
        WHEN 0 THEN 'Domingo'
        WHEN 1 THEN 'Segunda'
        WHEN 2 THEN 'Terça'
        WHEN 3 THEN 'Quarta'
        WHEN 4 THEN 'Quinta'
        WHEN 5 THEN 'Sexta'
        WHEN 6 THEN 'Sábado'
      END as weekday_name,
      COUNT(*) FILTER (WHERE sale_status_desc = 'COMPLETED') as total_sales,
      ROUND(SUM(total_amount) FILTER (WHERE sale_status_desc = 'COMPLETED')::numeric, 2) as revenue
    FROM sales s
    WHERE s.created_at >= $1 
      AND s.created_at <= $2
      " ++ storeFilter ++ "
      " ++ channelFilter ++ "
    GROUP BY weekday, weekday_name
    ORDER BY weekday
  "

/-- The `params` array of the reports filtered by date, store and channel:
`[startDate, endDate]`, then `storeIds` and `channelIds` pushed when present. -/
def filterParams (startDate endDate : Timestamp) (storeIds channelIds : Option (List Int)) :
    List Param :=
  pushIds (pushIds [Param.ts startDate, Param.ts endDate] storeIds) channelIds

/-- Text and parameters that `getOverview` hands to `db.query`. -/
def getOverview_query (startDate endDate : Timestamp) (storeIds channelIds : Option (List Int)) :
    Query :=
  { sql := getOverview_sql (storeFilter storeIds) (channelFilter channelIds)
    params := filterParams startDate endDate storeIds channelIds }

/-- Text and parameters that `getSalesByDate` hands to `db.query`. -/
def getSalesByDate_query (startDate endDate : Timestamp)
    (storeIds channelIds : Option (List Int)) : Query :=
  { sql := getSalesByDate_sql (storeFilter storeIds) (channelFilter channelIds)
    params := filterParams startDate endDate storeIds channelIds }

/-- Text and parameters that `getSalesByHour` hands to `db.query`. -/
def getSalesByHour_query (startDate endDate : Timestamp)
    (storeIds channelIds : Option (List Int)) : Query :=
  { sql := getSalesByHour_sql (storeFilter storeIds) (channelFilter channelIds)
    params := filterParams startDate endDate storeIds channelIds }

/-- Text and parameters that `getSalesByWeekday` hands to `db.query`. -/
def getSalesByWeekday_query (startDate endDate : Timestamp)
    (storeIds channelIds : Option (List Int)) : Query :=
  { sql := getSalesByWeekday_sql (storeFilter storeIds) (channelFilter channelIds)
    params := filterParams startDate endDate storeIds channelIds }

/-- The `params` array of `getTopProducts`: `[startDate, endDate, limit]` with
`storeIds` spliced in at index 2 and `channelIds` at index `storeIds?.length ? 3 : 2`. -/
def getTopProducts_params (startDate endDate : Timestamp)
    (storeIds channelIds : Option (List Int)) (limit : Int) : List Param :=
  spliceIds (spliceIds [Param.ts startDate, Param.ts endDate, Param.num limit] 2 storeIds)
    (if hasLength storeIds then 3 else 2) channelIds

/-- Text and parameters that `getTopProducts` hands to `db.query`. -/
def getTopProducts_query (startDate endDate : Timestamp)
    (storeIds channelIds : Option (List Int)) (limit : Int) : Query :=
  { sql := getTopProducts_sql (storeFilter storeIds) (channelFilter channelIds)
      (limitPlaceholder storeIds channelIds)
    params := getTopProducts_params startDate endDate storeIds channelIds limit }

/-- SQL text of `getInactiveCustomers`. -/
def getInactiveCustomers_sql : String :=
  "
    SELECT 
      c.customer_name,
      c.email,
      c.phone_number,
      COUNT(s.id) as total_purchases,
      ROUND(SUM(s.total_amount)::numeric, 2) as lifetime_value,
      MAX(s.created_at) as last_purchase,
      EXTRACT(DAY FROM NOW() - MAX(s.created_at))::int as days_since_purchase
    FROM customers c
    JOIN sales s ON s.customer_id = c.id
    WHERE s.sale_status_desc = 'COMPLETED'
    GROUP BY c.id, c.customer_name, c.email, c.phone_number
    HAVING MAX(s.created_at) < NOW() - INTERVAL '1 day' * $1
      AND COUNT(s.id) >= 3
    ORDER BY lifetime_value DESC
    LIMIT 50
  "

/-- Text and parameters that `getInactiveCustomers` hands to `db.query`. -/
def getInactiveCustomers_query (days : Int) : Query :=
  { sql := getInactiveCustomers_sql
    params := [Param.num days] }

/-! ## The dataset -/

/-- Modelled from the spec: the schema is owned externally and is not among the sources.
A row of `sales`, with the columns of the spec's Sale that the SQL texts read;
`customer_id` and `delivery_seconds` may be `NULL`. -/
structure Sale where
  id : Int
  store_id : Int
  channel_id : Int
  customer_id : Option Int
  created_at : Timestamp
  total_amount : ℚ
  total_discount : ℚ
  delivery_seconds : Option Int
  sale_status_desc : String
deriving DecidableEq

/-- Modelled from the spec: the schema is not among the sources.  A row of
`product_sales`, a line linking a sale to a product with quantity and total price. -/
structure ProductSale where
  id : Int
  sale_id : Int
  product_id : Int
  quantity : ℚ
  total_price : ℚ
deriving DecidableEq

/-- Modelled from the spec: the schema is not among the sources.  A row of `products`. -/
structure Product where
  id : Int
  name : String
deriving DecidableEq

/-- Modelled from the spec: the schema is not among the sources.  A row of `customers`,
with the columns the reports read. -/
structure Customer where
  id : Int
  customer_name : String
  email : String
  phone_number : String
deriving DecidableEq

/-- Modelled from the spec: the schema is not among the sources.  A row of `channels`. -/
structure Channel where
  id : Int
  name : String
  type : String
deriving DecidableEq

/-- Modelled from the spec: the schema is not among the sources.  A row of `stores`. -/
structure Store where
  id : Int
  name : String
  city : String
  state : String
  is_active : Bool
deriving DecidableEq

/-- The tables the reports read. -/
structure Database where
  sales : List Sale
  product_sales : List ProductSale
  products : List Product
  customers : List Customer
  channels : List Channel := []
  stores : List Store := []

/-! ## Execution of a query: `db.query` -/

/-- Why `db.query` rejects. -/
inductive DbError where
  | unboundParameter (k : Nat)
  | unreferencedParameter (k : Nat)
  | parameterType (k : Nat)
  | negativeLimit
deriving DecidableEq, Repr

/-- Modelled from the spec: the module `./db` behind `db.query` is not among the sources;
a statement whose placeholders and parameters do not match is the spec's storage query
failure by malformed SQL.  Preparation of a statement: every placeholder `$k` of the
text needs the parameter `params[k-1]`, and every supplied parameter has to occur in
the text. -/
def prepare (q : Query) : Except DbError Unit :=
  match (placeholders q.sql).find? (fun k => k = 0 || q.params.length < k) with
  | some k => .error (.unboundParameter k)
  | none =>
    match (List.range q.params.length).find? (fun i => !(placeholders q.sql).contains (i + 1)) with
    | some i => .error (.unreferencedParameter (i + 1))
    | none => .ok ()

/-- The parameter behind `$k`. -/
def paramAt (params : List Param) (k : Nat) : Except DbError Param :=
  match k with
  | 0 => .error (.unboundParameter 0)
  | k + 1 =>
    match params.get? k with
    | some p => .ok p
    | none => .error (.unboundParameter (k + 1))

/-- Placeholder `$k` read as a timestamp (`s.created_at >= $k`). -/
def bindTs (params : List Param) (k : Nat) : Except DbError Timestamp :=
  match paramAt params k with
  | .ok (Param.ts t) => .ok t
  | .ok _ => .error (.parameterType k)
  | .error e => .error e

/-- Placeholder `$k` read as an integer array (`ANY($k::int[])`).  The range of `int` is
not checked here: PostgreSQL rejects an array with an element outside it, and `paramFits`
says which parameters are inside. -/
def bindIds (params : List Param) (k : Nat) : Except DbError (List Int) :=
  match paramAt params k with
  | .ok (Param.ids l) => .ok l
  | .ok _ => .error (.parameterType k)
  | .error e => .error e

/-- Placeholder `$k` read as a number (`LIMIT $k`, `INTERVAL '1 day' * $k`). -/
def bindNum (params : List Param) (k : Nat) : Except DbError Int :=
  match paramAt params k with
  | .ok (Param.num n) => .ok n
  | .ok _ => .error (.parameterType k)
  | .error e => .error e

/-- Meaning of a filter fragment: the empty fragment restricts nothing (`none`), the
fragment `AND s.col = ANY($k::int[])` restricts `col` to the array behind `$k`. -/
def bindIdFilter (params : List Param) (fragment : String) : Except DbError (Option (List Int)) :=
  match placeholders fragment with
  | [] => .ok none
  | k :: _ =>
    match bindIds params k with
    | .ok l => .ok (some l)
    | .error e => .error e

/-- Whether `col = ANY(array)` holds under a bound filter. -/
def idMatches (filter : Option (List Int)) (col : Int) : Bool :=
  match filter with
  | none => true
  | some l => l.contains col

/-- The condition `s.created_at >= $1 AND s.created_at <= $2` followed by the store
and channel fragments. -/
def inScope (startDate endDate : Timestamp) (stores channels : Option (List Int)) (s : Sale) :
    Bool :=
  decide (startDate ≤ s.created_at) && decide (s.created_at ≤ endDate)
    && idMatches stores s.store_id && idMatches channels s.channel_id

/-- Whether `sale_status_desc = 'COMPLETED'`. -/
def isCompleted (s : Sale) : Bool := s.sale_status_desc == "COMPLETED"

/-- Whether `sale_status_desc = 'CANCELLED'`. -/
def isCancelled (s : Sale) : Bool := s.sale_status_desc == "CANCELLED"

/-- Evaluation of the `WHERE` clause shared by the date/store/channel filtered reports
over candidate rows, each of which carries its sale `s`: the statement is prepared,
`$1` and `$2` are read as timestamps and each filter fragment is resolved through its
own placeholder. -/
def execWhere {α : Type} (q : Query) (storeFragment channelFragment : String)
    (saleOf : α → Sale) (rows : List α) : Except DbError (List α) := do
  prepare q
  let startDate ← bindTs q.params 1
  let endDate ← bindTs q.params 2
  let stores ← bindIdFilter q.params storeFragment
  let channels ← bindIdFilter q.params channelFragment
  pure (rows.filter fun r => inScope startDate endDate stores channels (saleOf r))

/-! ## SQL functions and aggregates -/

/-- Microseconds in a day. -/
def usecPerDay : Int := 86400000000

/-- Microseconds in an hour. -/
def usecPerHour : Int := 3600000000

/-- The function `DATE(ts)`: the day number of a timestamp. -/
def sqlDate (t : Timestamp) : Int := t / usecPerDay

/-- The function `EXTRACT(HOUR FROM ts)::int`. -/
def extractHour (t : Timestamp) : Int := (t % usecPerDay) / usecPerHour

/-- The function `EXTRACT(DOW FROM ts)::int`, 0 for Sunday (day 0 of the epoch is a
Thursday). -/
def extractDow (t : Timestamp) : Int := (t / usecPerDay + 4) % 7

/-- The function `EXTRACT(DAY FROM a - b)::int`: the whole days of the interval between
two timestamps, truncated toward zero. -/
def extractDay (a b : Timestamp) : Int := Int.tdiv (a - b) usecPerDay

/-- Rounding of a rational to the nearest integer, ties away from zero. -/
def roundHalfAway (q : ℚ) : Int :=
  if 0 ≤ q then ⌊q + 1 / 2⌋ else -⌊-q + 1 / 2⌋

/-- The function `ROUND(x::numeric, d)` on a value that is not null. -/
def roundTo (d : Nat) (q : ℚ) : ℚ := (roundHalfAway (q * 10 ^ d) : ℚ) / 10 ^ d

/-- The function `ROUND(x::numeric, d)`; `none` is `NULL`. -/
def sqlRound (x : Option ℚ) (d : Nat) : Option ℚ := x.map (roundTo d)

/-- The aggregate `SUM`: `NULL` over no row. -/
def sqlSum (xs : List ℚ) : Option ℚ :=
  match xs with
  | [] => none
  | _ :: _ => some xs.sum

/-- The aggregate `AVG`: `NULL` over no row. -/
def sqlAvg (xs : List ℚ) : Option ℚ :=
  match xs with
  | [] => none
  | _ :: _ => some (xs.sum / xs.length)

/-- The aggregate `MAX` over timestamps: `NULL` over no row. -/
def sqlMax (xs : List Timestamp) : Option Timestamp :=
  match xs with
  | [] => none
  | x :: rest => some (rest.foldl max x)

/-- The clause `GROUP BY key`: one group per distinct key, with the rows of that key. -/
def groupBy {α κ : Type} [DecidableEq κ] (key : α → κ) (rows : List α) : List (κ × List α) :=
  ((rows.map key).dedup).map fun k => (k, rows.filter fun r => decide (key r = k))

/-- The clause `LIMIT n`.  The range of `bigint` is not checked here: PostgreSQL rejects
a limit from `2 ^ 63` on, and `fitsInt8` says which integers are inside. -/
def sqlLimit {α : Type} (n : Int) (rows : List α) : Except DbError (List α) :=
  if n < 0 then .error .negativeLimit else .ok (rows.take n.toNat)

/-- The order of `ORDER BY x DESC` on nullable numbers: `a` may stand before `b`.
`NULL` sorts first in descending order. -/
def descOrder (a b : Option ℚ) : Bool :=
  match a, b with
  | none, _ => true
  | some _, none => false
  | some x, some y => decide (y ≤ x)

/-- The row order of `ORDER BY f DESC`. -/
def byDesc {α : Type} (f : α → Option ℚ) (a b : α) : Prop := descOrder (f a) (f b) = true

instance byDesc_decidable {α : Type} (f : α → Option ℚ) : DecidableRel (byDesc f) :=
  fun a b => inferInstanceAs (Decidable (descOrder (f a) (f b) = true))

/-- The row order of `ORDER BY f` (ascending) on an integer column. -/
def byAsc {α : Type} (f : α → Int) (a b : α) : Prop := f a ≤ f b

instance byAsc_decidable {α : Type} (f : α → Int) : DecidableRel (byAsc f) :=
  fun a b => inferInstanceAs (Decidable (f a ≤ f b))

instance byAsc_isTotal {α : Type} (f : α → Int) : IsTotal α (byAsc f) :=
  ⟨fun a b => le_total (f a) (f b)⟩

instance byAsc_isTrans {α : Type} (f : α → Int) : IsTrans α (byAsc f) :=
  ⟨fun _ _ _ h1 h2 => le_trans (α := Int) h1 h2⟩

instance byDesc_isTotal {α : Type} (f : α → Option ℚ) : IsTotal α (byDesc f) :=
  ⟨fun a b => by
    unfold byDesc
    cases f a with
    | none => simp [descOrder]
    | some x =>
      cases f b with
      | none => simp [descOrder]
      | some y => simpa [descOrder] using le_total y x⟩

instance byDesc_isTrans {α : Type} (f : α → Option ℚ) : IsTrans α (byDesc f) :=
  ⟨fun a b c h1 h2 => by
    unfold byDesc at h1 h2 ⊢
    cases hfa : f a with
    | none => simp [descOrder]
    | some x =>
      cases hfb : f b with
      | none => simp [descOrder, hfa, hfb] at h1
      | some y =>
        cases hfc : f c with
        | none => simp [descOrder, hfb, hfc] at h2
        | some z =>
          simp only [descOrder, hfa, hfb, hfc, decide_eq_true_eq] at h1 h2 ⊢
          exact le_trans h2 h1⟩

/-! ## The reports of `queries.js` -/

/-- The row of `getOverview`. -/
structure OverviewRow where
  total_sales : Nat
  completed_sales : Nat
  cancelled_sales : Nat
  avg_ticket : Option ℚ
  total_revenue : Option ℚ
  total_discounts : Option ℚ
deriving DecidableEq

/-- The `SELECT` list of `getOverview` over the rows that pass the `WHERE` clause. -/
def overviewRow (sales : List Sale) : OverviewRow :=
  { total_sales := sales.length
    completed_sales := (sales.filter isCompleted).length
    cancelled_sales := (sales.filter isCancelled).length
    avg_ticket := sqlRound (sqlAvg ((sales.filter isCompleted).map (·.total_amount))) 2
    total_revenue := sqlRound (sqlSum ((sales.filter isCompleted).map (·.total_amount))) 2
    total_discounts := sqlRound (sqlSum ((sales.filter isCompleted).map (·.total_discount))) 2 }

/-- The report `getOverview`: `result.rows[0]`. -/
def getOverview (db : Database) (startDate endDate : Timestamp)
    (storeIds channelIds : Option (List Int)) : Except DbError OverviewRow := do
  let rows ← execWhere (getOverview_query startDate endDate storeIds channelIds)
    (storeFilter storeIds) (channelFilter channelIds) id db.sales
  pure (overviewRow rows)

/-- A row of `getSalesByDate`. -/
structure SalesByDateRow where
  date : Int
  total_sales : Nat
  revenue : Option ℚ
deriving DecidableEq

/-- Grouping, `SELECT` list and `ORDER BY date` of `getSalesByDate`. -/
def salesByDateRows (sales : List Sale) : List SalesByDateRow :=
  ((groupBy (fun s => sqlDate s.created_at) sales).map fun g =>
    ({ date := g.1
       total_sales := (g.2.filter isCompleted).length
       revenue := sqlRound (sqlSum ((g.2.filter isCompleted).map (·.total_amount))) 2 } :
      SalesByDateRow)).insertionSort (byAsc (·.date))

/-- The report `getSalesByDate`. -/
def getSalesByDate (db : Database) (startDate endDate : Timestamp)
    (storeIds channelIds : Option (List Int)) : Except DbError (List SalesByDateRow) := do
  let rows ← execWhere (getSalesByDate_query startDate endDate storeIds channelIds)
    (storeFilter storeIds) (channelFilter channelIds) id db.sales
  pure (salesByDateRows rows)

/-- A row of `getTopProducts`. -/
structure TopProductRow where
  product_name : String
  times_sold : Nat
  total_quantity : Option ℚ
  total_revenue : Option ℚ
  avg_price : Option ℚ
deriving DecidableEq

/-- The joins `product_sales ps JOIN products p ON p.id = ps.product_id
JOIN sales s ON s.id = ps.sale_id`. -/
def productJoin (db : Database) : List (ProductSale × Product × Sale) :=
  db.product_sales.flatMap fun ps =>
    (db.products.filter fun p => decide (p.id = ps.product_id)).flatMap fun p =>
      (db.sales.filter fun s => decide (s.id = ps.sale_id)).map fun s => (ps, p, s)

/-- The `SELECT` list of `getTopProducts` for one group `(p.id, p.name)`. -/
def topProductRow (g : (Int × String) × List (ProductSale × Product × Sale)) : TopProductRow :=
  { product_name := g.1.2
    times_sold := g.2.length
    total_quantity := sqlRound (sqlSum (g.2.map (·.1.quantity))) 2
    total_revenue := sqlRound (sqlSum (g.2.map (·.1.total_price))) 2
    avg_price := sqlRound (sqlAvg (g.2.map (·.1.total_price))) 2 }

/-- Grouping, `SELECT` list and `ORDER BY total_revenue DESC` of `getTopProducts`, over
the joined rows that pass the `WHERE` clause. -/
def topProductRows (joined : List (ProductSale × Product × Sale)) : List TopProductRow :=
  ((groupBy (fun r => (r.2.1.id, r.2.1.name)) joined).map topProductRow).insertionSort
    (byDesc (·.total_revenue))

/-- The report `getTopProducts`; `limit = 10` when the argument is not given. -/
def getTopProducts (db : Database) (startDate endDate : Timestamp)
    (storeIds channelIds : Option (List Int)) (limit : Option Int) :
    Except DbError (List TopProductRow) := do
  let q := getTopProducts_query startDate endDate storeIds channelIds (limit.getD 10)
  let rows ← execWhere q (storeFilter storeIds) (channelFilter channelIds) (·.2.2)
    ((productJoin db).filter fun r => isCompleted r.2.2)
  let n ← bindNum q.params (limitPlaceholder storeIds channelIds)
  sqlLimit n (topProductRows rows)

/-- A row of `getSalesByHour`. -/
structure SalesByHourRow where
  hour : Int
  total_sales : Nat
  revenue : Option ℚ
deriving DecidableEq

/-- Grouping, `SELECT` list and `ORDER BY hour` of `getSalesByHour`. -/
def salesByHourRows (sales : List Sale) : List SalesByHourRow :=
  ((groupBy (fun s => extractHour s.created_at) sales).map fun g =>
    ({ hour := g.1
       total_sales := (g.2.filter isCompleted).length
       revenue := sqlRound (sqlSum ((g.2.filter isCompleted).map (·.total_amount))) 2 } :
      SalesByHourRow)).insertionSort (byAsc (·.hour))

/-- The report `getSalesByHour`; its `WHERE` clause also has
`AND s.sale_status_desc = 'COMPLETED'`. -/
def getSalesByHour (db : Database) (startDate endDate : Timestamp)
    (storeIds channelIds : Option (List Int)) : Except DbError (List SalesByHourRow) := do
  let rows ← execWhere (getSalesByHour_query startDate endDate storeIds channelIds)
    (storeFilter storeIds) (channelFilter channelIds) id (db.sales.filter isCompleted)
  pure (salesByHourRows rows)

/-- The `CASE ... END` of `getSalesByWeekday`; without a matching `WHEN` it is `NULL`. -/
def weekdayName (dow : Int) : Option String :=
  if dow = 0 then some "Domingo"
  else if dow = 1 then some "Segunda"
  else if dow = 2 then some "Terça"
  else if dow = 3 then some "Quarta"
  else if dow = 4 then some "Quinta"
  else if dow = 5 then some "Sexta"
  else if dow = 6 then some "Sábado"
  else none

/-- A row of `getSalesByWeekday`. -/
structure SalesByWeekdayRow where
  weekday : Int
  weekday_name : Option String
  total_sales : Nat
  revenue : Option ℚ
deriving DecidableEq

/-- Grouping by `weekday, weekday_name`, `SELECT` list and `ORDER BY weekday` of
`getSalesByWeekday`. -/
def salesByWeekdayRows (sales : List Sale) : List SalesByWeekdayRow :=
  ((groupBy (fun s => (extractDow s.created_at, weekdayName (extractDow s.created_at))) sales).map
    fun g =>
    ({ weekday := g.1.1
       weekday_name := g.1.2
       total_sales := (g.2.filter isCompleted).length
       revenue := sqlRound (sqlSum ((g.2.filter isCompleted).map (·.total_amount))) 2 } :
      SalesByWeekdayRow)).insertionSort (byAsc (·.weekday))

/-- The report `getSalesByWeekday`. -/
def getSalesByWeekday (db : Database) (startDate endDate : Timestamp)
    (storeIds channelIds : Option (List Int)) : Except DbError (List SalesByWeekdayRow) := do
  let rows ← execWhere (getSalesByWeekday_query startDate endDate storeIds channelIds)
    (storeFilter storeIds) (channelFilter channelIds) id db.sales
  pure (salesByWeekdayRows rows)

/-- A row of `getInactiveCustomers`. -/
structure InactiveCustomerRow where
  customer_name : String
  email : String
  phone_number : String
  total_purchases : Nat
  lifetime_value : Option ℚ
  last_purchase : Option Timestamp
  days_since_purchase : Option Int
deriving DecidableEq

/-- The join `customers c JOIN sales s ON s.customer_id = c.id` under
`WHERE s.sale_status_desc = 'COMPLETED'`. -/
def customerJoin (db : Database) : List (Customer × Sale) :=
  (db.customers.flatMap fun c =>
    (db.sales.filter fun s => decide (s.customer_id = some c.id)).map fun s => (c, s)).filter
    fun r => isCompleted r.2

/-- The `HAVING` clause of `getInactiveCustomers`:
`MAX(s.created_at) < NOW() - INTERVAL '1 day' * $1 AND COUNT(s.id) >= 3`. -/
def havingInactive (now : Timestamp) (days : Int) (g : Customer × List (Customer × Sale)) :
    Bool :=
  (match sqlMax (g.2.map (·.2.created_at)) with
    | some m => decide (m < now - usecPerDay * days)
    | none => false)
  && decide (3 ≤ g.2.length)

/-- The `SELECT` list of `getInactiveCustomers` for one group. -/
def inactiveCustomerRow (now : Timestamp) (g : Customer × List (Customer × Sale)) :
    InactiveCustomerRow :=
  { customer_name := g.1.customer_name
    email := g.1.email
    phone_number := g.1.phone_number
    total_purchases := g.2.length
    lifetime_value := sqlRound (sqlSum (g.2.map (·.2.total_amount))) 2
    last_purchase := sqlMax (g.2.map (·.2.created_at))
    days_since_purchase := (sqlMax (g.2.map (·.2.created_at))).map fun m => extractDay now m }

/-- The groups `getInactiveCustomers` reports, in report order: grouping by the
customer columns, `HAVING`, `ORDER BY lifetime_value DESC`, `LIMIT 50`. -/
def inactiveCustomerGroups (db : Database) (now : Timestamp) (days : Int) :
    List (Customer × List (Customer × Sale)) :=
  ((((groupBy (·.1) (customerJoin db)).filter (havingInactive now days)).insertionSort
    (byDesc fun g => (inactiveCustomerRow now g).lifetime_value)).take 50)

/-- The report `getInactiveCustomers` evaluated at the time `now`; `days = 30` when
the argument is not given. -/
def getInactiveCustomers (db : Database) (now : Timestamp) (days : Option Int) :
    Except DbError (List InactiveCustomerRow) := do
  let q := getInactiveCustomers_query (days.getD 30)
  prepare q
  let d ← bindNum q.params 1
  pure ((inactiveCustomerGroups db now d).map (inactiveCustomerRow now))

/-! ## Notions used to state the properties -/

deriving instance DecidableEq for Except

/-- The placeholders the date/store/channel filtered texts contain. -/
def filterPlaceholders (storeIds channelIds : Option (List Int)) : List Nat :=
  [1, 2] ++ (if hasLength storeIds then [3] else []) ++ (if hasLength channelIds then [4] else [])

/-- The restriction a report is meant to apply for an id list: none when the list is
absent (null or empty). -/
def activeIds (xs : Option (List Int)) : Option (List Int) := if hasLength xs then xs else none

/-- Every placeholder `$k` of the text has its parameter: `1 ≤ k ≤ params.length`. -/
def PlaceholdersBound (q : Query) : Prop :=
  ∀ k ∈ placeholders q.sql, 1 ≤ k ∧ k ≤ q.params.length

/-- Every placeholder of a filter fragment indexes the `params` entry holding `ids`. -/
def FragmentBoundTo (q : Query) (fragment : String) (ids : List Int) : Prop :=
  ∀ k ∈ placeholders fragment, 1 ≤ k ∧ q.params.get? (k - 1) = some (Param.ids ids)

/-- A sale of store 1 and channel 1 without customer, discount or delivery time. -/
def exampleSale (id : Int) (created_at : Timestamp) (total_amount : ℚ) (status : String) : Sale :=
  { id := id
    store_id := 1
    channel_id := 1
    customer_id := none
    created_at := created_at
    total_amount := total_amount
    total_discount := 0
    delivery_seconds := none
    sale_status_desc := status }

/-- The scenario of the overview example: two completed sales of 50 and 30 on 2024-01-01
(10:00 and 12:00) and a cancelled sale of 20 on 2024-01-02 (00:00). -/
def overviewExample : Database :=
  { sales := [exampleSale 1 1704103200000000 50 "COMPLETED",
              exampleSale 2 1704110400000000 30 "COMPLETED",
              exampleSale 3 1704153600000000 20 "CANCELLED"]
    product_sales := []
    products := []
    customers := [] }

/-- The fixed weekday names, index 0 for Sunday. -/
def weekdayNames : List String :=
  ["Domingo", "Segunda", "Terça", "Quarta", "Quinta", "Sexta", "Sábado"]

/-! ## The request handlers of `server.js` -/

/-- The white space `parseInt` skips at the start of its input. -/
def isJsWhiteSpace (c : Char) : Bool :=
  c.toNat = 0x20 || c.toNat = 0x09 || c.toNat = 0x0A || c.toNat = 0x0B || c.toNat = 0x0C
    || c.toNat = 0x0D || c.toNat = 0xA0 || c.toNat = 0x1680
    || (decide (0x2000 ≤ c.toNat) && decide (c.toNat ≤ 0x200A))
    || c.toNat = 0x2028 || c.toNat = 0x2029 || c.toNat = 0x202F || c.toNat = 0x205F
    || c.toNat = 0x3000 || c.toNat = 0xFEFF

/-- The value of a character as a digit of the given radix. -/
def digitOf (radix : Nat) (c : Char) : Option Nat :=
  let v : Option Nat :=
    if '0'.toNat ≤ c.toNat ∧ c.toNat ≤ '9'.toNat then some (c.toNat - '0'.toNat)
    else if 'a'.toNat ≤ c.toNat ∧ c.toNat ≤ 'z'.toNat then some (c.toNat - 'a'.toNat + 10)
    else if 'A'.toNat ≤ c.toNat ∧ c.toNat ≤ 'Z'.toNat then some (c.toNat - 'A'.toNat + 10)
    else none
  match v with
  | some d => if d < radix then some d else none
  | none => none

/-- The longest prefix of digits of the radix, read as a number, starting from the
accumulator `acc`; `seen` tells whether a digit was read. -/
def readDigits (radix : Nat) : List Char → Nat → Bool → Option Nat
  | [], acc, seen => if seen then some acc else none
  | c :: rest, acc, seen =>
    match digitOf radix c with
    | some d => readDigits radix rest (radix * acc + d) true
    | none => if seen then some acc else none

/-- The function `parseInt(string)` of JavaScript without a radix argument: leading
white space is skipped, a sign is read, a prefix `0x` or `0X` selects radix 16, then
the longest prefix of digits is read; `none` is `NaN`.  Numbers are exact integers. -/
def parseInt (s : String) : Option Int :=
  let cs := s.toList.dropWhile isJsWhiteSpace
  let negative := match cs with
    | '-' :: _ => true
    | _ => false
  let cs := match cs with
    | '-' :: rest => rest
    | '+' :: rest => rest
    | _ => cs
  let radix : Nat := match cs with
    | '0' :: 'x' :: _ => 16
    | '0' :: 'X' :: _ => 16
    | _ => 10
  let cs := match cs with
    | '0' :: 'x' :: rest => rest
    | '0' :: 'X' :: rest => rest
    | _ => cs
  match readDigits radix cs 0 false with
  | some n => some (if negative then -(n : Int) else (n : Int))
  | none => none

/-- The expression `parseInt(raw) || dflt`; an absent query value is `undefined`, for
which `parseInt` gives `NaN`. -/
def parseIntOr (raw : Option String) (dflt : Int) : Int :=
  match raw with
  | none => dflt
  | some text =>
    match parseInt text with
    | none => dflt
    | some n => if n = 0 then dflt else n

/-- The value of `extractFilters(req)`. -/
structure Filters where
  startDate : Timestamp
  endDate : Timestamp
  storeIds : Option (List Int)
  channelIds : Option (List Int)
deriving DecidableEq

/-- What a handler sends: `res.json(data)` with status 200, or
`res.status(500).json({ error })`. -/
inductive Response (α : Type) where
  | json (status : Nat) (data : α)
  | failure (status : Nat) (error : String)
deriving DecidableEq

/-- The handler of `GET /api/top-products`, after `extractFilters`; `limit` is
`req.query.limit`. -/
def topProductsHandler (db : Database) (filters : Filters) (limit : Option String) :
    Response (List TopProductRow) :=
  match getTopProducts db filters.startDate filters.endDate filters.storeIds filters.channelIds
      (some (parseIntOr limit 10)) with
  | .ok data => .json 200 data
  | .error _ => .failure 500 "Internal server error"

/-- The scenario of the top-products example: two completed sales on 2024-01-01, one
line of product A for 100 and one line of product B for 200. -/
def productsExample : Database :=
  { sales := [exampleSale 1 1704103200000000 100 "COMPLETED",
              exampleSale 2 1704110400000000 200 "COMPLETED"]
    product_sales := [⟨1, 1, 1, 1, 100⟩, ⟨2, 2, 2, 1, 200⟩]
    products := [⟨1, "A"⟩, ⟨2, "B"⟩]
    customers := [] }

/-- The product lines of COMPLETED sales inside the date range that pass the present
filters: the rows `getTopProducts` groups by product. -/
def completedLinesInRange (db : Database) (startDate endDate : Timestamp)
    (storeIds channelIds : Option (List Int)) : List (ProductSale × Product × Sale) :=
  (productJoin db).filter fun r =>
    isCompleted r.2.2 && inScope startDate endDate (activeIds storeIds) (activeIds channelIds) r.2.2

/-- The COMPLETED sales of the customer with the given id, of any date. -/
def completedPurchases (db : Database) (customerId : Int) : List Sale :=
  db.sales.filter fun s => decide (s.customer_id = some customerId) && isCompleted s

/-- An inactive customer: at least 3 COMPLETED purchases, the latest of them older than
`days` days at the time `now`. -/
def IsInactive (db : Database) (now : Timestamp) (days : Int) (c : Customer) : Prop :=
  3 ≤ (completedPurchases db c.id).length ∧
    ∃ last, sqlMax ((completedPurchases db c.id).map (·.created_at)) = some last ∧
      last < now - usecPerDay * days

/-- The report row of a customer, computed from the customer's COMPLETED purchases. -/
def customerRow (db : Database) (now : Timestamp) (c : Customer) : InactiveCustomerRow :=
  { customer_name := c.customer_name
    email := c.email
    phone_number := c.phone_number
    total_purchases := (completedPurchases db c.id).length
    lifetime_value := sqlRound (sqlSum ((completedPurchases db c.id).map (·.total_amount))) 2
    last_purchase := sqlMax ((completedPurchases db c.id).map (·.created_at))
    days_since_purchase :=
      (sqlMax ((completedPurchases db c.id).map (·.created_at))).map fun m => extractDay now m }

/-- A customer sale with the given customer, time and amount, of store 1, channel 1. -/
def customerSale (id customer : Int) (created_at : Timestamp) (total_amount : ℚ)
    (status : String) : Sale :=
  { id := id
    store_id := 1
    channel_id := 1
    customer_id := some customer
    created_at := created_at
    total_amount := total_amount
    total_discount := 0
    delivery_seconds := none
    sale_status_desc := status }

/-- The scenario of the inactive-customer example: Ana has three completed purchases
on 2024-01-01, Bia has two. -/
def customersExample : Database :=
  { sales := [customerSale 1 1 1704103200000000 10 "COMPLETED",
              customerSale 2 1 1704110400000000 20 "COMPLETED",
              customerSale 3 1 1704114000000000 30 "COMPLETED",
              customerSale 4 2 1704103200000000 500 "COMPLETED",
              customerSale 5 2 1704110400000000 500 "COMPLETED"]
    product_sales := []
    products := []
    customers := [⟨1, "Ana", "ana@example.com", "1"⟩, ⟨2, "Bia", "bia@example.com", "2"⟩] }

/-- The sum of the `revenue` field over the rows of `getSalesByDate`; a `NULL` revenue
adds nothing. -/
def revenueTotal (rows : List SalesByDateRow) : ℚ :=
  (rows.map fun r => r.revenue.getD 0).sum

/-- An amount with at most two decimal places: a whole number of hundredths. -/
def IsCents (q : ℚ) : Prop := ∃ n : Int, q = n / 100

/-- A dataset with two completed sales of 0.005, one on 2024-01-01 and one on
2024-01-02. -/
def roundingExample : Database :=
  { sales := [exampleSale 1 1704103200000000 (1 / 200) "COMPLETED",
              exampleSale 2 1704189600000000 (1 / 200) "COMPLETED"]
    product_sales := []
    products := []
    customers := [] }

/-- The dataset without any row. -/
def emptyExample : Database :=
  { sales := []
    product_sales := []
    products := []
    customers := [] }

/-! ## The channel and customer reports of `queries.js` -/

/-- SQL text of `getSalesByChannel`. -/
def getSalesByChannel_sql (storeFilter : String) : String :=
  "
    SELECT 
      c.name as channel_name,
      c.type as channel_type,
      COUNT(*) FILTER (WHERE s.sale_status_desc = 'COMPLETED') as total_sales,
      ROUND(SUM(s.total_amount) FILTER (WHERE s.sale_status_desc = 'COMPLETED')::numeric, 2) as revenue,
      ROUND(AVG(s.total_amount) FILTER (WHERE s.sale_status_desc = 'COMPLETED')::numeric, 2) as avg_ticket,
      ROUND(AVG(s.delivery_seconds / 60.0) FILTER (WHERE s.sale_status_desc = 'COMPLETED' AND s.delivery_seconds IS NOT NULL)::numeric, 1) as avg_delivery_minutes
    FROM sales s
    JOIN channels c ON c.id = s.channel_id
    WHERE s.created_at >= $1 
      AND s.created_at <= $2
      " ++ storeFilter ++ "
    GROUP BY c.id, c.name, c.type
    ORDER BY revenue DESC
  "

/-- Text and parameters that `getSalesByChannel` hands to `db.query`:
`[startDate, endDate]`, then `storeIds` pushed when present. -/
def getSalesByChannel_query (startDate endDate : Timestamp) (storeIds : Option (List Int)) :
    Query :=
  { sql := getSalesByChannel_sql (storeFilter storeIds)
    params := pushIds [Param.ts startDate, Param.ts endDate] storeIds }

/-- A row of `getSalesByChannel`. -/
structure SalesByChannelRow where
  channel_name : String
  channel_type : String
  total_sales : Nat
  revenue : Option ℚ
  avg_ticket : Option ℚ
  avg_delivery_minutes : Option ℚ
deriving DecidableEq

/-- The join `sales s JOIN channels c ON c.id = s.channel_id`. -/
def channelJoin (db : Database) : List (Sale × Channel) :=
  db.sales.flatMap fun s =>
    (db.channels.filter fun c => decide (c.id = s.channel_id)).map fun c => (s, c)

/-- The values `s.delivery_seconds / 60.0` over the rows that pass
`s.sale_status_desc = 'COMPLETED' AND s.delivery_seconds IS NOT NULL`. -/
def deliveryMinutes (sales : List Sale) : List ℚ :=
  (sales.filter isCompleted).filterMap fun s =>
    s.delivery_seconds.map fun (d : Int) => (d : ℚ) / 60

/-- The `SELECT` list of `getSalesByChannel` for one group `(c.id, c.name, c.type)`. -/
def salesByChannelRow (g : Channel × List (Sale × Channel)) : SalesByChannelRow :=
  { channel_name := g.1.name
    channel_type := g.1.type
    total_sales := ((g.2.map (·.1)).filter isCompleted).length
    revenue := sqlRound (sqlSum (((g.2.map (·.1)).filter isCompleted).map (·.total_amount))) 2
    avg_ticket := sqlRound (sqlAvg (((g.2.map (·.1)).filter isCompleted).map (·.total_amount))) 2
    avg_delivery_minutes := sqlRound (sqlAvg (deliveryMinutes (g.2.map (·.1)))) 1 }

/-- Grouping, `SELECT` list and `ORDER BY revenue DESC` of `getSalesByChannel`. -/
def salesByChannelRows (joined : List (Sale × Channel)) : List SalesByChannelRow :=
  ((groupBy (·.2) joined).map salesByChannelRow).insertionSort (byDesc (·.revenue))

/-- The report `getSalesByChannel`; it has no channel fragment. -/
def getSalesByChannel (db : Database) (startDate endDate : Timestamp)
    (storeIds : Option (List Int)) : Except DbError (List SalesByChannelRow) := do
  let rows ← execWhere (getSalesByChannel_query startDate endDate storeIds)
    (storeFilter storeIds) "" (·.1) (channelJoin db)
  pure (salesByChannelRows rows)

/-- SQL text of `getTopCustomers`. -/
def getTopCustomers_sql : String :=
  "
    SELECT 
      c.customer_name,
      c.email,
      COUNT(s.id) as total_purchases,
      ROUND(SUM(s.total_amount)::numeric, 2) as lifetime_value,
      ROUND(AVG(s.total_amount)::numeric, 2) as avg_ticket,
      MAX(s.created_at) as last_purchase
    FROM customers c
    JOIN sales s ON s.customer_id = c.id
    WHERE s.sale_status_desc = 'COMPLETED'
      AND s.created_at >= $1 
      AND s.created_at <= $2
    GROUP BY c.id, c.customer_name, c.email
    ORDER BY lifetime_value DESC
    LIMIT $3
  "

/-- Text and parameters that `getTopCustomers` hands to `db.query`. -/
def getTopCustomers_query (startDate endDate : Timestamp) (limit : Int) : Query :=
  { sql := getTopCustomers_sql
    params := [Param.ts startDate, Param.ts endDate, Param.num limit] }

/-- A row of `getTopCustomers`. -/
structure TopCustomerRow where
  customer_name : String
  email : String
  total_purchases : Nat
  lifetime_value : Option ℚ
  avg_ticket : Option ℚ
  last_purchase : Option Timestamp
deriving DecidableEq

/-- The `SELECT` list of `getTopCustomers` for one group `(c.id, c.customer_name, c.email)`. -/
def topCustomerRow (g : (Int × String × String) × List (Customer × Sale)) : TopCustomerRow :=
  { customer_name := g.1.2.1
    email := g.1.2.2
    total_purchases := g.2.length
    lifetime_value := sqlRound (sqlSum (g.2.map (·.2.total_amount))) 2
    avg_ticket := sqlRound (sqlAvg (g.2.map (·.2.total_amount))) 2
    last_purchase := sqlMax (g.2.map (·.2.created_at)) }

/-- Grouping, `SELECT` list and `ORDER BY lifetime_value DESC` of `getTopCustomers`, over
the joined rows that pass the `WHERE` clause. -/
def topCustomerRows (joined : List (Customer × Sale)) : List TopCustomerRow :=
  ((groupBy (fun r => (r.1.id, r.1.customer_name, r.1.email)) joined).map
    topCustomerRow).insertionSort (byDesc (·.lifetime_value))

/-- The report `getTopCustomers`; `limit = 20` when the argument is not given.  Its
`WHERE` clause has the two date conditions and no filter fragment. -/
def getTopCustomers (db : Database) (startDate endDate : Timestamp) (limit : Option Int) :
    Except DbError (List TopCustomerRow) := do
  let q := getTopCustomers_query startDate endDate (limit.getD 20)
  let rows ← execWhere q "" "" (·.2) (customerJoin db)
  let n ← bindNum q.params 3
  sqlLimit n (topCustomerRows rows)

/-- A dataset for the channel and customer reports: channel 1 (iFood, delivery) with two
completed sales of customer 1, of 100 with 1200 seconds and of 50 with 1500 seconds of
delivery, and a cancelled sale; channel 2 (Balcao, presencial) with one completed sale
of customer 2 without delivery time.  All sales are of store 1 on 2024-01-01. -/
def channelsExample : Database :=
  { sales := [{ id := 1, store_id := 1, channel_id := 1, customer_id := some 1,
                created_at := 1704103200000000, total_amount := 100, total_discount := 0,
                delivery_seconds := some 1200, sale_status_desc := "COMPLETED" },
              { id := 2, store_id := 1, channel_id := 1, customer_id := some 1,
                created_at := 1704110400000000, total_amount := 50, total_discount := 0,
                delivery_seconds := some 1500, sale_status_desc := "COMPLETED" },
              { id := 3, store_id := 1, channel_id := 1, customer_id := some 1,
                created_at := 1704114000000000, total_amount := 70, total_discount := 0,
                delivery_seconds := some 9000, sale_status_desc := "CANCELLED" },
              { id := 4, store_id := 1, channel_id := 2, customer_id := some 2,
                created_at := 1704117600000000, total_amount := 30, total_discount := 0,
                delivery_seconds := none, sale_status_desc := "COMPLETED" }]
    product_sales := [⟨1, 1, 1, 1, 100⟩, ⟨2, 2, 1, 1, 50⟩, ⟨3, 4, 2, 1, 30⟩]
    products := [⟨1, "A"⟩, ⟨2, "B"⟩]
    customers := [⟨1, "Ana", "ana@example.com", "1"⟩, ⟨2, "Bia", "bia@example.com", "2"⟩]
    channels := [⟨1, "iFood", "D"⟩, ⟨2, "Balcao", "P"⟩] }

/-- The recorded delivery times, in seconds, of the COMPLETED sales of a channel that lie
in the date range and pass the store filter. -/
def recordedDeliveries (db : Database) (startDate endDate : Timestamp)
    (storeIds : Option (List Int)) (c : Channel) : List Int :=
  (db.sales.filter fun x =>
    decide (x.channel_id = c.id) && isCompleted x
      && inScope startDate endDate (activeIds storeIds) none x).filterMap (·.delivery_seconds)

/-- The COMPLETED sales of a customer inside the date range, bounds included. -/
def purchasesInRange (db : Database) (startDate endDate : Timestamp) (c : Customer) :
    List Sale :=
  db.sales.filter fun x =>
    decide (x.customer_id = some c.id) && isCompleted x
      && decide (startDate ≤ x.created_at) && decide (x.created_at ≤ endDate)

/-- The sale lies in the date range, both bounds included, and passes each filter that
is present. -/
def InRangeAndFilters (startDate endDate : Timestamp) (storeIds channelIds : Option (List Int))
    (x : Sale) : Prop :=
  startDate ≤ x.created_at ∧ x.created_at ≤ endDate ∧
    (∀ l, activeIds storeIds = some l → x.store_id ∈ l) ∧
    (∀ l, activeIds channelIds = some l → x.channel_id ∈ l)

/-- Two datasets that differ at most in sales that are not COMPLETED: the COMPLETED
sales are the same, in the same order, and so are the other tables. -/
def SameCompleted (db db' : Database) : Prop :=
  db.sales.filter isCompleted = db'.sales.filter isCompleted ∧
    db.product_sales = db'.product_sales ∧ db.products = db'.products ∧
    db.customers = db'.customers ∧ db.channels = db'.channels

/-- The channel example after the removal of its cancelled sale. -/
def channelsExampleCompleted : Database :=
  { channelsExample with sales := channelsExample.sales.filter isCompleted }

/-! ## Numbers and id lists as query-string text -/

/-- The decimal digit with the given value. -/
def digitChar (d : Nat) : Char := Char.ofNat ('0'.toNat + d)

/-- The decimal digits of a natural number, most significant first; the first argument
bounds the number of digits. -/
def decimalDigits : Nat → Nat → List Char
  | 0, _ => []
  | fuel + 1, n =>
    if n < 10 then [digitChar n] else decimalDigits fuel (n / 10) ++ [digitChar (n % 10)]

/-- The characters of `String(n)` for an integer `n`: an optional minus sign and the
decimal digits. -/
def numberChars (n : Int) : List Char :=
  if n < 0 then '-' :: decimalDigits (n.natAbs + 1) n.natAbs
  else decimalDigits (n.toNat + 1) n.toNat

/-- The characters of `pieces.join(',')`. -/
def joinComma : List (List Char) → List Char
  | [] => []
  | [p] => p
  | p :: q :: rest => p ++ ',' :: joinComma (q :: rest)

/-- The pieces of `text.split(',')`; the empty text has the single empty piece. -/
def splitComma : List Char → List (List Char)
  | [] => [[]]
  | c :: rest =>
    if c = ',' then [] :: splitComma rest
    else
      match splitComma rest with
      | [] => [[c]]
      | p :: ps => (c :: p) :: ps

/-- What `Number(text)` gives, as far as an integer array parameter can hold it. -/
inductive JsNumber where
  | int (n : Int)
  | notInteger
deriving DecidableEq, Repr

/-- The text without white space at either end. -/
def trimChars (cs : List Char) : List Char :=
  ((cs.dropWhile isJsWhiteSpace).reverse.dropWhile isJsWhiteSpace).reverse

/-- A literal with prefix `0x`, `0o` or `0b`: all characters after the prefix have to be
digits of the radix, and there has to be one. -/
def radixLiteral (radix : Nat) (cs : List Char) : JsNumber :=
  if cs ≠ [] ∧ cs.all (fun c => (digitOf radix c).isSome) then
    match readDigits radix cs 0 false with
    | some n => .int n
    | none => .notInteger
  else .notInteger

/-- The value `mantissa * 10 ^ exponent` when it is an integer. -/
def scaledInteger (mantissa : Nat) (exponent : Int) : JsNumber :=
  if 0 ≤ exponent then .int (mantissa * 10 ^ exponent.toNat)
  else if mantissa % 10 ^ (-exponent).toNat = 0 then .int (mantissa / 10 ^ (-exponent).toNat)
  else .notInteger

/-- The exponent part `e±digits` that ends a decimal literal; `none` when the text is
neither empty nor an exponent part. -/
def exponentPart (cs : List Char) : Option Int :=
  match cs with
  | [] => some 0
  | c :: rest =>
    if c = 'e' ∨ c = 'E' then
      let negative := rest.head? = some '-'
      let digits := if rest.head? = some '-' ∨ rest.head? = some '+' then rest.tail else rest
      if digits ≠ [] ∧ digits.all Char.isDigit then
        some (if negative then -(digitsValue digits : Int) else (digitsValue digits : Int))
      else none
    else none

/-- An unsigned decimal literal: digits, an optional fraction and an optional exponent,
with a digit before or after the point. -/
def decimalLiteral (cs : List Char) : JsNumber :=
  let whole := cs.takeWhile Char.isDigit
  let rest := cs.dropWhile Char.isDigit
  let fraction := if rest.head? = some '.' then rest.tail.takeWhile Char.isDigit else []
  let rest := if rest.head? = some '.' then rest.tail.dropWhile Char.isDigit else rest
  if whole = [] ∧ fraction = [] then .notInteger
  else
    match exponentPart rest with
    | some e => scaledInteger (digitsValue (whole ++ fraction)) (e - fraction.length)
    | none => .notInteger

/-- The function `Number(text)`: white space at the ends is dropped, the empty text is
0, a prefix `0x`, `0o` or `0b` without sign selects the radix, otherwise an optional
sign and a decimal literal are read; any other text, `Infinity` included, is not an
integer.  Numbers are exact. -/
def jsNumber (text : List Char) : JsNumber :=
  let cs := trimChars text
  if cs = [] then .int 0
  else if cs.take 2 = ['0', 'x'] ∨ cs.take 2 = ['0', 'X'] then radixLiteral 16 (cs.drop 2)
  else if cs.take 2 = ['0', 'o'] ∨ cs.take 2 = ['0', 'O'] then radixLiteral 8 (cs.drop 2)
  else if cs.take 2 = ['0', 'b'] ∨ cs.take 2 = ['0', 'B'] then radixLiteral 2 (cs.drop 2)
  else if cs.head? = some '-' then
    match decimalLiteral cs.tail with
    | .int n => .int (-n)
    | .notInteger => .notInteger
  else if cs.head? = some '+' then decimalLiteral cs.tail
  else decimalLiteral cs

/-! ## Reference lookups of `queries.js` -/

/-- SQL text of `getStores`. -/
def getStores_sql : String :=
  "
    SELECT id, name, city, state, is_active
    FROM stores
    WHERE is_active = true
    ORDER BY name
  "

/-- SQL text of `getChannels`. -/
def getChannels_sql : String :=
  "
    SELECT id, name, type
    FROM channels
    ORDER BY name
  "

/-- The lookup `getStores`: the active stores by name; names are compared as sequences
of code points. -/
def getStores (db : Database) : Except DbError (List Store) := do
  prepare { sql := getStores_sql, params := [] }
  pure ((db.stores.filter fun x => x.is_active).insertionSort fun a b => a.name ≤ b.name)

/-- The lookup `getChannels`: the channels by name. -/
def getChannels (db : Database) : Except DbError (List Channel) := do
  prepare { sql := getChannels_sql, params := [] }
  pure (db.channels.insertionSort fun a b => a.name ≤ b.name)

/-! ## Requests: `extractFilters` and the endpoints of `server.js` -/

/-- A value of `req.query`: a string, an array for a repeated key, or an object for a
key written with brackets. -/
inductive QueryValue where
  | text (s : String)
  | array (items : List String)
  | object
deriving DecidableEq, Repr

/-- Truthiness of a query value: only the empty string is falsy. -/
def QueryValue.isTruthy : QueryValue → Bool
  | .text s => decide (s ≠ "")
  | .array _ => true
  | .object => true

/-- The query parameters the handlers read; `none` is `undefined`. -/
structure RequestQuery where
  startDate : Option QueryValue := none
  endDate : Option QueryValue := none
  storeIds : Option QueryValue := none
  channelIds : Option QueryValue := none
  limit : Option QueryValue := none
  days : Option QueryValue := none
deriving DecidableEq

/-- The string `parseInt` works on: `String(value)`; for `undefined` the result of
`parseInt` is `NaN`, which is `none` here. -/
def queryText : Option QueryValue → Option String
  | none => none
  | some (.text s) => some s
  | some (.array items) => some (String.mk (joinComma (items.map String.toList)))
  | some .object => some "[object Object]"

/-- A date the handler passes to the query: a query value passed through, or the text
`new Date(ms).toISOString()` of an instant in milliseconds. -/
inductive DateArg where
  | supplied (v : QueryValue)
  | isoString (ms : Int)
deriving DecidableEq, Repr

/-- What a handler can throw inside its `try` block. -/
inductive Thrown where
  | typeError
  | invalidInput
  | query (e : DbError)
deriving DecidableEq, Repr

/-- The value of `extractFilters(req)`. -/
structure ExtractedFilters where
  startDate : DateArg
  endDate : DateArg
  storeIds : Option (List JsNumber)
  channelIds : Option (List JsNumber)
deriving DecidableEq

/-- The expression `value || new Date(ms).toISOString()`. -/
def extractDate (value : Option QueryValue) (ms : Int) : DateArg :=
  match value with
  | some v => if v.isTruthy then .supplied v else .isoString ms
  | none => .isoString ms

/-- The expression `value ? value.split(',').map(Number) : null`; a truthy value that is
not a string has no `split` and the call throws. -/
def extractIds (value : Option QueryValue) : Except Thrown (Option (List JsNumber)) :=
  match value with
  | none => .ok none
  | some (.text s) =>
    if s = "" then .ok none else .ok (some ((splitComma s.toList).map jsNumber))
  | some (.array _) => .error .typeError
  | some .object => .error .typeError

/-- The helper `extractFilters`, evaluated at the time `now` (milliseconds). -/
def extractFilters (now : Int) (query : RequestQuery) : Except Thrown ExtractedFilters := do
  let storeIds ← extractIds query.storeIds
  let channelIds ← extractIds query.channelIds
  pure { startDate := extractDate query.startDate (now - 30 * 24 * 60 * 60 * 1000)
         endDate := extractDate query.endDate now
         storeIds := storeIds
         channelIds := channelIds }

/-- What the handlers take from their surroundings: the clock of the server in
milliseconds, the clock of the database, and the reading of a timestamp text by the
database (`none` when the text is rejected). -/
structure ServerEnv where
  now : Int
  dbNow : Timestamp
  readTimestamp : String → Option Timestamp

/-- The timestamp the database reads from a date parameter. -/
def resolveDate (env : ServerEnv) : DateArg → Except Thrown Timestamp
  | .isoString ms => .ok (ms * 1000)
  | .supplied (.text s) =>
    match env.readTimestamp s with
    | some t => .ok t
    | none => .error .invalidInput
  | .supplied _ => .error .invalidInput

/-- The integers of an array parameter under the cast `::int[]`.  The range of `int` is
not checked here: PostgreSQL rejects an element outside it, and `fitsInt4` says which
integers are inside. -/
def integersOf : List JsNumber → Option (List Int)
  | [] => some []
  | .int n :: rest => (integersOf rest).map fun l => n :: l
  | .notInteger :: _ => none

/-- The id list the database reads from an array parameter. -/
def resolveIds : Option (List JsNumber) → Except Thrown (Option (List Int))
  | none => .ok none
  | some l =>
    match integersOf l with
    | some ids => .ok (some ids)
    | none => .error .invalidInput

/-- The parameters of a report filtered by date, store and channel. -/
def resolveFilters (env : ServerEnv) (f : ExtractedFilters) : Except Thrown Filters := do
  let startDate ← resolveDate env f.startDate
  let endDate ← resolveDate env f.endDate
  let storeIds ← resolveIds f.storeIds
  let channelIds ← resolveIds f.channelIds
  pure { startDate := startDate, endDate := endDate, storeIds := storeIds,
         channelIds := channelIds }

/-- A rejection of `db.query` as what the `await` throws. -/
def liftQuery {α : Type} (r : Except DbError α) : Except Thrown α :=
  match r with
  | .ok a => .ok a
  | .error e => .error (.query e)

/-- The `try`/`catch` of every handler: `res.json(data)`, or status 500 with the body
`{ error: 'Internal server error' }`. -/
def respond {α : Type} (outcome : Except Thrown α) : Response α :=
  match outcome with
  | .ok data => .json 200 data
  | .error _ => .failure 500 "Internal server error"

/-- The `try` block of `GET /api/overview`. -/
def overviewOutcome (env : ServerEnv) (db : Database) (query : RequestQuery) :
    Except Thrown OverviewRow := do
  let f ← extractFilters env.now query
  let filters ← resolveFilters env f
  liftQuery (getOverview db filters.startDate filters.endDate filters.storeIds
    filters.channelIds)

/-- The `try` block of `GET /api/sales-by-date`. -/
def salesByDateOutcome (env : ServerEnv) (db : Database) (query : RequestQuery) :
    Except Thrown (List SalesByDateRow) := do
  let f ← extractFilters env.now query
  let filters ← resolveFilters env f
  liftQuery (getSalesByDate db filters.startDate filters.endDate filters.storeIds
    filters.channelIds)

/-- The `try` block of `GET /api/top-products`: `limit` is `parseInt(req.query.limit) || 10`. -/
def topProductsOutcome (env : ServerEnv) (db : Database) (query : RequestQuery) :
    Except Thrown (List TopProductRow) := do
  let f ← extractFilters env.now query
  let limit := parseIntOr (queryText query.limit) 10
  let filters ← resolveFilters env f
  liftQuery (getTopProducts db filters.startDate filters.endDate filters.storeIds
    filters.channelIds (some limit))

/-- The `try` block of `GET /api/sales-by-channel`: the channel list is not passed on. -/
def salesByChannelOutcome (env : ServerEnv) (db : Database) (query : RequestQuery) :
    Except Thrown (List SalesByChannelRow) := do
  let f ← extractFilters env.now query
  let startDate ← resolveDate env f.startDate
  let endDate ← resolveDate env f.endDate
  let storeIds ← resolveIds f.storeIds
  liftQuery (getSalesByChannel db startDate endDate storeIds)

/-- The `try` block of `GET /api/sales-by-hour`. -/
def salesByHourOutcome (env : ServerEnv) (db : Database) (query : RequestQuery) :
    Except Thrown (List SalesByHourRow) := do
  let f ← extractFilters env.now query
  let filters ← resolveFilters env f
  liftQuery (getSalesByHour db filters.startDate filters.endDate filters.storeIds
    filters.channelIds)

/-- The `try` block of `GET /api/sales-by-weekday`. -/
def salesByWeekdayOutcome (env : ServerEnv) (db : Database) (query : RequestQuery) :
    Except Thrown (List SalesByWeekdayRow) := do
  let f ← extractFilters env.now query
  let filters ← resolveFilters env f
  liftQuery (getSalesByWeekday db filters.startDate filters.endDate filters.storeIds
    filters.channelIds)

/-- The `try` block of `GET /api/top-customers`: `limit` is
`parseInt(req.query.limit) || 20`; neither id list is passed on. -/
def topCustomersOutcome (env : ServerEnv) (db : Database) (query : RequestQuery) :
    Except Thrown (List TopCustomerRow) := do
  let f ← extractFilters env.now query
  let limit := parseIntOr (queryText query.limit) 20
  let startDate ← resolveDate env f.startDate
  let endDate ← resolveDate env f.endDate
  liftQuery (getTopCustomers db startDate endDate (some limit))

/-- The `try` block of `GET /api/inactive-customers`: `days` is
`parseInt(req.query.days) || 30`; `extractFilters` is not called. -/
def inactiveCustomersOutcome (env : ServerEnv) (db : Database) (query : RequestQuery) :
    Except Thrown (List InactiveCustomerRow) :=
  liftQuery (getInactiveCustomers db env.dbNow (some (parseIntOr (queryText query.days) 30)))

/-- The `try` block of `GET /api/stores`. -/
def storesOutcome (db : Database) : Except Thrown (List Store) := liftQuery (getStores db)

/-- The `try` block of `GET /api/channels`. -/
def channelsOutcome (db : Database) : Except Thrown (List Channel) :=
  liftQuery (getChannels db)

/-- The handler of `GET /api/overview`. -/
def apiOverview (env : ServerEnv) (db : Database) (query : RequestQuery) :
    Response OverviewRow := respond (overviewOutcome env db query)

/-- The handler of `GET /api/sales-by-date`. -/
def apiSalesByDate (env : ServerEnv) (db : Database) (query : RequestQuery) :
    Response (List SalesByDateRow) := respond (salesByDateOutcome env db query)

/-- The handler of `GET /api/top-products`. -/
def apiTopProducts (env : ServerEnv) (db : Database) (query : RequestQuery) :
    Response (List TopProductRow) := respond (topProductsOutcome env db query)

/-- The handler of `GET /api/sales-by-channel`. -/
def apiSalesByChannel (env : ServerEnv) (db : Database) (query : RequestQuery) :
    Response (List SalesByChannelRow) := respond (salesByChannelOutcome env db query)

/-- The handler of `GET /api/sales-by-hour`. -/
def apiSalesByHour (env : ServerEnv) (db : Database) (query : RequestQuery) :
    Response (List SalesByHourRow) := respond (salesByHourOutcome env db query)

/-- The handler of `GET /api/sales-by-weekday`. -/
def apiSalesByWeekday (env : ServerEnv) (db : Database) (query : RequestQuery) :
    Response (List SalesByWeekdayRow) := respond (salesByWeekdayOutcome env db query)

/-- The handler of `GET /api/top-customers`. -/
def apiTopCustomers (env : ServerEnv) (db : Database) (query : RequestQuery) :
    Response (List TopCustomerRow) := respond (topCustomersOutcome env db query)

/-- The handler of `GET /api/inactive-customers`. -/
def apiInactiveCustomers (env : ServerEnv) (db : Database) (query : RequestQuery) :
    Response (List InactiveCustomerRow) := respond (inactiveCustomersOutcome env db query)

/-- The handler of `GET /api/stores`. -/
def apiStores (db : Database) : Response (List Store) := respond (storesOutcome db)

/-- The handler of `GET /api/channels`. -/
def apiChannels (db : Database) : Response (List Channel) := respond (channelsOutcome db)

/-- A server whose clock shows 2024-01-31 00:00 and whose database reads no text but
`2024-01-01` and `2024-01-02`, as the midnight of that day. -/
def exampleEnv : ServerEnv :=
  { now := 1706659200000
    dbNow := 1706659200000000
    readTimestamp := fun s =>
      if s = "2024-01-01" then some 1704067200000000
      else if s = "2024-01-02" then some 1704153600000000
      else none }

/-- The contract of a handler around an operation on the extracted filters: the answer is
500 with the body `{ error: 'Internal server error' }` when `extractFilters` throws,
when the database rejects a parameter text, and when the operation rejects; otherwise
it is 200 with the result of the operation. -/
def HandlesFiltered {α : Type} (env : ServerEnv) (query : RequestQuery)
    (op : Filters → Except DbError α) (response : Response α) : Prop :=
  (∀ t, extractFilters env.now query = .error t →
    response = .failure 500 "Internal server error") ∧
  (∀ f t, extractFilters env.now query = .ok f → resolveFilters env f = .error t →
    response = .failure 500 "Internal server error") ∧
  (∀ f filters e, extractFilters env.now query = .ok f → resolveFilters env f = .ok filters →
    op filters = .error e → response = .failure 500 "Internal server error") ∧
  (∀ f filters data, extractFilters env.now query = .ok f →
    resolveFilters env f = .ok filters → op filters = .ok data → response = .json 200 data)

/-- The contract of a handler around an operation without filters. -/
def HandlesPlain {α : Type} (op : Except DbError α) (response : Response α) : Prop :=
  (∀ e, op = .error e → response = .failure 500 "Internal server error") ∧
  (∀ data, op = .ok data → response = .json 200 data)

/-! ## The query string of the frontend (`api.js`) -/

/-- A value of the object given to `buildQueryString`. -/
inductive ClientValue where
  | null
  | undefined
  | text (s : String)
  | number (n : Int)
  | numbers (items : List Int)
deriving DecidableEq, Repr

/-- The text `buildQueryString` appends for a value, `none` when the entry is left out:
`null`, `undefined` and `''` are left out, an array is joined with commas, a number is
written in decimal. -/
def emitValue : ClientValue → Option String
  | .null => none
  | .undefined => none
  | .text s => if s = "" then none else some s
  | .number n => some (String.mk (numberChars n))
  | .numbers items => some (String.mk (joinComma (items.map numberChars)))

/-- The function `buildQueryString`, given by the entries it appends to the
`URLSearchParams`, in order.  The percent-encoding of `query.toString()` and its
decoding by the query parser of the server are not modelled. -/
def buildQueryString (params : List (String × ClientValue)) : List (String × String) :=
  params.filterMap fun entry => (emitValue entry.2).map fun v => (entry.1, v)

/-- The value of `req.query[key]` for a query string with the given entries: absent
without an entry, a string for one entry, an array for a repeated key. -/
def queryValueOf (key : String) (entries : List (String × String)) : Option QueryValue :=
  match (entries.filter fun entry => entry.1 = key).map (·.2) with
  | [] => none
  | [v] => some (.text v)
  | vs => some (.array vs)

/-- The object `req.query` for a query string with the given entries. -/
def requestQueryOf (entries : List (String × String)) : RequestQuery :=
  { startDate := queryValueOf "startDate" entries
    endDate := queryValueOf "endDate" entries
    storeIds := queryValueOf "storeIds" entries
    channelIds := queryValueOf "channelIds" entries
    limit := queryValueOf "limit" entries
    days := queryValueOf "days" entries }

/-- A decimal digit character. -/
def IsDigitChar (c : Char) : Prop := ∃ d, d < 10 ∧ c = digitChar d

/-! ## The component `App` (`App.jsx`): filter state -/

/-- A filters object of the component. -/
structure UiFilters where
  startDate : String
  endDate : String
  storeIds : List Int
  channelIds : List Int
deriving DecidableEq

/-- The state of `App` that the filters and the tabs use.  `productLimit` is a
JavaScript number, here a rational. -/
structure AppState where
  currentFilters : UiFilters
  appliedFilters : UiFilters
  productLimit : ℚ
  appliedProductLimit : ℚ
  activeTab : String
deriving DecidableEq

/-- The events of the filter panel, the tab bar and the product-limit control. -/
inductive UiEvent where
  | changeStartDate (value : String)
  | changeEndDate (value : String)
  | changeStores (selected : List Int)
  | changeChannels (selected : List Int)
  | changeProductLimit (value : ℚ)
  | applyFilters
  | resetFilters
  | selectTab (id : String)
  | applyProductLimit
deriving DecidableEq

/-- A call of a state setter. -/
inductive SetState where
  | setCurrentFilters (value : UiFilters)
  | setAppliedFilters (value : UiFilters)
  | setProductLimit (value : ℚ)
  | setAppliedProductLimit (value : ℚ)
  | setActiveTab (value : String)
deriving DecidableEq

/-- The setter calls of the handler of an event, in a render with the state `s` and the
object `defaultFilters` of that render. -/
def handlerCalls (defaultFilters : UiFilters) (s : AppState) : UiEvent → List SetState
  | .changeStartDate value => [.setCurrentFilters { s.currentFilters with startDate := value }]
  | .changeEndDate value => [.setCurrentFilters { s.currentFilters with endDate := value }]
  | .changeStores selected => [.setCurrentFilters { s.currentFilters with storeIds := selected }]
  | .changeChannels selected =>
    [.setCurrentFilters { s.currentFilters with channelIds := selected }]
  | .changeProductLimit value => [.setProductLimit value]
  | .applyFilters => [.setAppliedFilters s.currentFilters]
  | .resetFilters => [.setCurrentFilters defaultFilters, .setAppliedFilters defaultFilters]
  | .selectTab id => [.setActiveTab id]
  | .applyProductLimit => [.setAppliedProductLimit s.productLimit]

/-- The state after a setter call. -/
def SetState.run (s : AppState) : SetState → AppState
  | .setCurrentFilters value => { s with currentFilters := value }
  | .setAppliedFilters value => { s with appliedFilters := value }
  | .setProductLimit value => { s with productLimit := value }
  | .setAppliedProductLimit value => { s with appliedProductLimit := value }
  | .setActiveTab value => { s with activeTab := value }

/-- The state of the next render after an event. -/
def uiStep (defaultFilters : UiFilters) (s : AppState) (e : UiEvent) : AppState :=
  (handlerCalls defaultFilters s e).foldl SetState.run s

/-- Whether a setter belongs to a dependency of the effect that calls `loadData`:
`[appliedFilters, activeTab, appliedProductLimit]`. -/
def SetState.isLoadDependency : SetState → Bool
  | .setAppliedFilters _ => true
  | .setAppliedProductLimit _ => true
  | .setActiveTab _ => true
  | _ => false

/-- Whether an event sets a dependency of the effect that calls `loadData`; the effect
runs again after a render only if one of its dependencies was set. -/
def setsLoadDependency (defaultFilters : UiFilters) (s : AppState) (e : UiEvent) : Bool :=
  (handlerCalls defaultFilters s e).any SetState.isLoadDependency

/-- The edits of a filter input or of the product-limit input. -/
def UiEvent.isEdit : UiEvent → Bool
  | .changeStartDate _ => true
  | .changeEndDate _ => true
  | .changeStores _ => true
  | .changeChannels _ => true
  | .changeProductLimit _ => true
  | _ => false

/-- The state of the component before any interaction, with the filters of 2024-01-31. -/
def exampleAppState : AppState :=
  { currentFilters := ⟨"2024-01-01", "2024-01-31", [], []⟩
    appliedFilters := ⟨"2024-01-01", "2024-01-31", [], []⟩
    productLimit := 10
    appliedProductLimit := 10
    activeTab := "overview" }

/-! ## The component `App`: `loadData` -/

/-- The value of `response.json()`: the data of a 200 answer, or the error body
`{ error }` of a 500 answer. -/
inductive Body (α : Type) where
  | data (value : α)
  | errorBody (error : String)
deriving DecidableEq

/-- The outcome of `fetch(url)`: the promise rejects, or the server answers. -/
inductive FetchResult (α : Type) where
  | rejected
  | answered (response : Response α)
deriving DecidableEq

/-- The fetch functions of `api.js`: `await fetch(...)` then `response.json()`, without a
look at the status; `none` when the promise rejects. -/
def fetchJson {α : Type} : FetchResult α → Option (Body α)
  | .rejected => none
  | .answered (.json _ value) => some (.data value)
  | .answered (.failure _ error) => some (.errorBody error)

/-- What the requests of `loadData` meet, one outcome per endpoint. -/
structure Network where
  overview : FetchResult OverviewRow
  salesByDate : FetchResult (List SalesByDateRow)
  topProducts : FetchResult (List TopProductRow)
  salesByChannel : FetchResult (List SalesByChannelRow)
  salesByHour : FetchResult (List SalesByHourRow)
  salesByWeekday : FetchResult (List SalesByWeekdayRow)
  topCustomers : FetchResult (List TopCustomerRow)
  inactiveCustomers : FetchResult (List InactiveCustomerRow)

/-- The report state variables of `App` and `loading`; `overview` starts as `null`. -/
structure ReportState where
  overview : Option (Body OverviewRow)
  salesByDate : Body (List SalesByDateRow)
  topProducts : Body (List TopProductRow)
  salesByChannel : Body (List SalesByChannelRow)
  salesByHour : Body (List SalesByHourRow)
  salesByWeekday : Body (List SalesByWeekdayRow)
  topCustomers : Body (List TopCustomerRow)
  inactiveCustomers : Body (List InactiveCustomerRow)
  loading : Bool
deriving DecidableEq

/-- The `try` block of `loadData` for the active tab: the state after the setters, or
`none` when an awaited promise rejects (`Promise.all` rejects when one of its promises
does, before any setter is called). -/
def loadDataTry (activeTab : String) (net : Network) (s : ReportState) : Option ReportState :=
  if activeTab = "overview" then
    match fetchJson net.overview, fetchJson net.salesByDate with
    | some overviewData, some salesData =>
      some { s with overview := some overviewData, salesByDate := salesData }
    | _, _ => none
  else if activeTab = "products" then
    match fetchJson net.topProducts with
    | some data => some { s with topProducts := data }
    | none => none
  else if activeTab = "channels" then
    match fetchJson net.salesByChannel with
    | some data => some { s with salesByChannel := data }
    | none => none
  else if activeTab = "temporal" then
    match fetchJson net.salesByHour, fetchJson net.salesByWeekday with
    | some hourData, some weekdayData =>
      some { s with salesByHour := hourData, salesByWeekday := weekdayData }
    | _, _ => none
  else if activeTab = "customers" then
    match fetchJson net.topCustomers, fetchJson net.inactiveCustomers with
    | some topData, some inactiveData =>
      some { s with topCustomers := topData, inactiveCustomers := inactiveData }
    | _, _ => none
  else some s

/-- The function `loadData`: `setLoading(true)`, the `try` block, a `catch` that only
logs, and `setLoading(false)` in `finally`. -/
def loadData (activeTab : String) (net : Network) (s : ReportState) : ReportState :=
  match loadDataTry activeTab net { s with loading := true } with
  | some s' => { s' with loading := false }
  | none => { s with loading := false }

/-- A network on which every request is rejected. -/
def offlineNetwork : Network :=
  { overview := .rejected
    salesByDate := .rejected
    topProducts := .rejected
    salesByChannel := .rejected
    salesByHour := .rejected
    salesByWeekday := .rejected
    topCustomers := .rejected
    inactiveCustomers := .rejected }

/-- A report state showing the two products of the top-products example. -/
def exampleReportState : ReportState :=
  { overview := none
    salesByDate := .data []
    topProducts := .data [⟨"B", 1, some 1, some 200, some 200⟩,
                          ⟨"A", 1, some 1, some 100, some 100⟩]
    salesByChannel := .data []
    salesByHour := .data []
    salesByWeekday := .data []
    topCustomers := .data []
    inactiveCustomers := .data []
    loading := false }

/-- Whether the promise of a request rejects. -/
def FetchResult.isRejected {α : Type} : FetchResult α → Bool
  | .rejected => true
  | .answered _ => false

/-- Whether a request that `loadData` issues for the active tab is rejected. -/
def issuedRejected (activeTab : String) (net : Network) : Bool :=
  if activeTab = "overview" then net.overview.isRejected || net.salesByDate.isRejected
  else if activeTab = "products" then net.topProducts.isRejected
  else if activeTab = "channels" then net.salesByChannel.isRejected
  else if activeTab = "temporal" then net.salesByHour.isRejected || net.salesByWeekday.isRejected
  else if activeTab = "customers" then
    net.topCustomers.isRejected || net.inactiveCustomers.isRejected
  else false

/-- The request of `fetchTopProducts` for the first two days of 2024, no store, the
channel 1 and the limit 10, answered by the server of the examples over the top-products
example; every other request is rejected. -/
def channelOnlyNetwork : Network :=
  { offlineNetwork with
    topProducts := .answered (apiTopProducts exampleEnv productsExample
      (requestQueryOf (buildQueryString
        [("startDate", .text "2024-01-01"), ("endDate", .text "2024-01-02"),
         ("storeIds", .numbers []), ("channelIds", .numbers [1]),
         ("limit", .number 10)]))) }

/-! ## Parameters an endpoint does not pass on -/

/-- Whether a query parameter is absent or given once, so that `req.query` holds a
string for it. -/
def givenAtMostOnce : Option QueryValue → Bool
  | none => true
  | some (.text _) => true
  | some (.array _) => false
  | some .object => false

/-- A request of the first two days of 2024. -/
def exampleRequest : RequestQuery :=
  { startDate := some (.text "2024-01-01"), endDate := some (.text "2024-01-02") }

/-! ## The URLs of the frontend (`api.js`) and the routes of `server.js` -/

/-- The constant `API_BASE`; `prod` is `import.meta.env.PROD`. -/
def API_BASE (prod : Bool) : String :=
  if prod then "https://restaurant-analytics.onrender.com/" else "/api"

/-- The URL `fetchOverview` requests; `query` is the text of `buildQueryString(filters)`. -/
def fetchOverview_url (prod : Bool) (query : String) : String :=
  API_BASE prod ++ "/overview?" ++ query

/-- The URL `fetchSalesByDate` requests. -/
def fetchSalesByDate_url (prod : Bool) (query : String) : String :=
  API_BASE prod ++ "/sales-by-date?" ++ query

/-- The URL `fetchTopProducts` requests. -/
def fetchTopProducts_url (prod : Bool) (query : String) : String :=
  API_BASE prod ++ "/top-products?" ++ query

/-- The URL `fetchSalesByChannel` requests. -/
def fetchSalesByChannel_url (prod : Bool) (query : String) : String :=
  API_BASE prod ++ "/sales-by-channel?" ++ query

/-- The URL `fetchSalesByHour` requests. -/
def fetchSalesByHour_url (prod : Bool) (query : String) : String :=
  API_BASE prod ++ "/sales-by-hour?" ++ query

/-- The URL `fetchSalesByWeekday` requests. -/
def fetchSalesByWeekday_url (prod : Bool) (query : String) : String :=
  API_BASE prod ++ "/sales-by-weekday?" ++ query

/-- The URL `fetchTopCustomers` requests. -/
def fetchTopCustomers_url (prod : Bool) (query : String) : String :=
  API_BASE prod ++ "/top-customers?" ++ query

/-- The URL `fetchInactiveCustomers` requests; `days` is the text of its argument. -/
def fetchInactiveCustomers_url (prod : Bool) (days : String) : String :=
  API_BASE prod ++ "/inactive-customers?days=" ++ days

/-- The URL `fetchStores` requests. -/
def fetchStores_url (prod : Bool) : String := API_BASE prod ++ "/stores"

/-- The URL `fetchChannels` requests. -/
def fetchChannels_url (prod : Bool) : String := API_BASE prod ++ "/channels"

/-- The characters of a URL up to its query or fragment. -/
def beforeQuery (cs : List Char) : List Char :=
  cs.takeWhile fun c => c != '?' && c != '#'

/-- The characters of a URL after its authority (host and port). -/
def afterAuthority (cs : List Char) : List Char :=
  cs.dropWhile fun c => c != '/' && c != '?' && c != '#'

/-- The path of the request `fetch(url)` sends from a page of the application: for an
absolute `http` or `https` URL the text between the authority and the query (`/` when
empty), for a URL that starts with a single `/` the text up to the query; other forms
are not used by `api.js` and give `none`.  Segments are not rewritten: two slashes stay
two slashes. -/
def urlPath (url : String) : Option String :=
  match url.toList with
  | 'h' :: 't' :: 't' :: 'p' :: 's' :: ':' :: '/' :: '/' :: rest =>
    match beforeQuery (afterAuthority rest) with
    | [] => some "/"
    | path => some (String.mk path)
  | 'h' :: 't' :: 't' :: 'p' :: ':' :: '/' :: '/' :: rest =>
    match beforeQuery (afterAuthority rest) with
    | [] => some "/"
    | path => some (String.mk path)
  | '/' :: '/' :: _ => none
  | '/' :: rest => some (String.mk (beforeQuery ('/' :: rest)))
  | _ => none

/-- The paths of the `app.get` routes of `server.js`, in order. -/
def routes : List String :=
  ["/health", "/api/overview", "/api/sales-by-date", "/api/top-products",
   "/api/sales-by-channel", "/api/sales-by-hour", "/api/sales-by-weekday",
   "/api/top-customers", "/api/inactive-customers", "/api/stores", "/api/channels"]

/-- The route that handles a `GET` request for a path: the first route equal to the
path, a trailing slash of the path set aside (routing is not strict); `none` when no
route matches and the server answers 404.  The case-insensitive comparison of the router
is not modelled. -/
def routeOf (path : String) : Option String :=
  routes.find? fun route => route == path || route ++ "/" == path

/-- The URLs the ten fetch functions of `api.js` request, in the order of the file;
`query` is the text of `buildQueryString` and `days` the text of the argument of
`fetchInactiveCustomers`. -/
def requestedUrls (prod : Bool) (query days : String) : List String :=
  [fetchOverview_url prod query, fetchSalesByDate_url prod query,
   fetchTopProducts_url prod query, fetchSalesByChannel_url prod query,
   fetchSalesByHour_url prod query, fetchSalesByWeekday_url prod query,
   fetchTopCustomers_url prod query, fetchInactiveCustomers_url prod days,
   fetchStores_url prod, fetchChannels_url prod]

/-- A dataset with a day, a weekday, a channel, an hour and a product without a COMPLETED
sale: a completed sale of 100 of product A on channel 1 on Monday 2024-01-01 at 10:00,
and a cancelled sale of 40 of product B on channel 2 on Tuesday 2024-01-02 at 15:00. -/
def cancelledDayExample : Database :=
  { sales := [{ id := 1, store_id := 1, channel_id := 1, customer_id := none,
                created_at := 1704103200000000, total_amount := 100, total_discount := 0,
                delivery_seconds := none, sale_status_desc := "COMPLETED" },
              { id := 2, store_id := 1, channel_id := 2, customer_id := none,
                created_at := 1704207600000000, total_amount := 40, total_discount := 0,
                delivery_seconds := none, sale_status_desc := "CANCELLED" }]
    product_sales := [⟨1, 1, 1, 1, 100⟩, ⟨2, 2, 2, 1, 40⟩]
    products := [⟨1, "A"⟩, ⟨2, "B"⟩]
    customers := []
    channels := [⟨1, "iFood", "D"⟩, ⟨2, "Balcao", "P"⟩] }

/-! ## Date-only texts: `yyyy-MM-dd` -/

/-- The year, month and day of the day with the given number (day 0 is 1970-01-01) in
the Gregorian calendar.  Days are counted from 0000-03-01 in cycles of 400 years, of
centuries, of 4 years and of years, so that a leap day ends its cycle. -/
def civilFromDays (z : Int) : Int × Int × Int :=
  let shifted := z + 719468
  let era := shifted / 146097
  let dayOfEra := shifted % 146097
  let century := min (dayOfEra / 36524) 3
  let dayOfCentury := dayOfEra - century * 36524
  let cycle := dayOfCentury / 1461
  let dayOfCycle := dayOfCentury % 1461
  let year := min (dayOfCycle / 365) 3
  let dayOfYear := dayOfCycle - year * 365
  let monthFromMarch := (5 * dayOfYear + 2) / 153
  let day := dayOfYear - (153 * monthFromMarch + 2) / 5 + 1
  let month := if monthFromMarch < 10 then monthFromMarch + 3 else monthFromMarch - 9
  let y := era * 400 + century * 100 + cycle * 4 + year
  (if month ≤ 2 then y + 1 else y, month, day)

/-- The number of the day with the given year, month and day; for fields that are not a
date of the calendar it is the number of the day the overflow leads to. -/
def daysFromCivil (y m d : Int) : Int :=
  let y := if m ≤ 2 then y - 1 else y
  let era := y / 400
  let yearOfEra := y % 400
  let dayOfYear := (153 * (if m > 2 then m - 3 else m + 9) + 2) / 5 + d - 1
  let dayOfEra := yearOfEra * 365 + yearOfEra / 4 - yearOfEra / 100 + dayOfYear
  era * 146097 + dayOfEra - 719468

/-- A number below 100 in two digits. -/
def twoDigits (n : Int) : List Char :=
  [digitChar (n.toNat / 10 % 10), digitChar (n.toNat % 10)]

/-- A number below 10000 in four digits. -/
def fourDigits (n : Int) : List Char :=
  [digitChar (n.toNat / 1000 % 10), digitChar (n.toNat / 100 % 10),
   digitChar (n.toNat / 10 % 10), digitChar (n.toNat % 10)]

/-- The text `format(date, 'yyyy-MM-dd')` of a date, given by its day number, for the
years 0 to 9999. -/
def formatDate (day : Int) : String :=
  String.mk (fourDigits (civilFromDays day).1 ++ '-' :: twoDigits (civilFromDays day).2.1
    ++ '-' :: twoDigits (civilFromDays day).2.2)

/-- The number a list of decimal digits denotes, `none` when a character is not a
digit. -/
def digitsNumber (cs : List Char) : Option Int :=
  cs.foldl (fun acc c =>
    match acc, digitOf 10 c with
    | some n, some d => some (10 * n + d)
    | _, _ => none) (some 0)

/-- The day given by the digits of a year, a month and a day, when they are a date of
the calendar. -/
def dateOfFields (year month day : List Char) : Option Int :=
  match digitsNumber year, digitsNumber month, digitsNumber day with
  | some y, some m, some d =>
    if civilFromDays (daysFromCivil y m d) = (y, m, d) then some (daysFromCivil y m d)
    else none
  | _, _, _ => none

/-- The day a date-only text `yyyy-MM-dd` denotes: four, two and two digits that are a
date of the calendar; `none` for any other text. -/
def dateOfText (text : String) : Option Int :=
  match text.toList with
  | [y1, y2, y3, y4, '-', m1, m2, '-', d1, d2] =>
    dateOfFields [y1, y2, y3, y4] [m1, m2] [d1, d2]
  | _ => none

/-- The timestamp at 00:00:00 of a day. -/
def midnight (day : Int) : Timestamp := day * usecPerDay

/-- The reading of a date-only text as a timestamp: 00:00:00 of its date. -/
def readDateOnly (text : String) : Option Timestamp := (dateOfText text).map midnight

/-- The object `defaultFilters` of `App` on the day with number `today` of the
browser: the texts of the date 30 days before and of the date of the day, and no id. -/
def defaultFilters (today : Int) : UiFilters :=
  { startDate := formatDate (today - 30)
    endDate := formatDate today
    storeIds := []
    channelIds := [] }

/-- The object `req.query` of the request a fetch function sends for a filters object;
`limit` is `undefined` for the functions without a limit. -/
def filtersRequest (filters : UiFilters) (limit : ClientValue) : RequestQuery :=
  requestQueryOf (buildQueryString
    [("startDate", .text filters.startDate), ("endDate", .text filters.endDate),
     ("storeIds", .numbers filters.storeIds), ("channelIds", .numbers filters.channelIds),
     ("limit", limit)])

/-- The dataset with only the sales that pass `keep`. -/
def keepSales (keep : Sale → Bool) (db : Database) : Database :=
  { db with sales := db.sales.filter keep }

/-- The seven date-filtered endpoints answer a request alike on two datasets. -/
def SameDateFilteredAnswers (env : ServerEnv) (query : RequestQuery) (db db' : Database) :
    Prop :=
  apiOverview env db query = apiOverview env db' query ∧
    apiSalesByDate env db query = apiSalesByDate env db' query ∧
    apiTopProducts env db query = apiTopProducts env db' query ∧
    apiSalesByChannel env db query = apiSalesByChannel env db' query ∧
    apiSalesByHour env db query = apiSalesByHour env db' query ∧
    apiSalesByWeekday env db query = apiSalesByWeekday env db' query ∧
    apiTopCustomers env db query = apiTopCustomers env db' query

/-- A server whose clock shows 2024-01-31 00:00 and whose database reads date-only texts,
as 00:00:00 of their date, and no other text. -/
def dateOnlyEnv : ServerEnv :=
  { now := 1706659200000
    dbNow := 1706659200000000
    readTimestamp := readDateOnly }

/-- The dataset without the sales created on the day with the given number after
00:00:00. -/
def withoutRestOfDay (day : Int) (db : Database) : Database :=
  keepSales (fun x => !(decide (sqlDate x.created_at = day)
    && decide (x.created_at ≠ midnight day))) db

/-! ## The effective limit: `parseInt(raw) || dflt` -/

/-- Whether a text starts with an integer as `parseInt` reads one: after white space, a
sign and a prefix `0x` or `0X`, the text goes on with a digit of the radix. -/
def startsWithInteger (s : String) : Bool :=
  let cs := s.toList.dropWhile isJsWhiteSpace
  let cs := match cs with
    | '-' :: rest => rest
    | '+' :: rest => rest
    | _ => cs
  let radix : Nat := match cs with
    | '0' :: 'x' :: _ => 16
    | '0' :: 'X' :: _ => 16
    | _ => 10
  let cs := match cs with
    | '0' :: 'x' :: rest => rest
    | '0' :: 'X' :: rest => rest
    | _ => cs
  match cs with
  | c :: _ => (digitOf radix c).isSome
  | [] => false

/-- The scenario of the overview example with the cancelled sale later in its day: two
completed sales of 50 and 30 on 2024-01-01 (10:00 and 12:00) and a cancelled sale of 20
on 2024-01-02 at 15:00. -/
def lateCancelledExample : Database :=
  { sales := [exampleSale 1 1704103200000000 50 "COMPLETED",
              exampleSale 2 1704110400000000 30 "COMPLETED",
              exampleSale 3 1704207600000000 20 "CANCELLED"]
    product_sales := []
    products := []
    customers := [] }

/-- Whether an integer is a value of the SQL type `int`, the element type of the casts
`$3::int[]` and `$4::int[]`. -/
def fitsInt4 (n : Int) : Bool := decide (-2147483648 ≤ n) && decide (n ≤ 2147483647)

/-- Whether an integer is a value of the SQL type `bigint`, the type of a `LIMIT`. -/
def fitsInt8 (n : Int) : Bool :=
  decide (-9223372036854775808 ≤ n) && decide (n ≤ 9223372036854775807)

/-- Whether a parameter is in the range of the type its placeholder gives it: the
elements of an id array in `int` (`::int[]`), a number in `bigint` (`LIMIT`). -/
def paramFits : Param → Bool
  | .ts _ => true
  | .ids l => l.all fitsInt4
  | .num n => fitsInt8 n

/-- A customer the inactive-customers report is about: at least 3 COMPLETED purchases,
the most recent of which, and so every one of which, is older than `days` days at the
time `now`. -/
def Lapsed (db : Database) (now : Timestamp) (days : Int) (c : Customer) : Prop :=
  3 ≤ (completedPurchases db c.id).length ∧
    ∀ x ∈ completedPurchases db c.id, x.created_at < now - usecPerDay * days

/-- The lifetime value of a customer: the sum of `total_amount` over the customer's
COMPLETED purchases, to 2 decimals. -/
def lifetimeValue (db : Database) (c : Customer) : ℚ :=
  roundTo 2 ((completedPurchases db c.id).map (·.total_amount)).sum

/-- The row is the row of the customer: the customer's columns, the number of COMPLETED
purchases, their lifetime value, and the time of a purchase that no other purchase of
the customer is later than, with the whole days from it to `now`. -/
def DescribesCustomer (db : Database) (now : Timestamp) (c : Customer)
    (row : InactiveCustomerRow) : Prop :=
  row.customer_name = c.customer_name ∧ row.email = c.email ∧
    row.phone_number = c.phone_number ∧
    row.total_purchases = (completedPurchases db c.id).length ∧
    row.lifetime_value = some (lifetimeValue db c) ∧
    ∃ x ∈ completedPurchases db c.id,
      (∀ y ∈ completedPurchases db c.id, y.created_at ≤ x.created_at) ∧
      row.last_purchase = some x.created_at ∧
      row.days_since_purchase = some (extractDay now x.created_at)

/-- The scenario of the inactive-customer example with Ana's purchases listed latest
first, and a third customer, Caio, whose latest purchase, listed first, is of
2024-12-31. -/
def customersLatestFirstExample : Database :=
  { sales := [customerSale 3 1 1704114000000000 30 "COMPLETED",
              customerSale 2 1 1704110400000000 20 "COMPLETED",
              customerSale 1 1 1704103200000000 10 "COMPLETED",
              customerSale 6 3 1735603200000000 40 "COMPLETED",
              customerSale 7 3 1704110400000000 40 "COMPLETED",
              customerSale 8 3 1704103200000000 40 "COMPLETED"]
    product_sales := []
    products := []
    customers := [⟨1, "Ana", "ana@example.com", "1"⟩, ⟨3, "Caio", "caio@example.com", "3"⟩] }

/-- The lines of `product_sales` that count for a product: the lines of the product
whose sale is COMPLETED, inside the date range, and passes the present filters. -/
def soldLines (db : Database) (startDate endDate : Timestamp)
    (storeIds channelIds : Option (List Int)) (p : Product) : List ProductSale :=
  db.product_sales.filter fun ps =>
    decide (ps.product_id = p.id) &&
      db.sales.any fun x => decide (x.id = ps.sale_id) &&
        (isCompleted x && inScope startDate endDate (activeIds storeIds) (activeIds channelIds) x)

/-- The total revenue of a product: the sum of `total_price` over the lines that count
for it, to 2 decimals. -/
def productRevenue (db : Database) (startDate endDate : Timestamp)
    (storeIds channelIds : Option (List Int)) (p : Product) : ℚ :=
  roundTo 2 ((soldLines db startDate endDate storeIds channelIds p).map (·.total_price)).sum

/-- The row of a product in the top-products report: its name, the number of lines that
count for it, and their summed quantity, summed price and mean price, to 2 decimals. -/
def productRow (db : Database) (startDate endDate : Timestamp)
    (storeIds channelIds : Option (List Int)) (p : Product) : TopProductRow :=
  { product_name := p.name
    times_sold := (soldLines db startDate endDate storeIds channelIds p).length
    total_quantity := some (roundTo 2
      ((soldLines db startDate endDate storeIds channelIds p).map (·.quantity)).sum)
    total_revenue := some (productRevenue db startDate endDate storeIds channelIds p)
    avg_price := some (roundTo 2
      (((soldLines db startDate endDate storeIds channelIds p).map (·.total_price)).sum
        / (soldLines db startDate endDate storeIds channelIds p).length)) }

/-- The products that were sold: those with at least one line that counts. -/
def soldProducts (db : Database) (startDate endDate : Timestamp)
    (storeIds channelIds : Option (List Int)) : List Product :=
  db.products.filter fun p => !(soldLines db startDate endDate storeIds channelIds p).isEmpty

/-- The product a group of `getTopProducts` is keyed by, `GROUP BY p.id, p.name`. -/
def productOfKey (g : (Int × String) × List (ProductSale × Product × Sale)) : Product :=
  ⟨g.1.1, g.1.2⟩

/-- The scenario of the top-products example with a second line of product A, for 30,
and a line of product A for 500 on a CANCELLED sale. -/
def productLinesExample : Database :=
  { sales := [exampleSale 1 1704103200000000 100 "COMPLETED",
              exampleSale 2 1704110400000000 200 "COMPLETED",
              exampleSale 3 1704114000000000 500 "CANCELLED"]
    product_sales := [⟨1, 1, 1, 1, 100⟩, ⟨2, 2, 2, 1, 200⟩, ⟨3, 2, 1, 1, 30⟩, ⟨4, 3, 1, 1, 500⟩]
    products := [⟨1, "A"⟩, ⟨2, "B"⟩]
    customers := [] }

/-! ## Lemmas on the text layer and on `db.query` -/

theorem hasLength_cases (xs : Option (List Int)) :
    (hasLength xs = false ∧ storeFilter xs = "" ∧ channelFilter xs = "" ∧
      ∀ ps, pushIds ps xs = ps) ∨
    (hasLength xs = true ∧ storeFilter xs = "AND s.store_id = ANY($3::int[])" ∧
      channelFilter xs = "AND s.channel_id = ANY($4::int[])" ∧
      ∃ l, xs = some l ∧ ∀ ps, pushIds ps xs = ps ++ [Param.ids l]) := by
  rcases xs with _ | _ | ⟨x, rest⟩
  · left; exact ⟨rfl, rfl, rfl, fun _ => rfl⟩
  · left; exact ⟨rfl, rfl, rfl, fun _ => rfl⟩
  · right; exact ⟨rfl, rfl, rfl, _, rfl, fun _ => rfl⟩

theorem placeholders_empty : placeholders "" = [] := by decide

theorem placeholders_storeFragment : placeholders "AND s.store_id = ANY($3::int[])" = [3] := by
  decide!

theorem placeholders_channelFragment :
    placeholders "AND s.channel_id = ANY($4::int[])" = [4] := by
  decide!

theorem placeholders_getOverview (s e : Timestamp) (st ch : Option (List Int)) :
    placeholders (getOverview_query s e st ch).sql = filterPlaceholders st ch := by
  rcases hasLength_cases st with ⟨h1, h2, -, -⟩ | ⟨h1, h2, -, -⟩ <;>
  rcases hasLength_cases ch with ⟨h3, -, h4, -⟩ | ⟨h3, -, h4, -⟩ <;>
  simp only [getOverview_query, h2, h4, filterPlaceholders, h1, h3] <;> decide!

theorem placeholders_getSalesByDate (s e : Timestamp) (st ch : Option (List Int)) :
    placeholders (getSalesByDate_query s e st ch).sql = filterPlaceholders st ch := by
  rcases hasLength_cases st with ⟨h1, h2, -, -⟩ | ⟨h1, h2, -, -⟩ <;>
  rcases hasLength_cases ch with ⟨h3, -, h4, -⟩ | ⟨h3, -, h4, -⟩ <;>
  simp only [getSalesByDate_query, h2, h4, filterPlaceholders, h1, h3] <;> decide!

theorem placeholders_getSalesByHour (s e : Timestamp) (st ch : Option (List Int)) :
    placeholders (getSalesByHour_query s e st ch).sql = filterPlaceholders st ch := by
  rcases hasLength_cases st with ⟨h1, h2, -, -⟩ | ⟨h1, h2, -, -⟩ <;>
  rcases hasLength_cases ch with ⟨h3, -, h4, -⟩ | ⟨h3, -, h4, -⟩ <;>
  simp only [getSalesByHour_query, h2, h4, filterPlaceholders, h1, h3] <;> decide!

theorem placeholders_getSalesByWeekday (s e : Timestamp) (st ch : Option (List Int)) :
    placeholders (getSalesByWeekday_query s e st ch).sql = filterPlaceholders st ch := by
  rcases hasLength_cases st with ⟨h1, h2, -, -⟩ | ⟨h1, h2, -, -⟩ <;>
  rcases hasLength_cases ch with ⟨h3, -, h4, -⟩ | ⟨h3, -, h4, -⟩ <;>
  simp only [getSalesByWeekday_query, h2, h4, filterPlaceholders, h1, h3] <;> decide!

theorem placeholders_getTopProducts (s e : Timestamp) (st ch : Option (List Int)) (n : Int) :
    placeholders (getTopProducts_query s e st ch n).sql =
      filterPlaceholders st ch ++ [limitPlaceholder st ch] := by
  rcases hasLength_cases st with ⟨h1, h2, -, -⟩ | ⟨h1, h2, -, -⟩ <;>
  rcases hasLength_cases ch with ⟨h3, -, h4, -⟩ | ⟨h3, -, h4, -⟩ <;>
  simp only [getTopProducts_query, h2, h4, filterPlaceholders, limitPlaceholder, h1, h3] <;>
  decide!

/-- The shared `WHERE` clause: it is rejected exactly when the store list is absent and
the channel list is present, and otherwise keeps the rows whose sale lies in the date
range and passes the present filters. -/
theorem execWhere_eq {α : Type} (q : Query) (s e : Timestamp) (st ch : Option (List Int))
    (saleOf : α → Sale) (rows : List α)
    (hsql : placeholders q.sql = filterPlaceholders st ch)
    (hparams : q.params = filterParams s e st ch) :
    execWhere q (storeFilter st) (channelFilter ch) saleOf rows =
      if hasLength st = false ∧ hasLength ch = true then .error (.unboundParameter 4)
      else .ok (rows.filter fun r => inScope s e (activeIds st) (activeIds ch) (saleOf r)) := by
  rcases hasLength_cases st with ⟨h1, h2, -, h5⟩ | ⟨h1, h2, -, l1, rfl, h5⟩ <;>
  rcases hasLength_cases ch with ⟨h3, -, h4, h6⟩ | ⟨h3, -, h4, l2, rfl, h6⟩ <;>
  simp [execWhere, prepare, hsql, hparams, filterPlaceholders, filterParams, h1, h2, h3, h4, h5,
    h6, bindTs, paramAt, bindIdFilter, bindIds, placeholders_empty, placeholders_storeFragment,
    placeholders_channelFragment, activeIds, bind, Except.bind, pure, Except.pure, List.range,
    List.range.loop]

theorem getOverview_eq (db : Database) (s e : Timestamp) (st ch : Option (List Int)) :
    getOverview db s e st ch =
      if hasLength st = false ∧ hasLength ch = true then .error (.unboundParameter 4)
      else .ok (overviewRow (db.sales.filter fun r => inScope s e (activeIds st) (activeIds ch) r)) := by
  unfold getOverview
  rw [execWhere_eq _ s e st ch id db.sales (placeholders_getOverview s e st ch) rfl]
  split <;> rfl

theorem getSalesByDate_eq (db : Database) (s e : Timestamp) (st ch : Option (List Int)) :
    getSalesByDate db s e st ch =
      if hasLength st = false ∧ hasLength ch = true then .error (.unboundParameter 4)
      else .ok (salesByDateRows
        (db.sales.filter fun r => inScope s e (activeIds st) (activeIds ch) r)) := by
  unfold getSalesByDate
  rw [execWhere_eq _ s e st ch id db.sales (placeholders_getSalesByDate s e st ch) rfl]
  split <;> rfl

theorem getSalesByHour_eq (db : Database) (s e : Timestamp) (st ch : Option (List Int)) :
    getSalesByHour db s e st ch =
      if hasLength st = false ∧ hasLength ch = true then .error (.unboundParameter 4)
      else .ok (salesByHourRows ((db.sales.filter isCompleted).filter
        fun r => inScope s e (activeIds st) (activeIds ch) r)) := by
  unfold getSalesByHour
  rw [execWhere_eq _ s e st ch id _ (placeholders_getSalesByHour s e st ch) rfl]
  split <;> rfl

theorem getSalesByWeekday_eq (db : Database) (s e : Timestamp) (st ch : Option (List Int)) :
    getSalesByWeekday db s e st ch =
      if hasLength st = false ∧ hasLength ch = true then .error (.unboundParameter 4)
      else .ok (salesByWeekdayRows
        (db.sales.filter fun r => inScope s e (activeIds st) (activeIds ch) r)) := by
  unfold getSalesByWeekday
  rw [execWhere_eq _ s e st ch id db.sales (placeholders_getSalesByWeekday s e st ch) rfl]
  split <;> rfl

/-- In the three combinations other than "store list absent, channel list present" the
placeholders of the filtered reports are bound as intended. -/
theorem filter_binding_ok (q : Query) (s e : Timestamp) (st ch : Option (List Int))
    (hsql : placeholders q.sql = filterPlaceholders st ch)
    (hparams : q.params = filterParams s e st ch)
    (h : ¬ (hasLength st = false ∧ hasLength ch = true)) :
    PlaceholdersBound q ∧ FragmentBoundTo q (storeFilter st) (st.getD []) ∧
      FragmentBoundTo q (channelFilter ch) (ch.getD []) := by
  rcases hasLength_cases st with ⟨h1, h2, -, h5⟩ | ⟨h1, h2, -, l1, rfl, h5⟩ <;>
  rcases hasLength_cases ch with ⟨h3, -, h4, h6⟩ | ⟨h3, -, h4, l2, rfl, h6⟩ <;>
  simp_all [PlaceholdersBound, FragmentBoundTo, filterPlaceholders, filterParams,
    placeholders_empty, placeholders_storeFragment, placeholders_channelFragment]

/-! ## Placeholder binding of the filtered reports -/

/-- C1, where the code departs from it: with the store list absent (null or empty) and
a non-empty channel list, each of `getOverview`, `getSalesByDate`, `getSalesByHour` and
`getSalesByWeekday` builds a text whose placeholders are `$1, $2, $4` over the three
parameters `[startDate, endDate, channelIds]`.  The placeholder `$4` of the channel
fragment exceeds `params.length = 3`, the channel ids sit behind the unused `$3`, and
`db.query` rejects, so no channel-restricted report is returned. -/
theorem channel_filter_without_store_filter_unbound (db : Database) (s e : Timestamp)
    (st : Option (List Int)) (c : Int) (cs : List Int) (hst : hasLength st = false) :
    (∀ q ∈ [getOverview_query s e st (some (c :: cs)),
            getSalesByDate_query s e st (some (c :: cs)),
            getSalesByHour_query s e st (some (c :: cs)),
            getSalesByWeekday_query s e st (some (c :: cs))],
        placeholders q.sql = [1, 2, 4] ∧
        q.params = [Param.ts s, Param.ts e, Param.ids (c :: cs)] ∧
        ¬ PlaceholdersBound q ∧
        ¬ FragmentBoundTo q (channelFilter (some (c :: cs))) (c :: cs)) ∧
      getOverview db s e st (some (c :: cs)) = .error (.unboundParameter 4) ∧
      getSalesByDate db s e st (some (c :: cs)) = .error (.unboundParameter 4) ∧
      getSalesByHour db s e st (some (c :: cs)) = .error (.unboundParameter 4) ∧
      getSalesByWeekday db s e st (some (c :: cs)) = .error (.unboundParameter 4) := by
  have hch : hasLength (some (c :: cs)) = true := rfl
  have hps : filterPlaceholders st (some (c :: cs)) = [1, 2, 4] := by
    simp [filterPlaceholders, hst, hch]
  have hpar : filterParams s e st (some (c :: cs))
      = [Param.ts s, Param.ts e, Param.ids (c :: cs)] := by
    rcases hasLength_cases st with ⟨-, -, -, h5⟩ | ⟨h1, -, -, -⟩
    · rw [filterParams, h5]; rfl
    · rw [hst] at h1; cases h1
  have hfrag : placeholders (channelFilter (some (c :: cs))) = [4] := by
    simp [channelFilter, hch, placeholders_channelFragment]
  have key : ∀ q : Query, placeholders q.sql = filterPlaceholders st (some (c :: cs)) →
      q.params = filterParams s e st (some (c :: cs)) →
      placeholders q.sql = [1, 2, 4] ∧
        q.params = [Param.ts s, Param.ts e, Param.ids (c :: cs)] ∧
        ¬ PlaceholdersBound q ∧
        ¬ FragmentBoundTo q (channelFilter (some (c :: cs))) (c :: cs) := by
    intro q h1 h2
    refine ⟨h1.trans hps, h2.trans hpar, ?_, ?_⟩
    · intro hb
      have := hb 4 (by rw [h1, hps]; simp)
      rw [h2, hpar] at this
      simp at this
    · intro hb
      have := (hb 4 (by rw [hfrag]; simp)).2
      rw [h2, hpar] at this
      simp at this
  refine ⟨?_, ?_, ?_, ?_, ?_⟩
  · intro q hq
    simp only [List.mem_cons, List.mem_singleton, List.not_mem_nil, or_false] at hq
    rcases hq with rfl | rfl | rfl | rfl
    · exact key _ (placeholders_getOverview s e st _) rfl
    · exact key _ (placeholders_getSalesByDate s e st _) rfl
    · exact key _ (placeholders_getSalesByHour s e st _) rfl
    · exact key _ (placeholders_getSalesByWeekday s e st _) rfl
  · rw [getOverview_eq, if_pos ⟨hst, hch⟩]
  · rw [getSalesByDate_eq, if_pos ⟨hst, hch⟩]
  · rw [getSalesByHour_eq, if_pos ⟨hst, hch⟩]
  · rw [getSalesByWeekday_eq, if_pos ⟨hst, hch⟩]

/-- C2, where the code departs from it: with the store list absent and a non-empty
channel list `getTopProducts` builds the parameters `[startDate, endDate, channelIds,
limit]` and a text whose placeholders are `$1, $2, $4, $4`: the channel fragment and
`LIMIT` share `$4`, which holds `limit`, while the channel ids sit behind `$3`, which the
text never mentions; `db.query` rejects. -/
theorem top_products_channel_placeholder_indexes_limit (db : Database) (s e : Timestamp)
    (st : Option (List Int)) (c : Int) (cs : List Int) (limit : Int)
    (hst : hasLength st = false) :
    placeholders (getTopProducts_query s e st (some (c :: cs)) limit).sql = [1, 2, 4, 4] ∧
      (getTopProducts_query s e st (some (c :: cs)) limit).params
        = [Param.ts s, Param.ts e, Param.ids (c :: cs), Param.num limit] ∧
      placeholders (channelFilter (some (c :: cs))) = [4] ∧
      limitPlaceholder st (some (c :: cs)) = 4 ∧
      ¬ FragmentBoundTo (getTopProducts_query s e st (some (c :: cs)) limit)
          (channelFilter (some (c :: cs))) (c :: cs) ∧
      getTopProducts db s e st (some (c :: cs)) (some limit)
        = .error (.unreferencedParameter 3) := by
  have hch : hasLength (some (c :: cs)) = true := rfl
  have hfrag : placeholders (channelFilter (some (c :: cs))) = [4] := by
    simp [channelFilter, hch, placeholders_channelFragment]
  have hlim : limitPlaceholder st (some (c :: cs)) = 4 := by
    simp [limitPlaceholder, hst, hch]
  have hps : placeholders (getTopProducts_query s e st (some (c :: cs)) limit).sql
      = [1, 2, 4, 4] := by
    rw [placeholders_getTopProducts, hlim]
    simp [filterPlaceholders, hst, hch]
  have hpar : (getTopProducts_query s e st (some (c :: cs)) limit).params
      = [Param.ts s, Param.ts e, Param.ids (c :: cs), Param.num limit] := by
    simp [getTopProducts_query, getTopProducts_params, hst]
    rcases st with _ | _ | ⟨x, rest⟩
    · simp [spliceIds]
    · simp [spliceIds]
    · cases hst
  refine ⟨hps, hpar, hfrag, hlim, ?_, ?_⟩
  · intro hb
    have := (hb 4 (by rw [hfrag]; simp)).2
    rw [hpar] at this
    simp at this
  · simp [getTopProducts, execWhere, prepare, hps, hpar, bind, Except.bind, List.range,
      List.range.loop]

/-- C1 at a concrete input: no store list, channel list `[1]`. -/
theorem channel_filter_without_store_filter_unbound_witness :
    hasLength none = false ∧
    getOverview emptyExample 0 1 none (some [1]) = .error (.unboundParameter 4) :=
  ⟨rfl, (channel_filter_without_store_filter_unbound emptyExample 0 1 none 1 [] rfl).2.1⟩

/-- C2 at a concrete input: no store list, channel list `[1]`, limit 10. -/
theorem top_products_channel_placeholder_indexes_limit_witness :
    hasLength none = false ∧
    (getTopProducts_query 0 1 none (some [1]) 10).params.get? 3 = some (Param.num 10) :=
  ⟨rfl, by
    rw [(top_products_channel_placeholder_indexes_limit emptyExample 0 1 none 1 [] 10 rfl).2.1]
    rfl⟩

/-! ## The overview report -/

theorem length_filter_add_length_filter_le {α : Type} (p q : α → Bool) (l : List α)
    (h : ∀ a, p a = true → q a = true → False) :
    (l.filter p).length + (l.filter q).length ≤ l.length := by
  induction l with
  | nil => simp
  | cons a l ih =>
    by_cases hp : p a = true
    · have hq : q a = false := by
        cases hqa : q a
        · rfl
        · exact (h a hp hqa).elim
      simp [List.filter_cons, hp, hq]
      omega
    · by_cases hq : q a = true
      · simp [List.filter_cons, hp, hq]
        omega
      · simp [List.filter_cons, hp, hq]
        omega

theorem not_completed_and_cancelled (x : Sale) : isCompleted x = true → isCancelled x = true → False := by
  intro h1 h2
  simp [isCompleted, isCancelled] at h1 h2
  rw [h1] at h2
  exact absurd h2 (by decide)

/-- C3: whenever `getOverview` returns its row, `total_sales` counts every sale in the
date range that passes the filters, whatever its status, `completed_sales` those of
them with status COMPLETED, `cancelled_sales` those with status CANCELLED, and
`completed_sales + cancelled_sales ≤ total_sales`. -/
theorem overview_completed_add_cancelled_le_total (db : Database) (s e : Timestamp)
    (st ch : Option (List Int)) (row : OverviewRow)
    (h : getOverview db s e st ch = .ok row) :
    row.total_sales
        = (db.sales.filter fun x => inScope s e (activeIds st) (activeIds ch) x).length ∧
      row.completed_sales
        = ((db.sales.filter fun x => inScope s e (activeIds st) (activeIds ch) x).filter
            fun x => x.sale_status_desc == "COMPLETED").length ∧
      row.cancelled_sales
        = ((db.sales.filter fun x => inScope s e (activeIds st) (activeIds ch) x).filter
            fun x => x.sale_status_desc == "CANCELLED").length ∧
      row.completed_sales + row.cancelled_sales ≤ row.total_sales := by
  rw [getOverview_eq] at h
  split at h
  · cases h
  · injection h with h
    subst h
    exact ⟨rfl, rfl, rfl,
      length_filter_add_length_filter_le _ _ _ not_completed_and_cancelled⟩

/-- C3 on the example scenario: 2 completed, 1 cancelled, 3 in total. -/
theorem overview_completed_add_cancelled_le_total_witness :
    getOverview overviewExample 1704067200000000 1704153600000000 none none
        = .ok ⟨3, 2, 1, some 40, some 80, some 0⟩ ∧
      2 + 1 ≤ 3 :=
  ⟨by decide!,
    (overview_completed_add_cancelled_le_total overviewExample 1704067200000000
      1704153600000000 none none ⟨3, 2, 1, some 40, some 80, some 0⟩ (by decide!)).2.2.2⟩

theorem sqlSum_eq (l : List ℚ) : sqlSum l = if l.length = 0 then none else some l.sum := by
  cases l <;> simp [sqlSum]

theorem sqlAvg_eq (l : List ℚ) :
    sqlAvg l = if l.length = 0 then none else some (l.sum / l.length) := by
  cases l <;> simp [sqlAvg]

theorem roundTo_two_forty : roundTo 2 40 = 40 := by decide!

theorem roundTo_two_eighty : roundTo 2 80 = 80 := by decide!

/-! ## Grouping and ordering -/

theorem groupBy_map_fst {α κ : Type} [DecidableEq κ] (key : α → κ) (rows : List α) :
    (groupBy key rows).map (·.1) = (rows.map key).dedup := by
  simp [groupBy, Function.comp_def]

theorem mem_groupBy {α κ : Type} [DecidableEq κ] (key : α → κ) (rows : List α)
    (g : κ × List α) :
    g ∈ groupBy key rows ↔
      (∃ r ∈ rows, key r = g.1) ∧ g.2 = rows.filter fun r => decide (key r = g.1) := by
  rcases g with ⟨k, l⟩
  simp only [groupBy, List.mem_map, List.mem_dedup, Prod.mk.injEq]
  constructor
  · rintro ⟨k', ⟨r, hr, rfl⟩, rfl, rfl⟩
    exact ⟨⟨r, hr, rfl⟩, rfl⟩
  · rintro ⟨⟨r, hr, hk⟩, hl⟩
    exact ⟨k, ⟨r, hr, hk⟩, rfl, hl.symm⟩

theorem groupBy_keys_nodup {α κ : Type} [DecidableEq κ] (key : α → κ) (rows : List α) :
    ((groupBy key rows).map (·.1)).Nodup := by
  rw [groupBy_map_fst]
  exact List.nodup_dedup _

/-! ## The weekday report -/

theorem extractDow_range (t : Timestamp) : 0 ≤ extractDow t ∧ extractDow t ≤ 6 := by
  unfold extractDow
  have h1 := Int.emod_nonneg (t / usecPerDay + 4) (by decide : (7 : Int) ≠ 0)
  have h2 := Int.emod_lt_of_pos (t / usecPerDay + 4) (by decide : (0 : Int) < 7)
  omega

theorem weekdayName_eq (d : Int) (h0 : 0 ≤ d) (h6 : d ≤ 6) :
    weekdayName d = weekdayNames.get? d.toNat := by
  interval_cases d <;> rfl

/-- C10: whenever `getSalesByWeekday` returns its rows, every row has a weekday in 0..6
and the fixed name of that index (0 Domingo, 1 Segunda, 2 Terça, 3 Quarta, 4 Quinta,
5 Sexta, 6 Sábado), and the weekdays of the rows are strictly ascending, so that no
index appears twice. -/
theorem sales_by_weekday_rows_labelled_ascending (db : Database) (s e : Timestamp)
    (st ch : Option (List Int)) (rows : List SalesByWeekdayRow)
    (h : getSalesByWeekday db s e st ch = .ok rows) :
    (∀ r ∈ rows, 0 ≤ r.weekday ∧ r.weekday ≤ 6 ∧
        r.weekday_name = weekdayNames.get? r.weekday.toNat) ∧
      (rows.map (·.weekday)).Sorted (· < ·) ∧ (rows.map (·.weekday)).Nodup := by
  rw [getSalesByWeekday_eq] at h
  split at h
  · cases h
  injection h with h
  subst h
  generalize (db.sales.filter fun r => inScope s e (activeIds st) (activeIds ch) r) = scope
  unfold salesByWeekdayRows
  set G := groupBy (fun x : Sale => (extractDow x.created_at, weekdayName (extractDow x.created_at)))
    scope with hG
  set mk : (Int × Option String) × List Sale → SalesByWeekdayRow := fun g =>
    { weekday := g.1.1
      weekday_name := g.1.2
      total_sales := (g.2.filter isCompleted).length
      revenue := sqlRound (sqlSum ((g.2.filter isCompleted).map (·.total_amount))) 2 } with hmk
  have hperm := List.perm_insertionSort (byAsc fun r : SalesByWeekdayRow => r.weekday) (G.map mk)
  have hkey : ∀ g ∈ G, ∃ x : Sale, g.1 = (extractDow x.created_at, weekdayName (extractDow x.created_at)) := by
    intro g hg
    obtain ⟨⟨x, -, hx⟩, -⟩ := (mem_groupBy _ _ g).1 hg
    exact ⟨x, hx.symm⟩
  have hnodup : ((G.map mk).map (·.weekday)).Nodup := by
    have h1 : (G.map mk).map (·.weekday) = (G.map (·.1)).map (·.1) := by
      simp [hmk, Function.comp_def]
    rw [h1]
    refine List.Nodup.map_on ?_ (groupBy_keys_nodup _ _)
    intro a ha b hb hab
    obtain ⟨g, hg, rfl⟩ := List.mem_map.1 ha
    obtain ⟨g', hg', rfl⟩ := List.mem_map.1 hb
    obtain ⟨x, hx⟩ := hkey g hg
    obtain ⟨y, hy⟩ := hkey g' hg'
    rw [hx, hy] at hab ⊢
    simp only at hab
    rw [hab]
  have hnodup' : ((List.insertionSort (byAsc fun r : SalesByWeekdayRow => r.weekday)
      (G.map mk)).map (·.weekday)).Nodup :=
    (List.Perm.nodup_iff (hperm.map _)).2 hnodup
  have hsorted := List.sorted_insertionSort (byAsc fun r : SalesByWeekdayRow => r.weekday)
    (G.map mk)
  have hle : ((List.insertionSort (byAsc fun r : SalesByWeekdayRow => r.weekday)
      (G.map mk)).map (·.weekday)).Sorted (· ≤ ·) := by
    rw [List.Sorted, List.pairwise_map]
    exact hsorted
  refine ⟨?_, hle.lt_of_le hnodup', hnodup'⟩
  intro r hr
  obtain ⟨g, hg, rfl⟩ := List.mem_map.1 (hperm.subset hr)
  obtain ⟨x, hx⟩ := hkey g hg
  have hr := extractDow_range x.created_at
  simp only [hmk, hx]
  exact ⟨hr.1, hr.2, weekdayName_eq _ hr.1 hr.2⟩

/-- C10 on the example scenario: Monday 2024-01-01 and Tuesday 2024-01-02. -/
theorem sales_by_weekday_rows_labelled_ascending_witness :
    getSalesByWeekday overviewExample 1704067200000000 1704153600000000 none none
        = .ok [⟨1, some "Segunda", 2, some 80⟩, ⟨2, some "Terça", 0, none⟩] ∧
      ([1, 2] : List Int).Sorted (· < ·) :=
  ⟨by decide!,
    (sales_by_weekday_rows_labelled_ascending overviewExample 1704067200000000
      1704153600000000 none none [⟨1, some "Segunda", 2, some 80⟩, ⟨2, some "Terça", 0, none⟩]
      (by decide!)).2.1⟩

/-! ## The top-products report -/

theorem placeholders_topProducts_none :
    placeholders (getTopProducts_sql "" "" 3) = [1, 2, 3] := by decide!

theorem placeholders_topProducts_store :
    placeholders (getTopProducts_sql "AND s.store_id = ANY($3::int[])" "" 4) = [1, 2, 3, 4] := by
  decide!

theorem placeholders_topProducts_channel :
    placeholders (getTopProducts_sql "" "AND s.channel_id = ANY($4::int[])" 4) = [1, 2, 4, 4] := by
  decide!

theorem placeholders_topProducts_both :
    placeholders (getTopProducts_sql "AND s.store_id = ANY($3::int[])"
      "AND s.channel_id = ANY($4::int[])" 5) = [1, 2, 3, 4, 5] := by
  decide!

/-- The report `getTopProducts`: it is rejected when the store list is absent and the
channel list present, and when the limit is negative; otherwise it is the first `limit`
rows of the ordered grouped report over the COMPLETED lines in range. -/
theorem getTopProducts_eq (db : Database) (s e : Timestamp) (st ch : Option (List Int))
    (n : Int) :
    getTopProducts db s e st ch (some n) =
      if hasLength st = false ∧ hasLength ch = true then .error (.unreferencedParameter 3)
      else if n < 0 then .error .negativeLimit
      else .ok ((topProductRows (((productJoin db).filter fun r => isCompleted r.2.2).filter
        fun r => inScope s e (activeIds st) (activeIds ch) r.2.2)).take n.toNat) := by
  rcases st with _ | _ | ⟨x, xs⟩ <;> rcases ch with _ | _ | ⟨y, ys⟩ <;>
  simp [getTopProducts, execWhere, prepare, limitPlaceholder, hasLength,
    getTopProducts_query, getTopProducts_params, spliceIds, storeFilter, channelFilter,
    bindTs, bindNum, paramAt, bindIdFilter, bindIds, placeholders_empty,
    placeholders_storeFragment, placeholders_channelFragment, activeIds, bind, Except.bind, pure,
    Except.pure, List.range, List.range.loop, sqlLimit, placeholders_topProducts_none,
    placeholders_topProducts_store, placeholders_topProducts_channel,
    placeholders_topProducts_both]

theorem sqlSum_isSome_of_ne_nil (l : List ℚ) (h : l ≠ []) : ∃ x, sqlSum l = some x := by
  cases l with
  | nil => exact absurd rfl h
  | cons a l => exact ⟨_, rfl⟩

theorem groupBy_group_ne_nil {α κ : Type} [DecidableEq κ] (key : α → κ) (rows : List α)
    (g : κ × List α) (hg : g ∈ groupBy key rows) : g.2 ≠ [] := by
  obtain ⟨⟨r, hr, hk⟩, hl⟩ := (mem_groupBy key rows g).1 hg
  intro h0
  have : r ∈ rows.filter fun r => decide (key r = g.1) := by
    simp [List.mem_filter, hr, hk]
  rw [← hl, h0] at this
  exact absurd this (List.not_mem_nil _)

theorem topProductRow_revenue_some (joined : List (ProductSale × Product × Sale))
    (g : (Int × String) × List (ProductSale × Product × Sale))
    (hg : g ∈ groupBy (fun r => (r.2.1.id, r.2.1.name)) joined) :
    ∃ x, (topProductRow g).total_revenue = some x := by
  have hne := groupBy_group_ne_nil _ _ g hg
  obtain ⟨x, hx⟩ := sqlSum_isSome_of_ne_nil (g.2.map (·.1.total_price)) (by simpa using hne)
  exact ⟨roundTo 2 x, by simp [topProductRow, hx, sqlRound]⟩

theorem topProductRows_perm (joined : List (ProductSale × Product × Sale)) :
    (topProductRows joined).Perm
      ((groupBy (fun r => (r.2.1.id, r.2.1.name)) joined).map topProductRow) :=
  List.perm_insertionSort _ _

theorem topProductRows_sorted (joined : List (ProductSale × Product × Sale)) :
    (topProductRows joined).Sorted (byDesc (·.total_revenue)) :=
  List.sorted_insertionSort _ _

theorem topProductRows_revenue_some (joined : List (ProductSale × Product × Sale))
    (r : TopProductRow) (hr : r ∈ topProductRows joined) : ∃ x, r.total_revenue = some x := by
  obtain ⟨g, hg, rfl⟩ := List.mem_map.1 ((topProductRows_perm joined).subset hr)
  exact topProductRow_revenue_some joined g hg

theorem byDesc_values {α : Type} (f : α → Option ℚ) (a b : α) (h : byDesc f a b)
    (ha : ∃ x, f a = some x) (hb : ∃ y, f b = some y) :
    ∃ x y, f a = some x ∧ f b = some y ∧ y ≤ x := by
  obtain ⟨x, hx⟩ := ha
  obtain ⟨y, hy⟩ := hb
  refine ⟨x, y, hx, hy, ?_⟩
  simpa [byDesc, descOrder, hx, hy] using h

theorem completedLinesInRange_eq (db : Database) (s e : Timestamp)
    (st ch : Option (List Int)) :
    ((productJoin db).filter fun r => isCompleted r.2.2).filter
        (fun r => inScope s e (activeIds st) (activeIds ch) r.2.2)
      = completedLinesInRange db s e st ch := by
  simp [completedLinesInRange, List.filter_filter, Bool.and_comm]

theorem parseIntOr_some (raw : String) (N dflt : Int) (h : parseInt raw = some N) :
    parseIntOr (some raw) dflt = if N = 0 then dflt else N := by
  simp [parseIntOr, h]

/-- C6 as stated fails for `limit=0`: `parseInt("0") || 10` is 10, so on a dataset with
two products the request `GET /api/top-products?limit=0` is answered with two rows. -/
theorem top_products_limit_zero_returns_rows :
    parseInt "0" = some 0 ∧
      topProductsHandler productsExample ⟨1704067200000000, 1704153600000000, none, none⟩
          (some "0")
        = .json 200 [⟨"B", 1, some 1, some 200, some 200⟩, ⟨"A", 1, some 1, some 100, some 100⟩] ∧
      ¬ ((([⟨"B", 1, some 1, some 200, some 200⟩, ⟨"A", 1, some 1, some 100, some 100⟩] :
            List TopProductRow).length : Int) ≤ 0) := by
  decide!

theorem getTopProducts_ok (db : Database) (s e : Timestamp) (st ch : Option (List Int))
    (n : Int) (rows : List TopProductRow) (h : getTopProducts db s e st ch (some n) = .ok rows) :
    ¬ (hasLength st = false ∧ hasLength ch = true) ∧ 0 ≤ n ∧
      rows = (topProductRows (completedLinesInRange db s e st ch)).take n.toNat := by
  rw [getTopProducts_eq, completedLinesInRange_eq] at h
  by_cases h1 : hasLength st = false ∧ hasLength ch = true
  · rw [if_pos h1] at h; cases h
  · rw [if_neg h1] at h
    by_cases h2 : n < 0
    · rw [if_pos h2] at h; cases h
    · rw [if_neg h2] at h
      injection h with h
      exact ⟨h1, not_lt.1 h2, h.symm⟩

theorem topProductRows_take_descending (joined : List (ProductSale × Product × Sale)) (k : Nat) :
    ((topProductRows joined).take k).Pairwise
      (fun a b => ∃ x y, a.total_revenue = some x ∧ b.total_revenue = some y ∧ y ≤ x) := by
  have hs : ((topProductRows joined).take k).Pairwise (byDesc (·.total_revenue)) :=
    List.Pairwise.sublist (List.take_sublist _ _) (topProductRows_sorted joined)
  refine List.Pairwise.imp_of_mem ?_ hs
  intro a b ha hb hab
  exact byDesc_values _ a b hab
    (topProductRows_revenue_some _ a ((List.take_sublist _ _).subset ha))
    (topProductRows_revenue_some _ b ((List.take_sublist _ _).subset hb))

/-- C6, amended: for a request `GET /api/top-products?limit=N`, the rows of a 200
response are sorted by `total_revenue` in descending order, and their number is at most
`N` when `N ≠ 0` and at most the default 10 when `N = 0` (a negative `N` has no 200
response). -/
theorem top_products_handler_sorted_and_limited (db : Database) (filters : Filters)
    (raw : String) (N : Int) (rows : List TopProductRow)
    (hN : parseInt raw = some N)
    (h : topProductsHandler db filters (some raw) = .json 200 rows) :
    rows.Pairwise (fun a b => ∃ x y, a.total_revenue = some x ∧ b.total_revenue = some y ∧ y ≤ x) ∧
      (rows.length : Int) ≤ (if N = 0 then 10 else N) := by
  unfold topProductsHandler at h
  rw [parseIntOr_some raw N 10 hN] at h
  generalize (if N = 0 then (10 : Int) else N) = n at h ⊢
  cases hq : getTopProducts db filters.startDate filters.endDate filters.storeIds
      filters.channelIds (some n) with
  | error err => rw [hq] at h; cases h
  | ok data =>
    rw [hq] at h
    injection h with _ h
    subst h
    obtain ⟨-, hn, rfl⟩ := getTopProducts_ok _ _ _ _ _ _ _ hq
    refine ⟨topProductRows_take_descending _ _, ?_⟩
    have hl := List.length_take_le n.toNat
      (topProductRows (completedLinesInRange db filters.startDate filters.endDate
        filters.storeIds filters.channelIds))
    omega

/-- C6, amended, on the example scenario with `limit=1`. -/
theorem top_products_handler_sorted_and_limited_witness :
    parseInt "1" = some 1 ∧
      topProductsHandler productsExample ⟨1704067200000000, 1704153600000000, none, none⟩
          (some "1") = .json 200 [⟨"B", 1, some 1, some 200, some 200⟩] ∧
      (([⟨"B", 1, some 1, some 200, some 200⟩] : List TopProductRow).length : Int)
        ≤ (if (1 : Int) = 0 then 10 else 1) :=
  ⟨by decide!, by decide!,
    (top_products_handler_sorted_and_limited productsExample
      ⟨1704067200000000, 1704153600000000, none, none⟩ "1" 1
      [⟨"B", 1, some 1, some 200, some 200⟩] (by decide!) (by decide!)).2⟩

/-! ## The inactive-customers report -/

theorem getInactiveCustomers_eq (db : Database) (now : Timestamp) (days : Int) :
    getInactiveCustomers db now (some days)
      = .ok ((inactiveCustomerGroups db now days).map (inactiveCustomerRow now)) := by
  have hp : placeholders getInactiveCustomers_sql = [1] := by decide!
  simp [getInactiveCustomers, getInactiveCustomers_query, prepare, hp, bindNum, paramAt, bind,
    Except.bind, pure, Except.pure, List.range, List.range.loop]

theorem customerJoin_fst_mem (db : Database) (r : Customer × Sale) (hr : r ∈ customerJoin db) :
    r.1 ∈ db.customers := by
  simp only [customerJoin, List.mem_filter, List.mem_flatMap, List.mem_map] at hr
  obtain ⟨⟨c, hc, s, -, rfl⟩, -⟩ := hr
  exact hc

/-- With unique customer ids, the joined rows of a customer are that customer paired
with each of the customer's COMPLETED sales. -/
theorem customerJoin_filter_eq (sales : List Sale) (cs : List Customer) (c : Customer)
    (hids : (cs.map (·.id)).Nodup) (hc : c ∈ cs) :
    ((cs.flatMap fun c' =>
        (sales.filter fun s => decide (s.customer_id = some c'.id)).map fun s => (c', s)).filter
        fun r => isCompleted r.2).filter (fun r => decide (r.1 = c))
      = (sales.filter fun s => decide (s.customer_id = some c.id) && isCompleted s).map
          fun s => (c, s) := by
  induction cs with
  | nil => cases hc
  | cons c' cs ih =>
    rw [List.map_cons, List.nodup_cons] at hids
    rw [List.flatMap_cons, List.filter_append, List.filter_append]
    by_cases hcc : c' = c
    · subst hcc
      have htail : ((cs.flatMap fun c'' =>
          (sales.filter fun s => decide (s.customer_id = some c''.id)).map
            fun s => (c'', s)).filter fun r => isCompleted r.2).filter
              (fun r => decide (r.1 = c')) = [] := by
        rw [List.filter_eq_nil_iff]
        intro r hr
        simp only [List.mem_filter, List.mem_flatMap, List.mem_map] at hr
        obtain ⟨⟨c'', hc'', s, -, rfl⟩, -⟩ := hr
        simp only [decide_eq_true_eq]
        intro heq
        subst heq
        exact hids.1 (List.mem_map_of_mem _ hc'')
      rw [htail, List.append_nil, List.filter_map, List.filter_map, List.filter_filter,
        List.filter_filter]
      congr 1
      apply List.filter_congr
      intro s _
      simp [Bool.and_comm]
    · have hhead : (((sales.filter fun s => decide (s.customer_id = some c'.id)).map
          fun s => (c', s)).filter fun r => isCompleted r.2).filter
            (fun r => decide (r.1 = c)) = [] := by
        rw [List.filter_eq_nil_iff]
        intro r hr
        simp only [List.mem_filter, List.mem_map] at hr
        obtain ⟨⟨s, -, rfl⟩, -⟩ := hr
        simpa using hcc
      rw [hhead, List.nil_append]
      rcases List.mem_cons.1 hc with h | h
      · exact absurd h.symm hcc
      · exact ih hids.2 h

theorem customer_group_eq (db : Database) (hids : (db.customers.map (·.id)).Nodup)
    (g : Customer × List (Customer × Sale)) (hg : g ∈ groupBy (·.1) (customerJoin db)) :
    g.1 ∈ db.customers ∧ g.2 = (completedPurchases db g.1.id).map fun s => (g.1, s) := by
  obtain ⟨⟨r, hr, hk⟩, hl⟩ := (mem_groupBy _ _ g).1 hg
  have hmem : g.1 ∈ db.customers := hk ▸ customerJoin_fst_mem db r hr
  refine ⟨hmem, ?_⟩
  rw [hl]
  exact customerJoin_filter_eq db.sales db.customers g.1 hids hmem

theorem inactiveCustomerRow_eq (db : Database) (now : Timestamp)
    (hids : (db.customers.map (·.id)).Nodup)
    (g : Customer × List (Customer × Sale)) (hg : g ∈ groupBy (·.1) (customerJoin db)) :
    inactiveCustomerRow now g = customerRow db now g.1 := by
  obtain ⟨-, h2⟩ := customer_group_eq db hids g hg
  simp [inactiveCustomerRow, customerRow, h2, Function.comp_def]

theorem havingInactive_iff (db : Database) (now : Timestamp) (days : Int)
    (hids : (db.customers.map (·.id)).Nodup)
    (g : Customer × List (Customer × Sale)) (hg : g ∈ groupBy (·.1) (customerJoin db)) :
    havingInactive now days g = true ↔ IsInactive db now days g.1 := by
  obtain ⟨-, h2⟩ := customer_group_eq db hids g hg
  simp only [havingInactive, IsInactive, h2, List.map_map, Function.comp_def, List.length_map,
    Bool.and_eq_true, decide_eq_true_eq]
  cases hm : sqlMax ((completedPurchases db g.1.id).map fun s => s.created_at) with
  | none => simp
  | some m => simp [and_comm]

theorem customer_group_mem (db : Database) (c : Customer) (hc : c ∈ db.customers)
    (hne : completedPurchases db c.id ≠ []) :
    (c, (customerJoin db).filter fun r => decide (r.1 = c)) ∈ groupBy (·.1) (customerJoin db) := by
  rw [mem_groupBy]
  refine ⟨?_, rfl⟩
  obtain ⟨s, hs⟩ := List.exists_mem_of_ne_nil _ hne
  simp only [completedPurchases, List.mem_filter, Bool.and_eq_true, decide_eq_true_eq] at hs
  refine ⟨(c, s), ?_, rfl⟩
  simp only [customerJoin, List.mem_filter, List.mem_flatMap, List.mem_map]
  exact ⟨⟨c, hc, s, by simp [List.mem_filter, hs.1, hs.2.1], rfl⟩, hs.2.2⟩

theorem inactiveCustomerGroups_sublist (db : Database) (now : Timestamp) (days : Int)
    (g : Customer × List (Customer × Sale)) (hg : g ∈ inactiveCustomerGroups db now days) :
    g ∈ groupBy (·.1) (customerJoin db) ∧ havingInactive now days g = true := by
  unfold inactiveCustomerGroups at hg
  have h1 := (List.take_sublist _ _).subset hg
  have h2 := (List.perm_insertionSort _ _).subset h1
  exact List.mem_filter.1 h2

theorem le_extractDay (now last days : Int) (hdays : 0 ≤ days)
    (h : last < now - usecPerDay * days) : days ≤ extractDay now last := by
  have hD : (0 : Int) < usecPerDay := by decide
  have hpos : 0 ≤ usecPerDay * days := Int.mul_nonneg (le_of_lt hD) hdays
  unfold extractDay
  rw [Int.tdiv_eq_ediv (by omega) (le_of_lt hD)]
  apply Int.le_ediv_of_mul_le hD
  rw [Int.mul_comm]
  omega

/-- C8: for every dataset with unique customer ids, every current time and every
threshold `days ≥ 0`, `getInactiveCustomers` returns rows, and each row is the row of a
customer who has at least 3 COMPLETED purchases; its `days_since_purchase` is the whole
days between now and the customer's latest COMPLETED purchase, and is `≥ days`. -/
theorem inactive_customers_rows_qualify (db : Database) (now : Timestamp) (days : Int)
    (hdays : 0 ≤ days) (hids : (db.customers.map (·.id)).Nodup) :
    ∃ rows, getInactiveCustomers db now (some days) = .ok rows ∧
      ∀ row ∈ rows, ∃ c ∈ db.customers, row = customerRow db now c ∧
        3 ≤ (completedPurchases db c.id).length ∧
        row.total_purchases = (completedPurchases db c.id).length ∧
        ∃ last, sqlMax ((completedPurchases db c.id).map (·.created_at)) = some last ∧
          row.days_since_purchase = some (extractDay now last) ∧
          days ≤ extractDay now last := by
  refine ⟨_, getInactiveCustomers_eq db now days, ?_⟩
  intro row hrow
  obtain ⟨g, hg, rfl⟩ := List.mem_map.1 hrow
  obtain ⟨hgG, hhav⟩ := inactiveCustomerGroups_sublist db now days g hg
  obtain ⟨h3, last, hlast, hlt⟩ := (havingInactive_iff db now days hids g hgG).1 hhav
  have hrow := inactiveCustomerRow_eq db now hids g hgG
  refine ⟨g.1, (customer_group_eq db hids g hgG).1, hrow, h3, ?_, last, hlast, ?_,
    le_extractDay now last days hdays hlt⟩
  · rw [hrow]; rfl
  · rw [hrow]; simp [customerRow, hlast]

/-- C8 on the example scenario, one year later with a threshold of 30 days: only Ana,
who has three completed purchases, is reported. -/
theorem inactive_customers_rows_qualify_witness :
    (0 : Int) ≤ 30 ∧ (customersExample.customers.map (·.id)).Nodup ∧
      getInactiveCustomers customersExample 1735689600000000 (some 30)
        = .ok [⟨"Ana", "ana@example.com", "1", 3, some 60, some 1704114000000000, some 365⟩] ∧
      ∃ rows, getInactiveCustomers customersExample 1735689600000000 (some 30) = .ok rows ∧
        ∀ row ∈ rows, ∃ c ∈ customersExample.customers,
          row = customerRow customersExample 1735689600000000 c ∧
          3 ≤ (completedPurchases customersExample c.id).length ∧
          row.total_purchases = (completedPurchases customersExample c.id).length ∧
          ∃ last, sqlMax ((completedPurchases customersExample c.id).map (·.created_at))
              = some last ∧
            row.days_since_purchase = some (extractDay 1735689600000000 last) ∧
            30 ≤ extractDay 1735689600000000 last :=
  ⟨by decide, by decide, by decide!,
    inactive_customers_rows_qualify customersExample 1735689600000000 30 (by decide)
      (by decide)⟩

/-! ## Revenue per day against the overview -/

theorem sum_indicator {κ : Type} [DecidableEq κ] (ks : List κ) (hnd : ks.Nodup) (a : κ)
    (ha : a ∈ ks) (c : ℚ) : (ks.map fun k => if a = k then c else 0).sum = c := by
  induction ks with
  | nil => cases ha
  | cons k ks ih =>
    rw [List.nodup_cons] at hnd
    rw [List.map_cons, List.sum_cons]
    by_cases hak : a = k
    · subst hak
      have hz : (ks.map fun k => if a = k then c else 0) = ks.map fun _ => (0 : ℚ) := by
        apply List.map_congr_left
        intro k hk
        have : a ≠ k := fun h => hnd.1 (h ▸ hk)
        simp [this]
      rw [hz]
      simp
    · rcases List.mem_cons.1 ha with h | h
      · exact absurd h hak
      · rw [if_neg hak, ih hnd.2 h, zero_add]

theorem sum_by_keys {α κ : Type} [DecidableEq κ] (key : α → κ) (f : α → ℚ) (ks : List κ)
    (hnd : ks.Nodup) (rows : List α) (hk : ∀ r ∈ rows, key r ∈ ks) :
    (ks.map fun k => ((rows.filter fun r => decide (key r = k)).map f).sum).sum
      = (rows.map f).sum := by
  induction rows with
  | nil => simp
  | cons r rs ih =>
    have h1 : (ks.map fun k => (((r :: rs).filter fun r => decide (key r = k)).map f).sum)
        = ks.map fun k => (if key r = k then f r else 0)
            + ((rs.filter fun r => decide (key r = k)).map f).sum := by
      apply List.map_congr_left
      intro k _
      by_cases hrk : key r = k
      · simp [List.filter_cons, hrk]
      · simp [List.filter_cons, hrk]
    rw [h1, List.sum_map_add, sum_indicator ks hnd (key r) (hk r (List.mem_cons_self _ _)),
      ih (fun x hx => hk x (List.mem_cons_of_mem _ hx)), List.map_cons, List.sum_cons]

/-- The sums of the groups of `GROUP BY` add up to the sum over all rows. -/
theorem sum_groupBy {α κ : Type} [DecidableEq κ] (key : α → κ) (f : α → ℚ) (rows : List α) :
    ((groupBy key rows).map fun g => (g.2.map f).sum).sum = (rows.map f).sum := by
  have h := sum_by_keys key f ((rows.map key).dedup) (List.nodup_dedup _) rows
    (fun r hr => List.mem_dedup.2 (List.mem_map_of_mem _ hr))
  simpa [groupBy, Function.comp_def] using h

theorem sum_filter_map {α : Type} (p : α → Bool) (f : α → ℚ) (l : List α) :
    ((l.filter p).map f).sum = (l.map fun x => if p x then f x else 0).sum := by
  induction l with
  | nil => rfl
  | cons a l ih =>
    by_cases hp : p a = true
    · simp [List.filter_cons, hp, ih]
    · simp [List.filter_cons, hp, ih]

theorem floor_half : ⌊(1 / 2 : ℚ)⌋ = 0 := by
  rw [Int.floor_eq_iff]
  norm_num

theorem roundHalfAway_intCast (n : Int) : roundHalfAway (n : ℚ) = n := by
  unfold roundHalfAway
  split
  · rw [Int.floor_int_add, floor_half, add_zero]
  · have h : (-(n : ℚ) + 1 / 2) = ((-n : Int) : ℚ) + 1 / 2 := by push_cast; ring
    rw [h, Int.floor_int_add, floor_half, add_zero, neg_neg]

theorem roundTo_two_of_isCents (q : ℚ) (h : IsCents q) : roundTo 2 q = q := by
  obtain ⟨n, rfl⟩ := h
  unfold roundTo
  have h1 : ((n : ℚ) / 100 * 10 ^ 2) = (n : ℚ) := by norm_num
  rw [h1, roundHalfAway_intCast]
  norm_num

theorem isCents_sum (l : List ℚ) (h : ∀ x ∈ l, IsCents x) : IsCents l.sum := by
  induction l with
  | nil => exact ⟨0, by simp⟩
  | cons a l ih =>
    obtain ⟨n, hn⟩ := h a (List.mem_cons_self _ _)
    obtain ⟨m, hm⟩ := ih fun x hx => h x (List.mem_cons_of_mem _ hx)
    refine ⟨n + m, ?_⟩
    rw [List.sum_cons, hn, hm]
    push_cast
    ring

theorem rounded_sum_getD (l : List ℚ) (h : ∀ x ∈ l, IsCents x) :
    (sqlRound (sqlSum l) 2).getD 0 = l.sum := by
  cases l with
  | nil => rfl
  | cons a l =>
    simp only [sqlSum, sqlRound, Option.map_some', Option.getD_some]
    exact roundTo_two_of_isCents _ (isCents_sum _ h)

theorem revenueTotal_salesByDateRows (sales : List Sale)
    (h : ∀ x ∈ sales, IsCents x.total_amount) :
    revenueTotal (salesByDateRows sales)
      = ((sales.filter isCompleted).map (·.total_amount)).sum := by
  unfold revenueTotal salesByDateRows
  rw [((List.perm_insertionSort _ _).map _).sum_eq, List.map_map]
  have h1 : ∀ g ∈ groupBy (fun s : Sale => sqlDate s.created_at) sales,
      ((fun r : SalesByDateRow => r.revenue.getD 0) ∘ fun g : Int × List Sale =>
        ({ date := g.1
           total_sales := (g.2.filter isCompleted).length
           revenue := sqlRound (sqlSum ((g.2.filter isCompleted).map (·.total_amount))) 2 } :
          SalesByDateRow)) g
        = (g.2.map fun x => if isCompleted x then x.total_amount else 0).sum := by
    intro g hg
    obtain ⟨-, hl⟩ := (mem_groupBy _ _ g).1 hg
    simp only [Function.comp_apply]
    rw [rounded_sum_getD, sum_filter_map]
    intro x hx
    obtain ⟨y, hy, rfl⟩ := List.mem_map.1 hx
    have hy' := (List.mem_filter.1 hy).1
    rw [hl] at hy'
    exact h y (List.mem_filter.1 hy').1
  rw [List.map_congr_left h1, sum_groupBy, sum_filter_map]

/-- C4 as stated fails in two ways.  Per-day rounding: with two completed sales of
0.005 on two days the rows of `getSalesByDate` carry 0.01 each, in sum 0.02, while
`getOverview` has `total_revenue = 0.01`.  No completed sale: on the empty dataset
`getSalesByDate` has no row, with sum 0, while `total_revenue` is `NULL`. -/
theorem sales_by_date_sum_differs_from_overview :
    (getSalesByDate roundingExample 1704067200000000 1704240000000000 none none
        = .ok [⟨19723, 1, some (1 / 100)⟩, ⟨19724, 1, some (1 / 100)⟩] ∧
      getOverview roundingExample 1704067200000000 1704240000000000 none none
        = .ok ⟨2, 2, 0, some (1 / 100), some (1 / 100), some 0⟩ ∧
      revenueTotal [⟨19723, 1, some (1 / 100)⟩, ⟨19724, 1, some (1 / 100)⟩] = 2 / 100 ∧
      some (revenueTotal [⟨19723, 1, some (1 / 100)⟩, ⟨19724, 1, some (1 / 100)⟩])
        ≠ (some (1 / 100) : Option ℚ)) ∧
    (getSalesByDate emptyExample 1704067200000000 1704240000000000 none none = .ok [] ∧
      getOverview emptyExample 1704067200000000 1704240000000000 none none
        = .ok ⟨0, 0, 0, none, none, none⟩ ∧
      some (revenueTotal []) ≠ (none : Option ℚ)) := by
  decide!

/-- C4, amended: when every `total_amount` of the dataset has at most two decimal
places, and `getSalesByDate` and `getOverview` return for the same range and filters,
the sum of `revenue` over the rows of `getSalesByDate` equals the `total_revenue` of
`getOverview`, a `NULL` being read as 0 on both sides. -/
theorem sales_by_date_revenue_sums_to_overview (db : Database) (s e : Timestamp)
    (st ch : Option (List Int)) (rows : List SalesByDateRow) (o : OverviewRow)
    (hcents : ∀ x ∈ db.sales, IsCents x.total_amount)
    (h1 : getSalesByDate db s e st ch = .ok rows) (h2 : getOverview db s e st ch = .ok o) :
    revenueTotal rows = o.total_revenue.getD 0 := by
  rw [getSalesByDate_eq] at h1
  rw [getOverview_eq] at h2
  split at h1
  · cases h1
  rename_i hcomb
  rw [if_neg hcomb] at h2
  injection h1 with h1
  injection h2 with h2
  subst h1 h2
  have hscope : ∀ x ∈ db.sales.filter (fun r => inScope s e (activeIds st) (activeIds ch) r),
      IsCents x.total_amount := fun x hx => hcents x (List.mem_filter.1 hx).1
  rw [revenueTotal_salesByDateRows _ hscope]
  simp only [overviewRow]
  rw [rounded_sum_getD]
  intro x hx
  obtain ⟨y, hy, rfl⟩ := List.mem_map.1 hx
  exact hscope y (List.mem_filter.1 hy).1

/-- C4, amended, on the overview example: 80 on 2024-01-01, nothing on 2024-01-02, 80
in total. -/
theorem sales_by_date_revenue_sums_to_overview_witness :
    (∀ x ∈ overviewExample.sales, IsCents x.total_amount) ∧
      getSalesByDate overviewExample 1704067200000000 1704153600000000 none none
        = .ok [⟨19723, 2, some 80⟩, ⟨19724, 0, none⟩] ∧
      revenueTotal [⟨19723, 2, some 80⟩, ⟨19724, 0, none⟩]
        = (some 80 : Option ℚ).getD 0 :=
  have hc : ∀ x ∈ overviewExample.sales, IsCents x.total_amount := by
    intro x hx
    simp only [overviewExample, exampleSale, List.mem_cons, List.mem_singleton,
      List.not_mem_nil, or_false] at hx
    rcases hx with rfl | rfl | rfl
    · exact ⟨5000, by norm_num⟩
    · exact ⟨3000, by norm_num⟩
    · exact ⟨2000, by norm_num⟩
  ⟨hc, by decide!,
    sales_by_date_revenue_sums_to_overview overviewExample 1704067200000000 1704153600000000
      none none [⟨19723, 2, some 80⟩, ⟨19724, 0, none⟩] ⟨3, 2, 1, some 40, some 80, some 0⟩ hc
      (by decide!) (by decide!)⟩

/-! ## The channel and customer reports -/

theorem placeholders_getSalesByChannel (s e : Timestamp) (st : Option (List Int)) :
    placeholders (getSalesByChannel_query s e st).sql = filterPlaceholders st none := by
  rcases hasLength_cases st with ⟨h1, h2, -, -⟩ | ⟨h1, h2, -, -⟩ <;>
  simp only [getSalesByChannel_query, h2, filterPlaceholders, h1] <;> decide!

/-- The report `getSalesByChannel` never fails: without a channel fragment the
placeholders always match the parameters. -/
theorem getSalesByChannel_eq (db : Database) (s e : Timestamp) (st : Option (List Int)) :
    getSalesByChannel db s e st
      = .ok (salesByChannelRows
          ((channelJoin db).filter fun r => inScope s e (activeIds st) none r.1)) := by
  unfold getSalesByChannel
  have h := execWhere_eq (getSalesByChannel_query s e st) s e st none (·.1) (channelJoin db)
    (placeholders_getSalesByChannel s e st) rfl
  have hc : channelFilter none = "" := rfl
  have ha : activeIds none = none := rfl
  rw [hc, if_neg (by simp [hasLength]), ha] at h
  rw [h]
  rfl

theorem placeholders_getTopCustomers : placeholders getTopCustomers_sql = [1, 2, 3] := by
  decide!

/-- The report `getTopCustomers`: it is rejected for a negative limit and is otherwise
the first `limit` rows of the ordered grouped report over the COMPLETED sales of
customers in the date range. -/
theorem getTopCustomers_eq (db : Database) (s e : Timestamp) (n : Int) :
    getTopCustomers db s e (some n) =
      if n < 0 then .error .negativeLimit
      else .ok ((topCustomerRows ((customerJoin db).filter
        fun r => inScope s e none none r.2)).take n.toNat) := by
  simp [getTopCustomers, getTopCustomers_query, execWhere, prepare,
    placeholders_getTopCustomers, bindTs, bindNum, paramAt, bindIdFilter, placeholders_empty,
    bind, Except.bind, pure, Except.pure, List.range, List.range.loop, sqlLimit]

/-! ## A store filter that matches no sale -/

theorem filter_inScope_eq_nil {α : Type} (saleOf : α → Sale) (rows : List α) (s e : Timestamp)
    (ids : List Int) (ch : Option (List Int)) (h : ∀ r ∈ rows, (saleOf r).store_id ∉ ids) :
    (rows.filter fun r => inScope s e (some ids) ch (saleOf r)) = [] := by
  rw [List.filter_eq_nil_iff]
  intro r hr
  simp [inScope, idMatches, h r hr]

theorem productJoin_sale_mem (db : Database) (r : ProductSale × Product × Sale)
    (hr : r ∈ productJoin db) : r.2.2 ∈ db.sales := by
  simp only [productJoin, List.mem_flatMap, List.mem_map, List.mem_filter] at hr
  obtain ⟨ps, -, p, -, s, ⟨hs, -⟩, rfl⟩ := hr
  exact hs

theorem channelJoin_sale_mem (db : Database) (r : Sale × Channel) (hr : r ∈ channelJoin db) :
    r.1 ∈ db.sales := by
  simp only [channelJoin, List.mem_flatMap, List.mem_map, List.mem_filter] at hr
  obtain ⟨s, hs, c, -, rfl⟩ := hr
  exact hs

theorem filter_id_eq_singleton (cs : List Channel) (hids : (cs.map (·.id)).Nodup) (c : Channel)
    (hc : c ∈ cs) (k : Int) :
    (cs.filter fun c' => decide (c'.id = k) && decide (c' = c)) = if c.id = k then [c] else [] := by
  induction cs with
  | nil => cases hc
  | cons a cs ih =>
    rw [List.map_cons, List.nodup_cons] at hids
    by_cases hac : a = c
    · subst hac
      have htail : (cs.filter fun c' => decide (c'.id = k) && decide (c' = a)) = [] := by
        rw [List.filter_eq_nil_iff]
        intro c' hc'
        have : c' ≠ a := fun h => hids.1 (h ▸ List.mem_map_of_mem _ hc')
        simp [this]
      by_cases hk : a.id = k
      · simp [List.filter_cons, hk, htail]
      · simp [List.filter_cons, hk, htail]
    · rcases List.mem_cons.1 hc with h | h
      · exact absurd h.symm hac
      · simp [List.filter_cons, hac, ih hids.2 h]

/-- With unique channel ids, the joined rows of a channel that satisfy a condition on
the sale are the sales of that channel satisfying it, each paired with the channel. -/
theorem channelJoin_filter_eq (sales : List Sale) (cs : List Channel) (c : Channel)
    (hids : (cs.map (·.id)).Nodup) (hc : c ∈ cs) (p : Sale → Bool) :
    ((sales.flatMap fun s =>
        (cs.filter fun c' => decide (c'.id = s.channel_id)).map fun c' => (s, c')).filter
        fun r => p r.1).filter (fun r => decide (r.2 = c))
      = (sales.filter fun s => decide (s.channel_id = c.id) && p s).map fun s => (s, c) := by
  induction sales with
  | nil => rfl
  | cons x xs ih =>
    rw [List.flatMap_cons, List.filter_append, List.filter_append, ih]
    have hx : (((cs.filter fun c' => decide (c'.id = x.channel_id)).map
        fun c' => (x, c')).filter fun r => p r.1).filter (fun r => decide (r.2 = c))
        = if x.channel_id = c.id ∧ p x = true then [(x, c)] else [] := by
      rw [List.filter_map, List.filter_map, List.filter_filter, List.filter_filter]
      by_cases hp : p x = true
      · have h1 : (cs.filter fun a =>
            (((fun r : Sale × Channel => decide (r.2 = c)) ∘ fun c' => (x, c')) a &&
              ((fun r : Sale × Channel => p r.1) ∘ fun c' => (x, c')) a) &&
              decide (a.id = x.channel_id))
            = cs.filter fun c' => decide (c'.id = x.channel_id) && decide (c' = c) := by
          apply List.filter_congr
          intro a _
          simp [hp, Bool.and_comm]
        rw [h1, filter_id_eq_singleton cs hids c hc]
        by_cases hk : c.id = x.channel_id
        · simp [hk, hp]
        · have hk' : ¬ x.channel_id = c.id := fun h => hk h.symm
          simp [hk, hk', hp]
      · have h1 : (cs.filter fun a =>
            (((fun r : Sale × Channel => decide (r.2 = c)) ∘ fun c' => (x, c')) a &&
              ((fun r : Sale × Channel => p r.1) ∘ fun c' => (x, c')) a) &&
              decide (a.id = x.channel_id)) = [] := by
          rw [List.filter_eq_nil_iff]
          intro a _
          simp [hp]
        rw [h1]
        simp [hp]
    rw [hx]
    by_cases hcond : x.channel_id = c.id ∧ p x = true
    · simp [hcond, List.filter_cons]
    · rw [if_neg hcond]
      have : (decide (x.channel_id = c.id) && p x) = false := by
        rcases not_and_or.1 hcond with h | h
        · simp [h]
        · simp [h]
      simp [List.filter_cons, this]

theorem channel_group_eq (db : Database) (s e : Timestamp) (st : Option (List Int))
    (hids : (db.channels.map (·.id)).Nodup) (g : Channel × List (Sale × Channel))
    (hg : g ∈ groupBy (·.2)
      ((channelJoin db).filter fun r => inScope s e (activeIds st) none r.1)) :
    g.1 ∈ db.channels ∧
      g.2.map (·.1) = db.sales.filter fun x =>
        decide (x.channel_id = g.1.id) && inScope s e (activeIds st) none x := by
  obtain ⟨⟨r, hr, hk⟩, hl⟩ := (mem_groupBy _ _ g).1 hg
  have hmem : g.1 ∈ db.channels := by
    have hr' := (List.mem_filter.1 hr).1
    simp only [channelJoin, List.mem_flatMap, List.mem_map, List.mem_filter] at hr'
    obtain ⟨x, -, c, ⟨hc, -⟩, rfl⟩ := hr'
    exact hk ▸ hc
  refine ⟨hmem, ?_⟩
  rw [hl]
  have := channelJoin_filter_eq db.sales db.channels g.1 hids hmem
    (fun x => inScope s e (activeIds st) none x)
  unfold channelJoin
  rw [this, List.map_map]
  simp [Function.comp_def]

theorem sqlAvg_eq_none_iff (l : List ℚ) : sqlAvg l = none ↔ l = [] := by
  cases l <;> simp [sqlAvg]

theorem deliveryMinutes_eq (db : Database) (s e : Timestamp) (st : Option (List Int))
    (c : Channel) :
    deliveryMinutes (db.sales.filter fun x =>
        decide (x.channel_id = c.id) && inScope s e (activeIds st) none x)
      = (recordedDeliveries db s e st c).map fun (d : Int) => (d : ℚ) / 60 := by
  unfold deliveryMinutes recordedDeliveries
  rw [List.map_filterMap, List.filter_filter]
  congr 1
  apply List.filter_congr
  intro x _
  cases decide (x.channel_id = c.id) <;> cases isCompleted x <;>
    cases inScope s e (activeIds st) none x <;> rfl

/-- C16: for every dataset with unique channel ids, `getSalesByChannel` returns rows, and
each row is the row of a channel whose `avg_delivery_minutes` is `NULL` exactly when no
COMPLETED sale of the channel in range has `delivery_seconds` recorded, and is otherwise
the mean of `delivery_seconds / 60` over the COMPLETED sales of the channel in range
with `delivery_seconds` recorded, rounded to 1 decimal. -/
theorem sales_by_channel_avg_delivery (db : Database) (s e : Timestamp)
    (st : Option (List Int)) (hids : (db.channels.map (·.id)).Nodup) :
    ∃ rows, getSalesByChannel db s e st = .ok rows ∧
      ∀ row ∈ rows, ∃ c ∈ db.channels, row.channel_name = c.name ∧
        row.channel_type = c.type ∧
        (row.avg_delivery_minutes = none ↔ recordedDeliveries db s e st c = []) ∧
        (recordedDeliveries db s e st c ≠ [] →
          row.avg_delivery_minutes = some (roundTo 1
            (((recordedDeliveries db s e st c).map fun (d : Int) => (d : ℚ) / 60).sum
              / (recordedDeliveries db s e st c).length))) := by
  refine ⟨_, getSalesByChannel_eq db s e st, ?_⟩
  intro row hrow
  unfold salesByChannelRows at hrow
  obtain ⟨g, hg, rfl⟩ := List.mem_map.1 ((List.perm_insertionSort _ _).subset hrow)
  obtain ⟨hmem, hsales⟩ := channel_group_eq db s e st hids g hg
  refine ⟨g.1, hmem, rfl, rfl, ?_, ?_⟩
  · simp only [salesByChannelRow, hsales, deliveryMinutes_eq, sqlRound, Option.map_eq_none',
      sqlAvg_eq_none_iff, List.map_eq_nil_iff]
  · intro hne
    simp only [salesByChannelRow, hsales, deliveryMinutes_eq, sqlRound]
    cases hrec : recordedDeliveries db s e st g.1 with
    | nil => exact absurd hrec hne
    | cons d ds => simp [sqlAvg]

/-- C16 on the channel example: 22.5 minutes for the channel with recorded deliveries of
1200 and 1500 seconds, `NULL` for the channel without a recorded delivery. -/
theorem sales_by_channel_avg_delivery_witness :
    (channelsExample.channels.map (·.id)).Nodup ∧
      getSalesByChannel channelsExample 1704067200000000 1704153600000000 none
        = .ok [⟨"iFood", "D", 2, some 150, some 75, some (45 / 2)⟩,
               ⟨"Balcao", "P", 1, some 30, some 30, none⟩] ∧
      ∃ rows, getSalesByChannel channelsExample 1704067200000000 1704153600000000 none
          = .ok rows ∧
        ∀ row ∈ rows, ∃ c ∈ channelsExample.channels, row.channel_name = c.name ∧
          row.channel_type = c.type ∧
          (row.avg_delivery_minutes = none ↔
            recordedDeliveries channelsExample 1704067200000000 1704153600000000 none c = []) ∧
          (recordedDeliveries channelsExample 1704067200000000 1704153600000000 none c ≠ [] →
            row.avg_delivery_minutes = some (roundTo 1
              (((recordedDeliveries channelsExample 1704067200000000 1704153600000000 none
                  c).map fun (d : Int) => (d : ℚ) / 60).sum
                / (recordedDeliveries channelsExample 1704067200000000 1704153600000000 none
                    c).length))) :=
  ⟨by decide, by decide!,
    sales_by_channel_avg_delivery channelsExample 1704067200000000 1704153600000000 none
      (by decide)⟩

theorem customer_eq_of_id_eq (cs : List Customer) (hids : (cs.map (·.id)).Nodup)
    (a b : Customer) (ha : a ∈ cs) (hb : b ∈ cs) (h : a.id = b.id) : a = b :=
  List.inj_on_of_nodup_map hids ha hb h

theorem top_customer_group_eq (db : Database) (s e : Timestamp)
    (hids : (db.customers.map (·.id)).Nodup)
    (g : (Int × String × String) × List (Customer × Sale))
    (hg : g ∈ groupBy (fun r : Customer × Sale => (r.1.id, r.1.customer_name, r.1.email))
      ((customerJoin db).filter fun r => inScope s e none none r.2)) :
    ∃ c ∈ db.customers, g.1 = (c.id, c.customer_name, c.email) ∧
      g.2 = (purchasesInRange db s e c).map fun x => (c, x) := by
  obtain ⟨⟨r, hr, hk⟩, hl⟩ := (mem_groupBy _ _ g).1 hg
  have hrmem : r.1 ∈ db.customers := customerJoin_fst_mem db r (List.mem_filter.1 hr).1
  refine ⟨r.1, hrmem, hk.symm, ?_⟩
  rw [hl]
  have hcongr : (((customerJoin db).filter fun r => inScope s e none none r.2).filter
      fun r' => decide ((r'.1.id, r'.1.customer_name, r'.1.email) = g.1))
      = ((customerJoin db).filter fun r => inScope s e none none r.2).filter
          fun r' => decide (r'.1 = r.1) := by
    apply List.filter_congr
    intro r' hr'
    have hr'mem : r'.1 ∈ db.customers := customerJoin_fst_mem db r' (List.mem_filter.1 hr').1
    rw [← hk]
    by_cases heq : r'.1 = r.1
    · simp [heq]
    · have : r'.1.id ≠ r.1.id :=
        fun h => heq (customer_eq_of_id_eq db.customers hids _ _ hr'mem hrmem h)
      simp [heq, this]
  rw [hcongr, List.filter_filter]
  have hcomm : ((customerJoin db).filter fun a =>
      decide (a.1 = r.1) && inScope s e none none a.2)
      = (((customerJoin db).filter fun a => decide (a.1 = r.1))).filter
          fun a => inScope s e none none a.2 := by
    rw [List.filter_filter]
    apply List.filter_congr
    intro a _
    exact Bool.and_comm _ _
  rw [hcomm]
  have hjoin := customerJoin_filter_eq db.sales db.customers r.1 hids hrmem
  unfold customerJoin
  rw [hjoin, List.filter_map, List.filter_filter]
  unfold purchasesInRange
  congr 1
  apply List.filter_congr
  intro x _
  simp [inScope, idMatches, Function.comp_def, Bool.and_comm, Bool.and_assoc, Bool.and_left_comm]

theorem topCustomerRows_lifetime_some (joined : List (Customer × Sale)) (r : TopCustomerRow)
    (hr : r ∈ topCustomerRows joined) : ∃ x, r.lifetime_value = some x := by
  unfold topCustomerRows at hr
  obtain ⟨g, hg, rfl⟩ := List.mem_map.1 ((List.perm_insertionSort _ _).subset hr)
  have hne := groupBy_group_ne_nil _ _ g hg
  obtain ⟨x, hx⟩ := sqlSum_isSome_of_ne_nil (g.2.map (·.2.total_amount)) (by simpa using hne)
  exact ⟨roundTo 2 x, by simp [topCustomerRow, hx, sqlRound]⟩

/-- C19: for every dataset with unique customer ids, every date range and every limit
`k ≥ 0`, `getTopCustomers` returns at most `k` rows, sorted by `lifetime_value`
descending; each row is the row of a customer with at least one COMPLETED sale within
the date range, its `total_purchases` is the number and its `lifetime_value` the sum of
`total_amount`, rounded to 2 decimals, of those sales. -/
theorem top_customers_sorted_limited (db : Database) (s e : Timestamp) (k : Int)
    (hk : 0 ≤ k) (hids : (db.customers.map (·.id)).Nodup) :
    ∃ rows, getTopCustomers db s e (some k) = .ok rows ∧
      (rows.length : Int) ≤ k ∧
      rows.Pairwise
        (fun a b => ∃ x y, a.lifetime_value = some x ∧ b.lifetime_value = some y ∧ y ≤ x) ∧
      ∀ row ∈ rows, ∃ c ∈ db.customers, row.customer_name = c.customer_name ∧
        row.email = c.email ∧ purchasesInRange db s e c ≠ [] ∧
        row.total_purchases = (purchasesInRange db s e c).length ∧
        row.lifetime_value
          = some (roundTo 2 ((purchasesInRange db s e c).map (·.total_amount)).sum) := by
  refine ⟨_, by rw [getTopCustomers_eq, if_neg (by omega)], ?_, ?_, ?_⟩
  · have := List.length_take_le k.toNat
      (topCustomerRows ((customerJoin db).filter fun r => inScope s e none none r.2))
    omega
  · have hs : ((topCustomerRows ((customerJoin db).filter
        fun r => inScope s e none none r.2)).take k.toNat).Pairwise
        (byDesc (·.lifetime_value)) :=
      List.Pairwise.sublist (List.take_sublist _ _) (List.sorted_insertionSort _ _)
    refine List.Pairwise.imp_of_mem ?_ hs
    intro a b ha hb hab
    exact byDesc_values _ a b hab
      (topCustomerRows_lifetime_some _ a ((List.take_sublist _ _).subset ha))
      (topCustomerRows_lifetime_some _ b ((List.take_sublist _ _).subset hb))
  · intro row hrow
    have hrow' := (List.take_sublist _ _).subset hrow
    unfold topCustomerRows at hrow'
    obtain ⟨g, hg, rfl⟩ := List.mem_map.1 ((List.perm_insertionSort _ _).subset hrow')
    obtain ⟨c, hc, hkey, hgroup⟩ := top_customer_group_eq db s e hids g hg
    have hne : purchasesInRange db s e c ≠ [] := by
      intro h0
      have := groupBy_group_ne_nil _ _ g hg
      rw [hgroup, h0] at this
      exact this rfl
    refine ⟨c, hc, ?_, ?_, hne, ?_, ?_⟩
    · simp [topCustomerRow, hkey]
    · simp [topCustomerRow, hkey]
    · simp [topCustomerRow, hgroup]
    · simp only [topCustomerRow, hgroup, List.map_map, Function.comp_def]
      cases hp : purchasesInRange db s e c with
      | nil => exact absurd hp hne
      | cons x xs => simp [sqlSum, sqlRound]

/-- C19 on the channel example with `limit = 1`: the customer with the two completed
sales of 100 and 50 is reported. -/
theorem top_customers_sorted_limited_witness :
    (0 : Int) ≤ 1 ∧ (channelsExample.customers.map (·.id)).Nodup ∧
      getTopCustomers channelsExample 1704067200000000 1704153600000000 (some 1)
        = .ok [⟨"Ana", "ana@example.com", 2, some 150, some 75, some 1704110400000000⟩] ∧
      ∃ rows, getTopCustomers channelsExample 1704067200000000 1704153600000000 (some 1)
          = .ok rows ∧
        (rows.length : Int) ≤ 1 ∧
        rows.Pairwise
          (fun a b => ∃ x y, a.lifetime_value = some x ∧ b.lifetime_value = some y ∧ y ≤ x) ∧
        ∀ row ∈ rows, ∃ c ∈ channelsExample.customers, row.customer_name = c.customer_name ∧
          row.email = c.email ∧
          purchasesInRange channelsExample 1704067200000000 1704153600000000 c ≠ [] ∧
          row.total_purchases
            = (purchasesInRange channelsExample 1704067200000000 1704153600000000 c).length ∧
          row.lifetime_value
            = some (roundTo 2 ((purchasesInRange channelsExample 1704067200000000
                1704153600000000 c).map (·.total_amount)).sum) :=
  ⟨by decide, by decide, by decide!,
    top_customers_sorted_limited channelsExample 1704067200000000 1704153600000000 1
      (by decide) (by decide)⟩

/-! ## Inclusive date bounds -/

theorem inScope_iff (s e : Timestamp) (st ch : Option (List Int)) (x : Sale) :
    inScope s e (activeIds st) (activeIds ch) x = true ↔ InRangeAndFilters s e st ch x := by
  unfold inScope InRangeAndFilters
  cases activeIds st <;> cases activeIds ch <;> simp [idMatches, and_assoc]

theorem getTopCustomers_ok (db : Database) (s e : Timestamp) (n : Int)
    (rows : List TopCustomerRow) (h : getTopCustomers db s e (some n) = .ok rows) :
    0 ≤ n ∧ rows = (topCustomerRows ((customerJoin db).filter
      fun r => inScope s e none none r.2)).take n.toNat := by
  rw [getTopCustomers_eq] at h
  by_cases h2 : n < 0
  · rw [if_pos h2] at h; cases h
  · rw [if_neg h2] at h
    injection h with h
    exact ⟨not_lt.1 h2, h.symm⟩

/-- C20: in every date-filtered operation the rows that enter the aggregation are the
candidate rows whose sale has `startDate ≤ created_at ≤ endDate`, both bounds included,
and passes the store and channel filters that are present; the candidates are all sales
(`getOverview`, `getSalesByDate`, `getSalesByWeekday`), the COMPLETED sales
(`getSalesByHour`), the sales joined to their channel (`getSalesByChannel`), the lines
of COMPLETED sales (`getTopProducts`) and the COMPLETED sales of customers
(`getTopCustomers`). -/
theorem date_bounds_inclusive (db : Database) (s e : Timestamp) (st ch : Option (List Int)) :
    (∀ row, getOverview db s e st ch = .ok row →
      ∃ considered, row = overviewRow considered ∧
        ∀ x, x ∈ considered ↔ x ∈ db.sales ∧ InRangeAndFilters s e st ch x) ∧
    (∀ rows, getSalesByDate db s e st ch = .ok rows →
      ∃ considered, rows = salesByDateRows considered ∧
        ∀ x, x ∈ considered ↔ x ∈ db.sales ∧ InRangeAndFilters s e st ch x) ∧
    (∀ rows, getSalesByWeekday db s e st ch = .ok rows →
      ∃ considered, rows = salesByWeekdayRows considered ∧
        ∀ x, x ∈ considered ↔ x ∈ db.sales ∧ InRangeAndFilters s e st ch x) ∧
    (∀ rows, getSalesByHour db s e st ch = .ok rows →
      ∃ considered, rows = salesByHourRows considered ∧
        ∀ x, x ∈ considered ↔
          (x ∈ db.sales ∧ isCompleted x = true) ∧ InRangeAndFilters s e st ch x) ∧
    (∀ rows, getSalesByChannel db s e st = .ok rows →
      ∃ considered, rows = salesByChannelRows considered ∧
        ∀ r, r ∈ considered ↔ r ∈ channelJoin db ∧ InRangeAndFilters s e st none r.1) ∧
    (∀ k rows, getTopProducts db s e st ch (some k) = .ok rows →
      ∃ considered, rows = (topProductRows considered).take k.toNat ∧
        ∀ r, r ∈ considered ↔
          (r ∈ productJoin db ∧ isCompleted r.2.2 = true) ∧
            InRangeAndFilters s e st ch r.2.2) ∧
    (∀ k rows, getTopCustomers db s e (some k) = .ok rows →
      ∃ considered, rows = (topCustomerRows considered).take k.toNat ∧
        ∀ r, r ∈ considered ↔ r ∈ customerJoin db ∧ InRangeAndFilters s e none none r.2) := by
  refine ⟨?_, ?_, ?_, ?_, ?_, ?_, ?_⟩
  · intro row h
    rw [getOverview_eq] at h
    split at h
    · cases h
    · injection h with h
      exact ⟨_, h.symm, fun x => by rw [List.mem_filter, inScope_iff]⟩
  · intro rows h
    rw [getSalesByDate_eq] at h
    split at h
    · cases h
    · injection h with h
      exact ⟨_, h.symm, fun x => by rw [List.mem_filter, inScope_iff]⟩
  · intro rows h
    rw [getSalesByWeekday_eq] at h
    split at h
    · cases h
    · injection h with h
      exact ⟨_, h.symm, fun x => by rw [List.mem_filter, inScope_iff]⟩
  · intro rows h
    rw [getSalesByHour_eq] at h
    split at h
    · cases h
    · injection h with h
      exact ⟨_, h.symm, fun x => by rw [List.mem_filter, List.mem_filter, inScope_iff]⟩
  · intro rows h
    rw [getSalesByChannel_eq] at h
    injection h with h
    refine ⟨_, h.symm, fun r => ?_⟩
    rw [List.mem_filter]
    exact and_congr Iff.rfl (inScope_iff s e st none r.1)
  · intro k rows h
    rw [getTopProducts_eq] at h
    split at h
    · cases h
    · split at h
      · cases h
      · injection h with h
        exact ⟨_, h.symm, fun r => by rw [List.mem_filter, List.mem_filter, inScope_iff]⟩
  · intro k rows h
    obtain ⟨-, h⟩ := getTopCustomers_ok db s e k rows h
    refine ⟨_, h, fun r => ?_⟩
    rw [List.mem_filter]
    exact and_congr Iff.rfl (inScope_iff s e none none r.2)

/-- C20 on the overview example, whose first sale is not at a bound and whose last sale
lies exactly at the end bound 2024-01-02 00:00: all three sales are counted, and with
the start bound moved to the instant of the second sale that sale is still counted. -/
theorem date_bounds_inclusive_witness :
    getOverview overviewExample 1704067200000000 1704153600000000 none none
        = .ok ⟨3, 2, 1, some 40, some 80, some 0⟩ ∧
      getOverview overviewExample 1704110400000000 1704153600000000 none none
        = .ok ⟨2, 1, 1, some 30, some 30, some 0⟩ ∧
      ∃ considered, (⟨3, 2, 1, some 40, some 80, some 0⟩ : OverviewRow)
          = overviewRow considered ∧
        ∀ x, x ∈ considered ↔ x ∈ overviewExample.sales ∧
          InRangeAndFilters 1704067200000000 1704153600000000 none none x :=
  ⟨by decide!, by decide!,
    (date_bounds_inclusive overviewExample 1704067200000000 1704153600000000 none none).1
      ⟨3, 2, 1, some 40, some 80, some 0⟩ (by decide!)⟩

/-! ## Sales that are not COMPLETED -/

/-- Grouping all rows and keeping the groups with a row satisfying `p` gives the same
report rows as grouping only the rows satisfying `p`, when a report row depends on
its group only through the rows satisfying `p`. -/
theorem groupBy_filter_perm {α κ β : Type} [DecidableEq κ] (key : α → κ) (p : α → Bool)
    (mk : κ × List α → β) (hmk : ∀ k l, mk (k, l.filter p) = mk (k, l)) (rows : List α) :
    (((groupBy key rows).filter fun g => !(g.2.filter p).isEmpty).map mk).Perm
      ((groupBy key (rows.filter p)).map mk) := by
  have hgroup : ∀ k, (rows.filter fun r => decide (key r = k)).filter p
      = (rows.filter p).filter fun r => decide (key r = k) := by
    intro k
    rw [List.filter_filter, List.filter_filter]
    apply List.filter_congr
    intro r _
    exact Bool.and_comm _ _
  have hL : ((groupBy key rows).filter fun g => !(g.2.filter p).isEmpty).map mk
      = (((rows.map key).dedup).filter fun k =>
          !((rows.filter p).filter fun r => decide (key r = k)).isEmpty).map
          fun k => mk (k, (rows.filter p).filter fun r => decide (key r = k)) := by
    unfold groupBy
    rw [List.filter_map, List.map_map]
    have h1 : ((fun g : κ × List α => !(g.2.filter p).isEmpty) ∘
        fun k => (k, rows.filter fun r => decide (key r = k)))
        = fun k => !((rows.filter p).filter fun r => decide (key r = k)).isEmpty := by
      funext k
      simp only [Function.comp_apply, hgroup]
    rw [h1]
    apply List.map_congr_left
    intro k _
    simp only [Function.comp_apply]
    rw [← hmk, hgroup]
  have hR : (groupBy key (rows.filter p)).map mk
      = (((rows.filter p).map key).dedup).map
          fun k => mk (k, (rows.filter p).filter fun r => decide (key r = k)) := by
    unfold groupBy
    rw [List.map_map]
    rfl
  rw [hL, hR]
  apply List.Perm.map
  rw [List.perm_ext_iff_of_nodup ((List.nodup_dedup _).filter _) (List.nodup_dedup _)]
  intro k
  simp only [List.mem_filter, List.mem_dedup, List.mem_map, Bool.not_eq_true',
    List.isEmpty_eq_false, ne_eq, List.filter_eq_nil_iff, decide_eq_true_eq, not_forall,
    not_not]
  constructor
  · rintro ⟨-, r, hr, hk⟩
    exact ⟨r, hr, hk⟩
  · rintro ⟨r, hr, hk⟩
    exact ⟨⟨r, hr.1, hk⟩, r, hr, hk⟩

theorem filter_filter_self {α : Type} (p : α → Bool) (l : List α) :
    (l.filter p).filter p = l.filter p := by
  rw [List.filter_filter]
  apply List.filter_congr
  intro x _
  exact Bool.and_self _

theorem filter_comm' {α : Type} (p q : α → Bool) (l : List α) :
    (l.filter p).filter q = (l.filter q).filter p := by
  rw [List.filter_filter, List.filter_filter]
  apply List.filter_congr
  intro x _
  exact Bool.and_comm _ _

theorem decide_pos_length {α : Type} (l : List α) : decide (0 < l.length) = !l.isEmpty := by
  cases l <;> simp

theorem productJoin_filter_completed (db : Database) :
    ((productJoin db).filter fun r => isCompleted r.2.2)
      = db.product_sales.flatMap fun ps =>
          (db.products.filter fun p => decide (p.id = ps.product_id)).flatMap fun p =>
            ((db.sales.filter isCompleted).filter fun s => decide (s.id = ps.sale_id)).map
              fun s => (ps, p, s) := by
  unfold productJoin
  rw [List.filter_flatMap]
  congr 1
  funext ps
  rw [List.filter_flatMap]
  congr 1
  funext p
  rw [List.filter_map, filter_comm']
  rfl

theorem customerJoin_eq_completed (db : Database) :
    customerJoin db
      = db.customers.flatMap fun c =>
          ((db.sales.filter isCompleted).filter fun s =>
            decide (s.customer_id = some c.id)).map fun s => (c, s) := by
  unfold customerJoin
  rw [List.filter_flatMap]
  congr 1
  funext c
  rw [List.filter_map, filter_comm']
  rfl

theorem channelJoin_filter_completed (db : Database) :
    ((channelJoin db).filter fun r => isCompleted r.1)
      = (db.sales.filter isCompleted).flatMap fun s =>
          (db.channels.filter fun c => decide (c.id = s.channel_id)).map fun c => (s, c) := by
  unfold channelJoin
  induction db.sales with
  | nil => rfl
  | cons x xs ih =>
    rw [List.flatMap_cons, List.filter_append, ih]
    by_cases hx : isCompleted x = true
    · rw [List.filter_cons_of_pos hx, List.flatMap_cons]
      congr 1
      rw [List.filter_eq_self]
      intro r hr
      obtain ⟨c, -, rfl⟩ := List.mem_map.1 hr
      exact hx
    · rw [List.filter_cons_of_neg hx]
      have : (((db.channels.filter fun c => decide (c.id = x.channel_id)).map
          fun c => (x, c)).filter fun r => isCompleted r.1) = [] := by
        rw [List.filter_eq_nil_iff]
        intro r hr
        obtain ⟨c, -, rfl⟩ := List.mem_map.1 hr
        exact hx
      rw [this, List.nil_append]

theorem salesByDateRows_completed_perm (sales : List Sale) :
    ((salesByDateRows sales).filter fun r => decide (0 < r.total_sales)).Perm
      (salesByDateRows (sales.filter isCompleted)) := by
  unfold salesByDateRows
  refine ((List.perm_insertionSort _ _).filter _).trans ?_
  refine List.Perm.trans ?_ (List.perm_insertionSort _ _).symm
  rw [List.filter_map]
  have hq : ((fun r : SalesByDateRow => decide (0 < r.total_sales)) ∘
      fun g : Int × List Sale =>
        ({ date := g.1
           total_sales := (g.2.filter isCompleted).length
           revenue := sqlRound (sqlSum ((g.2.filter isCompleted).map (·.total_amount))) 2 } :
          SalesByDateRow))
      = fun g => !(g.2.filter isCompleted).isEmpty := by
    funext g
    simp only [Function.comp_apply, decide_pos_length]
  rw [hq]
  exact groupBy_filter_perm _ isCompleted _
    (fun k l => by simp only [filter_filter_self]) sales

theorem salesByWeekdayRows_completed_perm (sales : List Sale) :
    ((salesByWeekdayRows sales).filter fun r => decide (0 < r.total_sales)).Perm
      (salesByWeekdayRows (sales.filter isCompleted)) := by
  unfold salesByWeekdayRows
  refine ((List.perm_insertionSort _ _).filter _).trans ?_
  refine List.Perm.trans ?_ (List.perm_insertionSort _ _).symm
  rw [List.filter_map]
  have hq : ((fun r : SalesByWeekdayRow => decide (0 < r.total_sales)) ∘
      fun g : (Int × Option String) × List Sale =>
        ({ weekday := g.1.1
           weekday_name := g.1.2
           total_sales := (g.2.filter isCompleted).length
           revenue := sqlRound (sqlSum ((g.2.filter isCompleted).map (·.total_amount))) 2 } :
          SalesByWeekdayRow))
      = fun g => !(g.2.filter isCompleted).isEmpty := by
    funext g
    simp only [Function.comp_apply, decide_pos_length]
  rw [hq]
  exact groupBy_filter_perm _ isCompleted _
    (fun k l => by simp only [filter_filter_self]) sales

theorem salesByChannelRow_filter (k : Channel) (l : List (Sale × Channel)) :
    salesByChannelRow (k, l.filter fun r => isCompleted r.1) = salesByChannelRow (k, l) := by
  have h : ((l.filter fun r => isCompleted r.1).map (·.1)).filter isCompleted
      = (l.map (·.1)).filter isCompleted := by
    rw [List.filter_map, List.filter_map]
    congr 1
    exact filter_filter_self (fun r : Sale × Channel => isCompleted r.1) l
  simp only [salesByChannelRow, deliveryMinutes, h]

theorem salesByChannelRows_completed_perm (joined : List (Sale × Channel)) :
    ((salesByChannelRows joined).filter fun r => decide (0 < r.total_sales)).Perm
      (salesByChannelRows (joined.filter fun r => isCompleted r.1)) := by
  unfold salesByChannelRows
  refine ((List.perm_insertionSort _ _).filter _).trans ?_
  refine List.Perm.trans ?_ (List.perm_insertionSort _ _).symm
  rw [List.filter_map]
  have hq : ((fun r : SalesByChannelRow => decide (0 < r.total_sales)) ∘ salesByChannelRow)
      = fun g => !(g.2.filter fun r => isCompleted r.1).isEmpty := by
    funext g
    simp only [Function.comp_apply, salesByChannelRow, decide_pos_length, List.filter_map,
      List.isEmpty_eq_true, List.map_eq_nil_iff, Function.comp_def]
    cases (g.2.filter fun r => isCompleted r.1) <;> rfl
  rw [hq]
  exact groupBy_filter_perm _ (fun r : Sale × Channel => isCompleted r.1) _
    salesByChannelRow_filter joined

theorem salesByDateRows_zero (sales : List Sale) (r : SalesByDateRow)
    (hr : r ∈ salesByDateRows sales) (h0 : r.total_sales = 0) : r.revenue = none := by
  unfold salesByDateRows at hr
  obtain ⟨g, -, rfl⟩ := List.mem_map.1 ((List.perm_insertionSort _ _).subset hr)
  simp only [List.length_eq_zero] at h0
  simp [h0, sqlSum, sqlRound]

theorem salesByWeekdayRows_zero (sales : List Sale) (r : SalesByWeekdayRow)
    (hr : r ∈ salesByWeekdayRows sales) (h0 : r.total_sales = 0) : r.revenue = none := by
  unfold salesByWeekdayRows at hr
  obtain ⟨g, -, rfl⟩ := List.mem_map.1 ((List.perm_insertionSort _ _).subset hr)
  simp only [List.length_eq_zero] at h0
  simp [h0, sqlSum, sqlRound]

theorem salesByChannelRows_zero (joined : List (Sale × Channel)) (r : SalesByChannelRow)
    (hr : r ∈ salesByChannelRows joined) (h0 : r.total_sales = 0) :
    r.revenue = none ∧ r.avg_ticket = none := by
  unfold salesByChannelRows at hr
  obtain ⟨g, -, rfl⟩ := List.mem_map.1 ((List.perm_insertionSort _ _).subset hr)
  simp only [salesByChannelRow, List.length_eq_zero] at h0
  simp [salesByChannelRow, h0, sqlSum, sqlAvg, sqlRound]

/-- C15: let two datasets differ at most in sales that are not COMPLETED (such sales
added, removed or changed).  Then `getSalesByHour`, `getTopProducts` and
`getTopCustomers` give the same result on both, and `getSalesByDate`,
`getSalesByWeekday` and `getSalesByChannel` have the same rows with a COMPLETED sale on
both, while a row without COMPLETED sale has count 0 and `NULL` revenue and ticket: the
counts and monetary values of the rows come from the COMPLETED sales of the group
only. -/
theorem grouped_reports_ignore_non_completed (db db' : Database) (h : SameCompleted db db')
    (s e : Timestamp) (st ch : Option (List Int)) :
    getSalesByHour db s e st ch = getSalesByHour db' s e st ch ∧
    (∀ k, getTopProducts db s e st ch k = getTopProducts db' s e st ch k) ∧
    (∀ k, getTopCustomers db s e k = getTopCustomers db' s e k) ∧
    (∀ rows rows', getSalesByDate db s e st ch = .ok rows →
      getSalesByDate db' s e st ch = .ok rows' →
      (rows.filter fun r => decide (0 < r.total_sales)).Perm
          (rows'.filter fun r => decide (0 < r.total_sales)) ∧
        ∀ r ∈ rows ++ rows', r.total_sales = 0 → r.revenue = none) ∧
    (∀ rows rows', getSalesByWeekday db s e st ch = .ok rows →
      getSalesByWeekday db' s e st ch = .ok rows' →
      (rows.filter fun r => decide (0 < r.total_sales)).Perm
          (rows'.filter fun r => decide (0 < r.total_sales)) ∧
        ∀ r ∈ rows ++ rows', r.total_sales = 0 → r.revenue = none) ∧
    (∀ rows rows', getSalesByChannel db s e st = .ok rows →
      getSalesByChannel db' s e st = .ok rows' →
      (rows.filter fun r => decide (0 < r.total_sales)).Perm
          (rows'.filter fun r => decide (0 < r.total_sales)) ∧
        ∀ r ∈ rows ++ rows', r.total_sales = 0 → r.revenue = none ∧ r.avg_ticket = none) := by
  obtain ⟨hs, hps, hp, hc, hch⟩ := h
  have hscope : ∀ a b : Option (List Int),
      (db.sales.filter fun r => inScope s e a b r).filter isCompleted
        = (db'.sales.filter fun r => inScope s e a b r).filter isCompleted := by
    intro a b
    rw [filter_comm', filter_comm' _ isCompleted, hs]
  refine ⟨?_, ?_, ?_, ?_, ?_, ?_⟩
  · unfold getSalesByHour
    rw [hs]
  · intro k
    unfold getTopProducts
    rw [productJoin_filter_completed, productJoin_filter_completed, hs, hps, hp]
  · intro k
    unfold getTopCustomers
    rw [customerJoin_eq_completed, customerJoin_eq_completed, hs, hc]
  · intro rows rows' h1 h2
    rw [getSalesByDate_eq] at h1 h2
    split at h1
    · cases h1
    rename_i hcomb
    rw [if_neg hcomb] at h2
    injection h1 with h1
    injection h2 with h2
    subst h1 h2
    refine ⟨?_, ?_⟩
    · refine (salesByDateRows_completed_perm _).trans ?_
      rw [hscope]
      exact (salesByDateRows_completed_perm _).symm
    · intro r hr h0
      rcases List.mem_append.1 hr with hr | hr
      · exact salesByDateRows_zero _ r hr h0
      · exact salesByDateRows_zero _ r hr h0
  · intro rows rows' h1 h2
    rw [getSalesByWeekday_eq] at h1 h2
    split at h1
    · cases h1
    rename_i hcomb
    rw [if_neg hcomb] at h2
    injection h1 with h1
    injection h2 with h2
    subst h1 h2
    refine ⟨?_, ?_⟩
    · refine (salesByWeekdayRows_completed_perm _).trans ?_
      rw [hscope]
      exact (salesByWeekdayRows_completed_perm _).symm
    · intro r hr h0
      rcases List.mem_append.1 hr with hr | hr
      · exact salesByWeekdayRows_zero _ r hr h0
      · exact salesByWeekdayRows_zero _ r hr h0
  · intro rows rows' h1 h2
    rw [getSalesByChannel_eq] at h1 h2
    injection h1 with h1
    injection h2 with h2
    subst h1 h2
    have hjoin : ((channelJoin db).filter fun r => inScope s e (activeIds st) none r.1).filter
        (fun r => isCompleted r.1)
        = ((channelJoin db').filter fun r => inScope s e (activeIds st) none r.1).filter
            (fun r => isCompleted r.1) := by
      rw [filter_comm', filter_comm' _ (fun r : Sale × Channel => isCompleted r.1),
        channelJoin_filter_completed, channelJoin_filter_completed, hs, hch]
    refine ⟨?_, ?_⟩
    · refine (salesByChannelRows_completed_perm _).trans ?_
      rw [hjoin]
      exact (salesByChannelRows_completed_perm _).symm
    · intro r hr h0
      rcases List.mem_append.1 hr with hr | hr
      · exact salesByChannelRows_zero _ r hr h0
      · exact salesByChannelRows_zero _ r hr h0

/-- C15 on the channel example and the same dataset without its cancelled sale: the
channel report is the same on both. -/
theorem grouped_reports_ignore_non_completed_witness :
    SameCompleted channelsExample channelsExampleCompleted ∧
      getSalesByChannel channelsExample 1704067200000000 1704153600000000 none
        = .ok [⟨"iFood", "D", 2, some 150, some 75, some (45 / 2)⟩,
               ⟨"Balcao", "P", 1, some 30, some 30, none⟩] ∧
      getSalesByChannel channelsExampleCompleted 1704067200000000 1704153600000000 none
        = .ok [⟨"iFood", "D", 2, some 150, some 75, some (45 / 2)⟩,
               ⟨"Balcao", "P", 1, some 30, some 30, none⟩] ∧
      getTopCustomers channelsExample 1704067200000000 1704153600000000 (some 5)
        = getTopCustomers channelsExampleCompleted 1704067200000000 1704153600000000 (some 5) :=
  have h : SameCompleted channelsExample channelsExampleCompleted :=
    ⟨by decide!, rfl, rfl, rfl, rfl⟩
  ⟨h, by decide!, by decide!,
    (grouped_reports_ignore_non_completed channelsExample channelsExampleCompleted h
      1704067200000000 1704153600000000 none none).2.2.1 (some 5)⟩

/-! ## The handlers -/

theorem respond_liftQuery {α : Type} (op : Except DbError α) :
    HandlesPlain op (respond (liftQuery op)) := by
  constructor
  · intro e h
    rw [h]
    rfl
  · intro data h
    rw [h]
    rfl

theorem handlesFiltered_of_eq {α : Type} (env : ServerEnv) (query : RequestQuery)
    (op : Filters → Except DbError α) (outcome : Except Thrown α)
    (h : outcome = (do
      let f ← extractFilters env.now query
      let filters ← resolveFilters env f
      liftQuery (op filters))) :
    HandlesFiltered env query op (respond outcome) := by
  subst h
  refine ⟨?_, ?_, ?_, ?_⟩
  · intro t h1
    simp [h1, bind, Except.bind, respond]
  · intro f t h1 h2
    simp [h1, h2, bind, Except.bind, respond]
  · intro f filters e h1 h2 h3
    simp [h1, h2, h3, bind, Except.bind, respond, liftQuery]
  · intro f filters data h1 h2 h3
    simp [h1, h2, h3, bind, Except.bind, respond, liftQuery]

/-- C12: each handler of `/api/*` answers 500 with the body
`{ error: 'Internal server error' }`, carrying no data, when `extractFilters` or the
operation of the query layer throws, and otherwise 200 with the result of the operation:
the overview row for `/api/overview`, the array of rows for every other report.  For
`/api/sales-by-channel` and `/api/top-customers`, which pass on only part of the
filters, the same holds with the parameters they pass on. -/
theorem handlers_answer_200_or_500 (env : ServerEnv) (db : Database) (query : RequestQuery) :
    HandlesFiltered env query
        (fun f => getOverview db f.startDate f.endDate f.storeIds f.channelIds)
        (apiOverview env db query) ∧
    HandlesFiltered env query
        (fun f => getSalesByDate db f.startDate f.endDate f.storeIds f.channelIds)
        (apiSalesByDate env db query) ∧
    HandlesFiltered env query
        (fun f => getTopProducts db f.startDate f.endDate f.storeIds f.channelIds
          (some (parseIntOr (queryText query.limit) 10)))
        (apiTopProducts env db query) ∧
    HandlesFiltered env query
        (fun f => getSalesByHour db f.startDate f.endDate f.storeIds f.channelIds)
        (apiSalesByHour env db query) ∧
    HandlesFiltered env query
        (fun f => getSalesByWeekday db f.startDate f.endDate f.storeIds f.channelIds)
        (apiSalesByWeekday env db query) ∧
    ((∀ t, extractFilters env.now query = .error t →
        apiSalesByChannel env db query = .failure 500 "Internal server error") ∧
      (∀ f s e st, extractFilters env.now query = .ok f → resolveDate env f.startDate = .ok s →
        resolveDate env f.endDate = .ok e → resolveIds f.storeIds = .ok st →
        HandlesPlain (getSalesByChannel db s e st) (apiSalesByChannel env db query))) ∧
    ((∀ t, extractFilters env.now query = .error t →
        apiTopCustomers env db query = .failure 500 "Internal server error") ∧
      (∀ f s e, extractFilters env.now query = .ok f → resolveDate env f.startDate = .ok s →
        resolveDate env f.endDate = .ok e →
        HandlesPlain (getTopCustomers db s e (some (parseIntOr (queryText query.limit) 20)))
          (apiTopCustomers env db query))) ∧
    HandlesPlain
        (getInactiveCustomers db env.dbNow (some (parseIntOr (queryText query.days) 30)))
        (apiInactiveCustomers env db query) ∧
    HandlesPlain (getStores db) (apiStores db) ∧
    HandlesPlain (getChannels db) (apiChannels db) := by
  refine ⟨handlesFiltered_of_eq env query _ _ rfl, handlesFiltered_of_eq env query _ _ rfl,
    handlesFiltered_of_eq env query _ _ rfl, handlesFiltered_of_eq env query _ _ rfl,
    handlesFiltered_of_eq env query _ _ rfl, ⟨?_, ?_⟩, ⟨?_, ?_⟩, respond_liftQuery _,
    respond_liftQuery _, respond_liftQuery _⟩
  · intro t h1
    simp [apiSalesByChannel, salesByChannelOutcome, h1, bind, Except.bind, respond]
  · intro f s e st h1 h2 h3 h4
    have : salesByChannelOutcome env db query = liftQuery (getSalesByChannel db s e st) := by
      simp [salesByChannelOutcome, h1, h2, h3, h4, bind, Except.bind]
    unfold apiSalesByChannel
    rw [this]
    exact respond_liftQuery _
  · intro t h1
    simp [apiTopCustomers, topCustomersOutcome, h1, bind, Except.bind, respond]
  · intro f s e h1 h2 h3
    have : topCustomersOutcome env db query
        = liftQuery (getTopCustomers db s e (some (parseIntOr (queryText query.limit) 20))) := by
      simp [topCustomersOutcome, h1, h2, h3, bind, Except.bind]
    unfold apiTopCustomers
    rw [this]
    exact respond_liftQuery _

/-- C12 on the overview example: a request whose `storeIds` arrives as an array makes
`extractFilters` throw, a request with a channel list and no store list makes the query
throw, and both are answered with 500; the request with the two dates alone is answered
with 200 and the overview row. -/
theorem handlers_answer_200_or_500_witness :
    extractFilters exampleEnv.now { storeIds := some (.array ["1", "2"]) }
        = .error .typeError ∧
      apiOverview exampleEnv overviewExample { storeIds := some (.array ["1", "2"]) }
        = .failure 500 "Internal server error" ∧
      apiOverview exampleEnv overviewExample
          { startDate := some (.text "2024-01-01"), endDate := some (.text "2024-01-02"),
            channelIds := some (.text "1") }
        = .failure 500 "Internal server error" ∧
      apiOverview exampleEnv overviewExample
          { startDate := some (.text "2024-01-01"), endDate := some (.text "2024-01-02") }
        = .json 200 ⟨3, 2, 1, some 40, some 80, some 0⟩ :=
  ⟨by decide,
    (handlers_answer_200_or_500 exampleEnv overviewExample
      { storeIds := some (.array ["1", "2"]) }).1.1 .typeError (by decide),
    by decide!, by decide!⟩

theorem extractIds_text (s : String) :
    ∃ ids, extractIds (some (.text s)) = .ok ids := by
  by_cases h : s = ""
  · exact ⟨none, by simp [extractIds, h]⟩
  · exact ⟨some ((splitComma s.toList).map jsNumber), by simp [extractIds, h]⟩

theorem extractIds_ok_of_text (v : Option QueryValue) (h : ∀ w, v = some w → ∃ s, w = .text s) :
    ∃ ids, extractIds v = .ok ids := by
  cases v with
  | none => exact ⟨none, rfl⟩
  | some w =>
    obtain ⟨s, rfl⟩ := h w rfl
    exact extractIds_text s

/-! ## Round trip of id lists through the query string -/

theorem digitChar_isDigit (c : Char) (h : IsDigitChar c) : c.isDigit = true := by
  obtain ⟨d, hd, rfl⟩ := h
  interval_cases d <;> decide

theorem digitChar_not_space (c : Char) (h : IsDigitChar c) : isJsWhiteSpace c = false := by
  obtain ⟨d, hd, rfl⟩ := h
  interval_cases d <;> decide

theorem digitChar_not_special (c : Char) (h : IsDigitChar c) :
    c ≠ ',' ∧ c ≠ '-' ∧ c ≠ '+' ∧ c ≠ 'x' ∧ c ≠ 'X' ∧ c ≠ 'o' ∧ c ≠ 'O' ∧ c ≠ 'b' ∧
      c ≠ 'B' := by
  obtain ⟨d, hd, rfl⟩ := h
  interval_cases d <;> decide

theorem digitChar_value (d : Nat) (hd : d < 10) : (digitChar d).toNat - '0'.toNat = d := by
  interval_cases d <;> decide

theorem digitsValue_append (l : List Char) (c : Char) :
    digitsValue (l ++ [c]) = 10 * digitsValue l + (c.toNat - '0'.toNat) := by
  simp [digitsValue, List.foldl_append]

theorem decimalDigits_spec (fuel : Nat) :
    ∀ n, n < fuel → decimalDigits fuel n ≠ [] ∧
      (∀ c ∈ decimalDigits fuel n, IsDigitChar c) ∧ digitsValue (decimalDigits fuel n) = n := by
  induction fuel with
  | zero => intro n h; omega
  | succ fuel ih =>
    intro n hn
    unfold decimalDigits
    by_cases h10 : n < 10
    · rw [if_pos h10]
      refine ⟨by simp, ?_, ?_⟩
      · intro c hc
        rw [List.mem_singleton] at hc
        exact ⟨n, h10, hc⟩
      · have := digitsValue_append [] (digitChar n)
        rw [List.nil_append] at this
        rw [this, digitChar_value n h10]
        simp [digitsValue]
    · rw [if_neg h10]
      obtain ⟨-, h2, h3⟩ := ih (n / 10) (by omega)
      refine ⟨by simp, ?_, ?_⟩
      · intro c hc
        rcases List.mem_append.1 hc with hc | hc
        · exact h2 c hc
        · rw [List.mem_singleton] at hc
          exact ⟨n % 10, Nat.mod_lt _ (by decide), hc⟩
      · rw [digitsValue_append, h3, digitChar_value _ (Nat.mod_lt _ (by decide))]
        omega

theorem trimChars_eq_self (l : List Char)
    (h1 : ∀ a, l.head? = some a → isJsWhiteSpace a = false)
    (h2 : ∀ a, l.getLast? = some a → isJsWhiteSpace a = false) : trimChars l = l := by
  have hdrop : ∀ m : List Char, (∀ a, m.head? = some a → isJsWhiteSpace a = false) →
      m.dropWhile isJsWhiteSpace = m := by
    intro m hm
    cases m with
    | nil => rfl
    | cons a t => simp [List.dropWhile_cons, hm a rfl]
  unfold trimChars
  rw [hdrop l h1, hdrop l.reverse (by rw [List.head?_reverse]; exact h2), List.reverse_reverse]

theorem jsNumber_digits (ds : List Char) (hne : ds ≠ []) (hd : ∀ c ∈ ds, IsDigitChar c) :
    jsNumber ds = .int (digitsValue ds) := by
  have htrim : trimChars ds = ds :=
    trimChars_eq_self ds
      (fun a ha => digitChar_not_space a (hd a (List.mem_of_mem_head? ha)))
      (fun a ha => digitChar_not_space a (hd a (List.mem_of_getLast?_eq_some ha)))
  have htake : ∀ c : Char, ¬ IsDigitChar c → ds.take 2 ≠ ['0', c] := by
    intro c hc h
    have : c ∈ ds.take 2 := by rw [h]; simp
    exact hc (hd c (List.mem_of_mem_take this))
  have hnot : ∀ c : Char, (c = 'x' ∨ c = 'X' ∨ c = 'o' ∨ c = 'O' ∨ c = 'b' ∨ c = 'B'
      ∨ c = '-' ∨ c = '+') → ¬ IsDigitChar c := by
    intro c hc h
    have := digitChar_not_special c h
    rcases hc with rfl | rfl | rfl | rfl | rfl | rfl | rfl | rfl <;> simp at this
  have hhead : ∀ c : Char, ¬ IsDigitChar c → ds.head? ≠ some c :=
    fun c hc h => hc (hd c (List.mem_of_mem_head? h))
  have htw : ds.takeWhile Char.isDigit = ds :=
    List.takeWhile_eq_self_iff.2 fun c hc => digitChar_isDigit c (hd c hc)
  have hdw : ds.dropWhile Char.isDigit = [] :=
    List.dropWhile_eq_nil_iff.2 fun c hc => digitChar_isDigit c (hd c hc)
  unfold jsNumber
  simp only [htrim, hne, if_false,
    htake 'x' (hnot 'x' (by simp)), htake 'X' (hnot 'X' (by simp)),
    htake 'o' (hnot 'o' (by simp)), htake 'O' (hnot 'O' (by simp)),
    htake 'b' (hnot 'b' (by simp)), htake 'B' (hnot 'B' (by simp)),
    hhead '-' (hnot '-' (by simp)), hhead '+' (hnot '+' (by simp)), or_self]
  simp [decimalLiteral, htw, hdw, hne, exponentPart, scaledInteger]

theorem jsNumber_minus_digits (ds : List Char) (hne : ds ≠ [])
    (hd : ∀ c ∈ ds, IsDigitChar c) :
    jsNumber ('-' :: ds) = .int (-(digitsValue ds : Int)) := by
  have htrim : trimChars ('-' :: ds) = '-' :: ds := by
    apply trimChars_eq_self
    · intro a ha
      simp only [List.head?_cons, Option.some.injEq] at ha
      subst ha
      decide
    · intro a ha
      obtain ⟨b, t, hbt⟩ := List.exists_cons_of_ne_nil hne
      rw [hbt, List.getLast?_cons_cons, ← hbt] at ha
      exact digitChar_not_space a (hd a (List.mem_of_getLast?_eq_some ha))
  have htw : ds.takeWhile Char.isDigit = ds :=
    List.takeWhile_eq_self_iff.2 fun c hc => digitChar_isDigit c (hd c hc)
  have hdw : ds.dropWhile Char.isDigit = [] :=
    List.dropWhile_eq_nil_iff.2 fun c hc => digitChar_isDigit c (hd c hc)
  unfold jsNumber
  simp [htrim, decimalLiteral, htw, hdw, hne, exponentPart, scaledInteger]

theorem jsNumber_numberChars (n : Int) : jsNumber (numberChars n) = .int n := by
  unfold numberChars
  by_cases hn : n < 0
  · rw [if_pos hn]
    obtain ⟨h1, h2, h3⟩ := decimalDigits_spec (n.natAbs + 1) n.natAbs (by omega)
    rw [jsNumber_minus_digits _ h1 h2, h3]
    congr 1
    omega
  · rw [if_neg hn]
    obtain ⟨h1, h2, h3⟩ := decimalDigits_spec (n.toNat + 1) n.toNat (by omega)
    rw [jsNumber_digits _ h1 h2, h3]
    congr 1
    omega

theorem numberChars_ne_nil (n : Int) : numberChars n ≠ [] := by
  unfold numberChars
  split
  · simp
  · exact (decimalDigits_spec (n.toNat + 1) n.toNat (by omega)).1

theorem comma_not_mem_numberChars (n : Int) : ',' ∉ numberChars n := by
  unfold numberChars
  split
  · intro h
    rcases List.mem_cons.1 h with h | h
    · exact absurd h (by decide)
    · exact (digitChar_not_special _
        ((decimalDigits_spec (n.natAbs + 1) n.natAbs (by omega)).2.1 _ h)).1 rfl
  · intro h
    exact (digitChar_not_special _
      ((decimalDigits_spec (n.toNat + 1) n.toNat (by omega)).2.1 _ h)).1 rfl

theorem splitComma_of_no_comma (p : List Char) (h : ',' ∉ p) : splitComma p = [p] := by
  induction p with
  | nil => rfl
  | cons c t ih =>
    have hc : c ≠ ',' := fun hc => h (hc ▸ List.mem_cons_self _ _)
    have ht : ',' ∉ t := fun ht => h (List.mem_cons_of_mem _ ht)
    simp [splitComma, hc, ih ht]

theorem splitComma_append_comma (p rest : List Char) (h : ',' ∉ p) :
    splitComma (p ++ ',' :: rest) = p :: splitComma rest := by
  induction p with
  | nil => simp [splitComma]
  | cons c t ih =>
    have hc : c ≠ ',' := fun hc => h (hc ▸ List.mem_cons_self _ _)
    have ht : ',' ∉ t := fun ht => h (List.mem_cons_of_mem _ ht)
    simp [splitComma, hc, ih ht]

theorem splitComma_joinComma (ps : List (List Char)) (hne : ps ≠ [])
    (h : ∀ p ∈ ps, ',' ∉ p) : splitComma (joinComma ps) = ps := by
  induction ps with
  | nil => exact absurd rfl hne
  | cons p rest ih =>
    cases rest with
    | nil => exact splitComma_of_no_comma p (h p (List.mem_cons_self _ _))
    | cons q rest =>
      rw [joinComma, splitComma_append_comma _ _ (h p (List.mem_cons_self _ _)),
        ih (by simp) (fun r hr => h r (List.mem_cons_of_mem _ hr))]

theorem joinComma_ne_nil (ps : List (List Char)) (hne : ps ≠ []) (h : ∀ p ∈ ps, p ≠ []) :
    joinComma ps ≠ [] := by
  cases ps with
  | nil => exact absurd rfl hne
  | cons p rest =>
    cases rest with
    | nil => exact h p (List.mem_cons_self _ _)
    | cons q rest =>
      rw [joinComma]
      simp

theorem integersOf_map_int (l : List Int) : integersOf (l.map .int) = some l := by
  induction l with
  | nil => rfl
  | cons a l ih => simp [integersOf, ih]

/-- What `extractFilters` reads from the text `buildQueryString` emits for an id list. -/
theorem extractIds_emitted (l : List Int) :
    extractIds ((emitValue (.numbers l)).map .text)
      = .ok (if l = [] then none else some (l.map .int)) := by
  by_cases hl : l = []
  · subst hl
    simp [emitValue, joinComma, extractIds]
  · have hne : l.map numberChars ≠ [] := by simpa using hl
    have hjoin : joinComma (l.map numberChars) ≠ [] :=
      joinComma_ne_nil _ hne (by
        intro p hp
        obtain ⟨n, -, rfl⟩ := List.mem_map.1 hp
        exact numberChars_ne_nil n)
    have hstr : String.mk (joinComma (l.map numberChars)) ≠ "" := by
      intro h
      exact hjoin (congrArg String.data h)
    have hsplit := splitComma_joinComma (l.map numberChars) hne (by
      intro p hp
      obtain ⟨n, -, rfl⟩ := List.mem_map.1 hp
      exact comma_not_mem_numberChars n)
    simp only [emitValue, Option.map_some', extractIds, hstr, if_false, hl]
    show Except.ok (some ((splitComma (joinComma (l.map numberChars))).map jsNumber)) = _
    rw [hsplit, List.map_map]
    congr 2
    apply List.map_congr_left
    intro n _
    exact jsNumber_numberChars n

theorem queryValueOf_build (sd ed : String) (a b : ClientValue) :
    queryValueOf "storeIds" (buildQueryString [("startDate", .text sd), ("endDate", .text ed),
        ("storeIds", a), ("channelIds", b)]) = (emitValue a).map .text ∧
      queryValueOf "channelIds" (buildQueryString [("startDate", .text sd),
        ("endDate", .text ed), ("storeIds", a), ("channelIds", b)])
        = (emitValue b).map .text := by
  unfold buildQueryString
  simp only [List.filterMap_cons, List.filterMap_nil]
  cases emitValue (.text sd) <;> cases emitValue (.text ed) <;> cases emitValue a <;>
    cases emitValue b <;> simp [queryValueOf]

/-- C14: let the frontend build the query string of the filters with the id lists
`stores` and `channels`, and let the server read it.  `extractFilters` returns, and for
a non-empty list it yields exactly the numbers of the list, in order, which the
database reads as that list of ids; for the empty list the filter is `null`.  The
filter is `null` as well when the value is `null` or `undefined`. -/
theorem id_list_round_trip (now : Int) (startDate endDate : String)
    (stores channels : List Int) :
    (∃ f, extractFilters now (requestQueryOf (buildQueryString
          [("startDate", .text startDate), ("endDate", .text endDate),
           ("storeIds", .numbers stores), ("channelIds", .numbers channels)])) = .ok f ∧
        f.storeIds = (if stores = [] then none else some (stores.map .int)) ∧
        f.channelIds = (if channels = [] then none else some (channels.map .int)) ∧
        resolveIds f.storeIds = .ok (if stores = [] then none else some stores) ∧
        resolveIds f.channelIds = .ok (if channels = [] then none else some channels)) ∧
    (∀ v, v = ClientValue.null ∨ v = ClientValue.undefined →
      ∃ f, extractFilters now (requestQueryOf (buildQueryString
          [("startDate", .text startDate), ("endDate", .text endDate),
           ("storeIds", v), ("channelIds", v)])) = .ok f ∧
        f.storeIds = none ∧ f.channelIds = none) := by
  have hres : ∀ l : List Int,
      resolveIds (if l = [] then none else some (l.map .int))
        = .ok (if l = [] then none else some l) := by
    intro l
    by_cases hl : l = []
    · simp [hl, resolveIds]
    · simp [hl, resolveIds, integersOf_map_int]
  constructor
  · obtain ⟨h1, h2⟩ := queryValueOf_build startDate endDate (.numbers stores)
      (.numbers channels)
    refine ⟨{ startDate := extractDate (requestQueryOf (buildQueryString
                [("startDate", .text startDate), ("endDate", .text endDate),
                 ("storeIds", .numbers stores), ("channelIds", .numbers channels)])).startDate
                (now - 30 * 24 * 60 * 60 * 1000)
              endDate := extractDate (requestQueryOf (buildQueryString
                [("startDate", .text startDate), ("endDate", .text endDate),
                 ("storeIds", .numbers stores), ("channelIds", .numbers channels)])).endDate now
              storeIds := if stores = [] then none else some (stores.map .int)
              channelIds := if channels = [] then none else some (channels.map .int) },
      ?_, rfl, rfl, hres stores, hres channels⟩
    simp only [extractFilters, requestQueryOf, h1, h2, extractIds_emitted, bind, Except.bind,
      pure, Except.pure]
  · intro v hv
    obtain ⟨h1, h2⟩ := queryValueOf_build startDate endDate v v
    have hemit : emitValue v = none := by
      rcases hv with rfl | rfl <;> rfl
    refine ⟨{ startDate := extractDate (requestQueryOf (buildQueryString
                [("startDate", .text startDate), ("endDate", .text endDate),
                 ("storeIds", v), ("channelIds", v)])).startDate
                (now - 30 * 24 * 60 * 60 * 1000)
              endDate := extractDate (requestQueryOf (buildQueryString
                [("startDate", .text startDate), ("endDate", .text endDate),
                 ("storeIds", v), ("channelIds", v)])).endDate now
              storeIds := none
              channelIds := none }, ?_, rfl, rfl⟩
    simp only [extractFilters, requestQueryOf, h1, h2, hemit, Option.map_none', extractIds,
      bind, Except.bind, pure, Except.pure]

/-- C14 on the store list `[3, 12, -7]` and the empty channel list: the text emitted is
`3,12,-7`, and the server reads the numbers 3, 12 and -7 and no channel filter. -/
theorem id_list_round_trip_witness :
    emitValue (.numbers [3, 12, -7]) = some "3,12,-7" ∧
      extractIds (some (.text "3,12,-7")) = .ok (some [.int 3, .int 12, .int (-7)]) ∧
      ∃ f, extractFilters 0 (requestQueryOf (buildQueryString
          [("startDate", .text "2024-01-01"), ("endDate", .text "2024-01-02"),
           ("storeIds", .numbers [3, 12, -7]), ("channelIds", .numbers [])])) = .ok f ∧
        f.storeIds = (if ([3, 12, -7] : List Int) = [] then none
          else some (([3, 12, -7] : List Int).map .int)) ∧
        f.channelIds = (if ([] : List Int) = [] then none
          else some (([] : List Int).map .int)) ∧
        resolveIds f.storeIds = .ok (if ([3, 12, -7] : List Int) = [] then none
          else some [3, 12, -7]) ∧
        resolveIds f.channelIds = .ok (if ([] : List Int) = [] then none else some []) :=
  ⟨by decide, by decide, (id_list_round_trip 0 "2024-01-01" "2024-01-02" [3, 12, -7] []).1⟩

/-! ## The component `App` -/

/-- C17: an edit of a filter input or of the product-limit input leaves
`appliedFilters`, `appliedProductLimit` and `activeTab` as they were and sets no
dependency of the effect that calls `loadData` (a filter edit also leaves `productLimit`,
a limit edit `currentFilters`); a dependency of that effect is set, or one of the three
values differs after the event, only for `applyFilters`, `resetFilters`, a tab switch and
the limit action; and `applyFilters` makes `appliedFilters` the current draft. -/
theorem edits_change_only_drafts (defaultFilters : UiFilters) (s : AppState) (e : UiEvent) :
    (e.isEdit = true →
        (uiStep defaultFilters s e).appliedFilters = s.appliedFilters ∧
        (uiStep defaultFilters s e).appliedProductLimit = s.appliedProductLimit ∧
        (uiStep defaultFilters s e).activeTab = s.activeTab ∧
        ((uiStep defaultFilters s e).productLimit = s.productLimit ∨
          (uiStep defaultFilters s e).currentFilters = s.currentFilters) ∧
        setsLoadDependency defaultFilters s e = false) ∧
    (setsLoadDependency defaultFilters s e = true ∨
        (uiStep defaultFilters s e).appliedFilters ≠ s.appliedFilters ∨
        (uiStep defaultFilters s e).appliedProductLimit ≠ s.appliedProductLimit ∨
        (uiStep defaultFilters s e).activeTab ≠ s.activeTab →
      e = .applyFilters ∨ e = .resetFilters ∨ (∃ id, e = .selectTab id) ∨
        e = .applyProductLimit) ∧
    (uiStep defaultFilters s .applyFilters).appliedFilters = s.currentFilters ∧
    (uiStep defaultFilters s .applyFilters).currentFilters = s.currentFilters := by
  refine ⟨?_, ?_, rfl, rfl⟩
  · intro h
    cases e <;> first
      | exact absurd h Bool.false_ne_true
      | exact ⟨rfl, rfl, rfl, Or.inl rfl, rfl⟩
      | exact ⟨rfl, rfl, rfl, Or.inr rfl, rfl⟩
  · intro h
    cases e with
    | applyFilters => exact Or.inl rfl
    | resetFilters => exact Or.inr (Or.inl rfl)
    | selectTab id => exact Or.inr (Or.inr (Or.inl ⟨id, rfl⟩))
    | applyProductLimit => exact Or.inr (Or.inr (Or.inr rfl))
    | changeStartDate v =>
      rcases h with h | h | h | h
      · exact absurd h Bool.false_ne_true
      all_goals exact absurd rfl h
    | changeEndDate v =>
      rcases h with h | h | h | h
      · exact absurd h Bool.false_ne_true
      all_goals exact absurd rfl h
    | changeStores v =>
      rcases h with h | h | h | h
      · exact absurd h Bool.false_ne_true
      all_goals exact absurd rfl h
    | changeChannels v =>
      rcases h with h | h | h | h
      · exact absurd h Bool.false_ne_true
      all_goals exact absurd rfl h
    | changeProductLimit v =>
      rcases h with h | h | h | h
      · exact absurd h Bool.false_ne_true
      all_goals exact absurd rfl h

/-- C17 on the example state: typing a start date changes the draft only, and the apply
button then sets the applied filters to that draft. -/
theorem edits_change_only_drafts_witness :
    uiStep exampleAppState.currentFilters exampleAppState (.changeStartDate "2024-01-15")
        = { exampleAppState with
            currentFilters := ⟨"2024-01-15", "2024-01-31", [], []⟩ } ∧
      setsLoadDependency exampleAppState.currentFilters exampleAppState
        (.changeStartDate "2024-01-15") = false ∧
      setsLoadDependency exampleAppState.currentFilters exampleAppState .applyFilters = true ∧
      (uiStep exampleAppState.currentFilters
          (uiStep exampleAppState.currentFilters exampleAppState
            (.changeStartDate "2024-01-15")) .applyFilters).appliedFilters
        = ⟨"2024-01-15", "2024-01-31", [], []⟩ :=
  ⟨rfl,
    ((edits_change_only_drafts exampleAppState.currentFilters exampleAppState
      (.changeStartDate "2024-01-15")).1 rfl).2.2.2.2,
    rfl,
    (edits_change_only_drafts exampleAppState.currentFilters
      (uiStep exampleAppState.currentFilters exampleAppState
        (.changeStartDate "2024-01-15")) .applyFilters).2.2.1⟩

/-- C18 (the code differs for an HTTP 500 answer): `loading` always ends as false, and
when a request issued for the active tab is rejected every report state variable keeps
its value; but when the server answers the one request of the products tab with an
error body, whatever the status, `loadData` stores that body in `topProducts`, which
then differs from every list of rows it held before. -/
theorem load_data_stores_error_body (activeTab : String) (net : Network) (s : ReportState) :
    (loadData activeTab net s).loading = false ∧
    (issuedRejected activeTab net = true →
        loadData activeTab net s = { s with loading := false }) ∧
    (∀ status error, net.topProducts = .answered (.failure status error) →
        (loadData "products" net s).topProducts = .errorBody error ∧
        ∀ rows, s.topProducts = .data rows →
          (loadData "products" net s).topProducts ≠ s.topProducts) := by
  refine ⟨?_, ?_, ?_⟩
  · unfold loadData
    split <;> rfl
  · intro h
    unfold issuedRejected at h
    unfold loadData loadDataTry
    split_ifs at h ⊢ with h1 h2 h3 h4 h5
    · cases ho : net.overview <;> cases hd : net.salesByDate <;>
        simp_all [FetchResult.isRejected, fetchJson]
    · cases ho : net.topProducts <;> simp_all [FetchResult.isRejected, fetchJson]
    · cases ho : net.salesByChannel <;> simp_all [FetchResult.isRejected, fetchJson]
    · cases ho : net.salesByHour <;> cases hd : net.salesByWeekday <;>
        simp_all [FetchResult.isRejected, fetchJson]
    · cases ho : net.topCustomers <;> cases hd : net.inactiveCustomers <;>
        simp_all [FetchResult.isRejected, fetchJson]
  · intro status error h
    have hload : (loadData "products" net s).topProducts = .errorBody error := by
      unfold loadData loadDataTry
      rw [if_neg (by decide), if_pos rfl, h]
      rfl
    refine ⟨hload, fun rows hrows => ?_⟩
    rw [hload, hrows]
    exact fun hne => Body.noConfusion hne

/-- C18 on the example: with the channel 1 selected and no store, the server answers the
top-products request with 500, and `loadData` replaces the two rows on screen by the
error body; with every request rejected the rows stay. -/
theorem load_data_stores_error_body_witness :
    channelOnlyNetwork.topProducts
        = .answered (.failure 500 "Internal server error") ∧
      exampleReportState.topProducts
        = .data [⟨"B", 1, some 1, some 200, some 200⟩, ⟨"A", 1, some 1, some 100, some 100⟩] ∧
      (loadData "products" channelOnlyNetwork exampleReportState).topProducts
        = .errorBody "Internal server error" ∧
      (loadData "products" channelOnlyNetwork exampleReportState).topProducts
        ≠ exampleReportState.topProducts ∧
      (loadData "products" channelOnlyNetwork exampleReportState).loading = false ∧
      loadData "products" offlineNetwork exampleReportState = exampleReportState :=
  have h : channelOnlyNetwork.topProducts
      = .answered (.failure 500 "Internal server error") := by decide!
  ⟨h, rfl,
    ((load_data_stores_error_body "products" channelOnlyNetwork exampleReportState).2.2
      500 "Internal server error" h).1,
    ((load_data_stores_error_body "products" channelOnlyNetwork exampleReportState).2.2
      500 "Internal server error" h).2 _ rfl,
    (load_data_stores_error_body "products" channelOnlyNetwork exampleReportState).1,
    (load_data_stores_error_body "products" offlineNetwork exampleReportState).2.1
      (by decide)⟩

/-! ## Parameters an endpoint does not pass on -/

theorem extractIds_ok_of_givenAtMostOnce (v : Option QueryValue) (h : givenAtMostOnce v = true) :
    ∃ ids, extractIds v = .ok ids := by
  cases v with
  | none => exact ⟨none, rfl⟩
  | some w =>
    cases w with
    | text s => exact extractIds_text s
    | array items => exact absurd h Bool.false_ne_true
    | object => exact absurd h Bool.false_ne_true

/-- C21 as stated fails: on the channel example `/api/sales-by-channel` answers 200 with
two rows, and the same request with `channelIds` given twice, which reaches
`extractFilters` as an array, is answered 500; likewise `/api/top-customers`. -/
theorem repeated_channel_ids_change_the_answer :
    apiSalesByChannel exampleEnv channelsExample exampleRequest
        = .json 200 [⟨"iFood", "D", 2, some 150, some 75, some (45 / 2)⟩,
                     ⟨"Balcao", "P", 1, some 30, some 30, none⟩] ∧
      apiSalesByChannel exampleEnv channelsExample
          { exampleRequest with channelIds := some (.array ["1", "2"]) }
        = .failure 500 "Internal server error" ∧
      apiSalesByChannel exampleEnv channelsExample
          { exampleRequest with channelIds := some (.array ["1", "2"]) }
        ≠ apiSalesByChannel exampleEnv channelsExample exampleRequest ∧
      apiTopCustomers exampleEnv channelsExample
          { exampleRequest with channelIds := some (.array ["1", "2"]) }
        ≠ apiTopCustomers exampleEnv channelsExample exampleRequest := by
  decide!

/-- C21 (amended): among requests whose `channelIds` is absent or given once, the answer
of `/api/sales-by-channel` does not depend on `channelIds`; among requests whose
`storeIds` and `channelIds` are absent or given once, the answer of
`/api/top-customers` depends on neither; and the answer of `/api/inactive-customers`
does not depend on `startDate`, `endDate`, `storeIds` or `channelIds`, whatever they
are. -/
theorem ignored_parameters_do_not_change_the_answer (env : ServerEnv) (db : Database)
    (query : RequestQuery) :
    (∀ channelIds channelIds', givenAtMostOnce channelIds = true →
      givenAtMostOnce channelIds' = true →
      apiSalesByChannel env db { query with channelIds := channelIds }
        = apiSalesByChannel env db { query with channelIds := channelIds' }) ∧
    (∀ storeIds storeIds' channelIds channelIds', givenAtMostOnce storeIds = true →
      givenAtMostOnce storeIds' = true → givenAtMostOnce channelIds = true →
      givenAtMostOnce channelIds' = true →
      apiTopCustomers env db { query with storeIds := storeIds, channelIds := channelIds }
        = apiTopCustomers env db
            { query with storeIds := storeIds', channelIds := channelIds' }) ∧
    (∀ startDate endDate storeIds channelIds,
      apiInactiveCustomers env db
          { query with startDate := startDate, endDate := endDate, storeIds := storeIds,
                       channelIds := channelIds }
        = apiInactiveCustomers env db query) := by
  refine ⟨?_, ?_, ?_⟩
  · intro c c' hc hc'
    obtain ⟨ids, h⟩ := extractIds_ok_of_givenAtMostOnce c hc
    obtain ⟨ids', h'⟩ := extractIds_ok_of_givenAtMostOnce c' hc'
    simp only [apiSalesByChannel, salesByChannelOutcome, extractFilters, h, h']
    cases extractIds query.storeIds <;> rfl
  · intro s s' c c' hs hs' hc hc'
    obtain ⟨ids, h⟩ := extractIds_ok_of_givenAtMostOnce c hc
    obtain ⟨ids', h'⟩ := extractIds_ok_of_givenAtMostOnce c' hc'
    obtain ⟨st, g⟩ := extractIds_ok_of_givenAtMostOnce s hs
    obtain ⟨st', g'⟩ := extractIds_ok_of_givenAtMostOnce s' hs'
    simp only [apiTopCustomers, topCustomersOutcome, extractFilters, h, h', g, g']
    rfl
  · intro startDate endDate storeIds channelIds
    rfl

/-- C21 on the channel example: `channelIds=1` and `channelIds=2` give the answer of the
request without `channelIds`. -/
theorem ignored_parameters_do_not_change_the_answer_witness :
    givenAtMostOnce (some (.text "1")) = true ∧ givenAtMostOnce (some (.text "2")) = true ∧
      apiSalesByChannel exampleEnv channelsExample
          { exampleRequest with channelIds := some (.text "1") }
        = apiSalesByChannel exampleEnv channelsExample
            { exampleRequest with channelIds := some (.text "2") } ∧
      apiSalesByChannel exampleEnv channelsExample
          { exampleRequest with channelIds := some (.text "2") }
        = .json 200 [⟨"iFood", "D", 2, some 150, some 75, some (45 / 2)⟩,
                     ⟨"Balcao", "P", 1, some 30, some 30, none⟩] :=
  ⟨rfl, rfl,
    (ignored_parameters_do_not_change_the_answer exampleEnv channelsExample exampleRequest).1
      (some (.text "1")) (some (.text "2")) rfl rfl,
    by decide!⟩

/-! ## The URLs of the frontend against the routes of the server -/

/-- C22 (the code differs in production): with the development base `/api` the URL of
each of the ten fetch functions has the path of its endpoint, `/api/<report>`, which
the server routes; with the production base
`https://restaurant-analytics.onrender.com/` the path is `//<report>`, without `/api`
and with two slashes, and no route of the server matches it. -/
theorem production_urls_miss_the_api_path (query days : String) :
    (requestedUrls false query days).map urlPath
        = [some "/api/overview", some "/api/sales-by-date", some "/api/top-products",
           some "/api/sales-by-channel", some "/api/sales-by-hour",
           some "/api/sales-by-weekday", some "/api/top-customers",
           some "/api/inactive-customers", some "/api/stores", some "/api/channels"] ∧
      (requestedUrls false query days).map (fun url => (urlPath url).bind routeOf)
        = [some "/api/overview", some "/api/sales-by-date", some "/api/top-products",
           some "/api/sales-by-channel", some "/api/sales-by-hour",
           some "/api/sales-by-weekday", some "/api/top-customers",
           some "/api/inactive-customers", some "/api/stores", some "/api/channels"] ∧
      (requestedUrls true query days).map urlPath
        = [some "//overview", some "//sales-by-date", some "//top-products",
           some "//sales-by-channel", some "//sales-by-hour", some "//sales-by-weekday",
           some "//top-customers", some "//inactive-customers", some "//stores",
           some "//channels"] ∧
      (requestedUrls true query days).map (fun url => (urlPath url).bind routeOf)
        = [none, none, none, none, none, none, none, none, none, none] ∧
      fetchOverview_url true query
        = "https://restaurant-analytics.onrender.com//overview?" ++ query := by
  have hdev : (requestedUrls false query days).map urlPath
      = [some "/api/overview", some "/api/sales-by-date", some "/api/top-products",
         some "/api/sales-by-channel", some "/api/sales-by-hour",
         some "/api/sales-by-weekday", some "/api/top-customers",
         some "/api/inactive-customers", some "/api/stores", some "/api/channels"] := by
    simp [requestedUrls, fetchOverview_url, fetchSalesByDate_url, fetchTopProducts_url,
      fetchSalesByChannel_url, fetchSalesByHour_url, fetchSalesByWeekday_url,
      fetchTopCustomers_url, fetchInactiveCustomers_url, fetchStores_url, fetchChannels_url,
      API_BASE, urlPath, String.toList, String.data_append, beforeQuery, List.takeWhile]
  have hprod : (requestedUrls true query days).map urlPath
      = [some "//overview", some "//sales-by-date", some "//top-products",
         some "//sales-by-channel", some "//sales-by-hour", some "//sales-by-weekday",
         some "//top-customers", some "//inactive-customers", some "//stores",
         some "//channels"] := by
    simp [requestedUrls, fetchOverview_url, fetchSalesByDate_url, fetchTopProducts_url,
      fetchSalesByChannel_url, fetchSalesByHour_url, fetchSalesByWeekday_url,
      fetchTopCustomers_url, fetchInactiveCustomers_url, fetchStores_url, fetchChannels_url,
      API_BASE, urlPath, String.toList, String.data_append, beforeQuery, afterAuthority,
      List.takeWhile, List.dropWhile]
  refine ⟨hdev, ?_, hprod, ?_, ?_⟩
  · have h : (requestedUrls false query days).map (fun url => (urlPath url).bind routeOf)
        = ((requestedUrls false query days).map urlPath).map (fun p => p.bind routeOf) := by
      rw [List.map_map]
      rfl
    rw [h, hdev]
    decide
  · have h : (requestedUrls true query days).map (fun url => (urlPath url).bind routeOf)
        = ((requestedUrls true query days).map urlPath).map (fun p => p.bind routeOf) := by
      rw [List.map_map]
      rfl
    rw [h, hprod]
    decide
  · simp [fetchOverview_url, API_BASE, String.append_assoc]

/-! ## Groups without a COMPLETED sale -/

theorem mem_salesByDateRows (sales : List Sale) (r : SalesByDateRow) :
    r ∈ salesByDateRows sales ↔
      ∃ g ∈ groupBy (fun s : Sale => sqlDate s.created_at) sales,
        r = { date := g.1
              total_sales := (g.2.filter isCompleted).length
              revenue := sqlRound (sqlSum ((g.2.filter isCompleted).map (·.total_amount))) 2 } := by
  unfold salesByDateRows
  rw [(List.perm_insertionSort _ _).mem_iff, List.mem_map]
  exact ⟨fun ⟨g, hg, h⟩ => ⟨g, hg, h.symm⟩, fun ⟨g, hg, h⟩ => ⟨g, hg, h.symm⟩⟩

theorem mem_salesByWeekdayRows (sales : List Sale) (r : SalesByWeekdayRow) :
    r ∈ salesByWeekdayRows sales ↔
      ∃ g ∈ groupBy (fun s : Sale =>
          (extractDow s.created_at, weekdayName (extractDow s.created_at))) sales,
        r = { weekday := g.1.1
              weekday_name := g.1.2
              total_sales := (g.2.filter isCompleted).length
              revenue := sqlRound (sqlSum ((g.2.filter isCompleted).map (·.total_amount))) 2 } := by
  unfold salesByWeekdayRows
  rw [(List.perm_insertionSort _ _).mem_iff, List.mem_map]
  exact ⟨fun ⟨g, hg, h⟩ => ⟨g, hg, h.symm⟩, fun ⟨g, hg, h⟩ => ⟨g, hg, h.symm⟩⟩

theorem mem_salesByHourRows (sales : List Sale) (r : SalesByHourRow) :
    r ∈ salesByHourRows sales ↔
      ∃ g ∈ groupBy (fun s : Sale => extractHour s.created_at) sales,
        r = { hour := g.1
              total_sales := (g.2.filter isCompleted).length
              revenue := sqlRound (sqlSum ((g.2.filter isCompleted).map (·.total_amount))) 2 } := by
  unfold salesByHourRows
  rw [(List.perm_insertionSort _ _).mem_iff, List.mem_map]
  exact ⟨fun ⟨g, hg, h⟩ => ⟨g, hg, h.symm⟩, fun ⟨g, hg, h⟩ => ⟨g, hg, h.symm⟩⟩

theorem mem_salesByChannelRows (joined : List (Sale × Channel)) (r : SalesByChannelRow) :
    r ∈ salesByChannelRows joined ↔
      ∃ g ∈ groupBy (fun x : Sale × Channel => x.2) joined, r = salesByChannelRow g := by
  unfold salesByChannelRows
  rw [(List.perm_insertionSort _ _).mem_iff, List.mem_map]
  exact ⟨fun ⟨g, hg, h⟩ => ⟨g, hg, h.symm⟩, fun ⟨g, hg, h⟩ => ⟨g, hg, h.symm⟩⟩

theorem filter_completed_eq_nil {α : Type} (saleOf : α → Sale) (p : α → Bool) (rows : List α)
    (h : ∀ r ∈ rows, p r = true → isCompleted (saleOf r) = false) :
    ((rows.filter p).filter fun r => isCompleted (saleOf r)) = [] := by
  rw [List.filter_eq_nil_iff]
  intro r hr
  obtain ⟨hr1, hr2⟩ := List.mem_filter.1 hr
  rw [h r hr1 hr2]
  exact Bool.false_ne_true

/-- C23: when a report with the date, store and channel filters returns, a day (a
weekday) with a sale that passes the `WHERE` clause and no COMPLETED one has a row in
`getSalesByDate` (`getSalesByWeekday`) with `total_sales = 0` and `revenue = NULL`, and
so has a channel in `getSalesByChannel`, with `avg_ticket` and `avg_delivery_minutes`
`NULL` too; every row of `getSalesByHour` counts at least one sale and has a COMPLETED
sale of its hour behind it, so an hour without a COMPLETED sale has no row, and every
row of `getTopProducts` counts at least one line and has a line of a COMPLETED sale of a
product of its name behind it. -/
theorem groups_without_completed_sale (db : Database) (s e : Timestamp)
    (st ch : Option (List Int)) :
    (¬ (hasLength st = false ∧ hasLength ch = true) →
      ∀ x ∈ db.sales, InRangeAndFilters s e st ch x →
        ((∀ y ∈ db.sales, InRangeAndFilters s e st ch y →
            sqlDate y.created_at = sqlDate x.created_at → isCompleted y = false) →
          ∃ rows, getSalesByDate db s e st ch = .ok rows ∧
            ⟨sqlDate x.created_at, 0, none⟩ ∈ rows) ∧
        ((∀ y ∈ db.sales, InRangeAndFilters s e st ch y →
            extractDow y.created_at = extractDow x.created_at → isCompleted y = false) →
          ∃ rows, getSalesByWeekday db s e st ch = .ok rows ∧
            ⟨extractDow x.created_at, weekdayName (extractDow x.created_at), 0, none⟩
              ∈ rows)) ∧
    (∀ c ∈ db.channels, ∀ x ∈ db.sales, x.channel_id = c.id →
      InRangeAndFilters s e st none x →
      (∀ y ∈ db.sales, InRangeAndFilters s e st none y → y.channel_id = c.id →
        isCompleted y = false) →
      ∃ rows, getSalesByChannel db s e st = .ok rows ∧
        ⟨c.name, c.type, 0, none, none, none⟩ ∈ rows) ∧
    (∀ rows, getSalesByHour db s e st ch = .ok rows →
      (∀ r ∈ rows, 0 < r.total_sales ∧
        ∃ x ∈ db.sales, isCompleted x = true ∧ InRangeAndFilters s e st ch x ∧
          extractHour x.created_at = r.hour) ∧
      ∀ h, (∀ x ∈ db.sales, InRangeAndFilters s e st ch x → extractHour x.created_at = h →
          isCompleted x = false) →
        ∀ r ∈ rows, r.hour ≠ h) ∧
    (∀ k rows, getTopProducts db s e st ch (some k) = .ok rows →
      ∀ r ∈ rows, 0 < r.times_sold ∧
        ∃ line ∈ productJoin db, isCompleted line.2.2 = true ∧
          InRangeAndFilters s e st ch line.2.2 ∧ line.2.1.name = r.product_name) := by
  refine ⟨?_, ?_, ?_, ?_⟩
  · intro hok x hx hin
    have hxc : x ∈ db.sales.filter fun r => inScope s e (activeIds st) (activeIds ch) r :=
      List.mem_filter.2 ⟨hx, (inScope_iff s e st ch x).2 hin⟩
    constructor
    · intro hnone
      refine ⟨_, by rw [getSalesByDate_eq, if_neg hok], ?_⟩
      rw [mem_salesByDateRows]
      refine ⟨(sqlDate x.created_at,
          (db.sales.filter fun r => inScope s e (activeIds st) (activeIds ch) r).filter
            fun r => decide (sqlDate r.created_at = sqlDate x.created_at)),
        (mem_groupBy _ _ _).2 ⟨⟨x, hxc, rfl⟩, rfl⟩, ?_⟩
      have hnil := filter_completed_eq_nil id
        (fun r : Sale => decide (sqlDate r.created_at = sqlDate x.created_at))
        (db.sales.filter fun r => inScope s e (activeIds st) (activeIds ch) r)
        (fun r hr hk => hnone r (List.mem_filter.1 hr).1
          ((inScope_iff s e st ch r).1 (List.mem_filter.1 hr).2) (of_decide_eq_true hk))
      simp only [id] at hnil
      have hnil' : (List.filter isCompleted
          ((db.sales.filter fun r => inScope s e (activeIds st) (activeIds ch) r).filter
            fun r => decide (sqlDate r.created_at = sqlDate x.created_at))) = [] := hnil
      simp only [hnil']
      rfl
    · intro hnone
      refine ⟨_, by rw [getSalesByWeekday_eq, if_neg hok], ?_⟩
      rw [mem_salesByWeekdayRows]
      refine ⟨((extractDow x.created_at, weekdayName (extractDow x.created_at)),
          (db.sales.filter fun r => inScope s e (activeIds st) (activeIds ch) r).filter
            fun r => decide ((extractDow r.created_at, weekdayName (extractDow r.created_at))
              = (extractDow x.created_at, weekdayName (extractDow x.created_at)))),
        (mem_groupBy _ _ _).2 ⟨⟨x, hxc, rfl⟩, rfl⟩, ?_⟩
      have hnil := filter_completed_eq_nil id
        (fun r : Sale => decide ((extractDow r.created_at, weekdayName (extractDow r.created_at))
          = (extractDow x.created_at, weekdayName (extractDow x.created_at))))
        (db.sales.filter fun r => inScope s e (activeIds st) (activeIds ch) r)
        (fun r hr hk => hnone r (List.mem_filter.1 hr).1
          ((inScope_iff s e st ch r).1 (List.mem_filter.1 hr).2)
          (congrArg Prod.fst (of_decide_eq_true hk)))
      have hnil' : (List.filter isCompleted
          ((db.sales.filter fun r => inScope s e (activeIds st) (activeIds ch) r).filter
            fun r => decide ((extractDow r.created_at, weekdayName (extractDow r.created_at))
              = (extractDow x.created_at, weekdayName (extractDow x.created_at))))) = [] := hnil
      simp only [hnil']
      rfl
  · intro c hc x hx hxc hin hnone
    refine ⟨_, getSalesByChannel_eq db s e st, ?_⟩
    rw [mem_salesByChannelRows]
    have hjoin : (x, c) ∈ (channelJoin db).filter fun r => inScope s e (activeIds st) none r.1 := by
      refine List.mem_filter.2 ⟨?_, (inScope_iff s e st none x).2 hin⟩
      unfold channelJoin
      exact List.mem_flatMap.2 ⟨x, hx, List.mem_map.2
        ⟨c, List.mem_filter.2 ⟨hc, decide_eq_true hxc.symm⟩, rfl⟩⟩
    refine ⟨(c, ((channelJoin db).filter fun r => inScope s e (activeIds st) none r.1).filter
        fun r => decide (r.2 = c)), (mem_groupBy _ _ _).2 ⟨⟨(x, c), hjoin, rfl⟩, rfl⟩, ?_⟩
    have hnil : (List.filter isCompleted
        ((((channelJoin db).filter fun r => inScope s e (activeIds st) none r.1).filter
          fun r => decide (r.2 = c)).map (·.1))) = [] := by
      rw [List.filter_eq_nil_iff]
      intro y hy
      obtain ⟨r, hr, rfl⟩ := List.mem_map.1 hy
      obtain ⟨hr1, hr2⟩ := List.mem_filter.1 hr
      obtain ⟨hr3, hr4⟩ := List.mem_filter.1 hr1
      have hrc : r.2 = c := of_decide_eq_true hr2
      have hid : r.1.channel_id = c.id := by
        unfold channelJoin at hr3
        obtain ⟨y, -, hy⟩ := List.mem_flatMap.1 hr3
        obtain ⟨c', hc', rfl⟩ := List.mem_map.1 hy
        have := of_decide_eq_true (List.mem_filter.1 hc').2
        rw [← hrc]
        exact this.symm
      rw [hnone r.1 (channelJoin_sale_mem db r hr3) ((inScope_iff s e st none r.1).1 hr4) hid]
      exact Bool.false_ne_true
    simp only [salesByChannelRow, deliveryMinutes, hnil]
    rfl
  · intro rows hrows
    have hprov : ∀ r ∈ rows, 0 < r.total_sales ∧
        ∃ x ∈ db.sales, isCompleted x = true ∧ InRangeAndFilters s e st ch x ∧
          extractHour x.created_at = r.hour := by
      intro r hr
      rw [getSalesByHour_eq] at hrows
      split_ifs at hrows with hbad
      injection hrows with hrows
      subst hrows
      obtain ⟨g, hg, rfl⟩ := (mem_salesByHourRows _ _).1 hr
      obtain ⟨⟨x, hx, hkey⟩, hg2⟩ := (mem_groupBy _ _ _).1 hg
      obtain ⟨hx1, hx2⟩ := List.mem_filter.1 hx
      obtain ⟨hx3, hx4⟩ := List.mem_filter.1 hx1
      refine ⟨?_, x, hx3, hx4, (inScope_iff s e st ch x).1 hx2, hkey⟩
      apply List.length_pos_of_mem (a := x)
      rw [hg2]
      exact List.mem_filter.2 ⟨List.mem_filter.2 ⟨hx, decide_eq_true hkey⟩, hx4⟩
    refine ⟨hprov, fun h hnone r hr hh => ?_⟩
    obtain ⟨-, x, hx, hxc, hin, hxh⟩ := hprov r hr
    rw [hnone x hx hin (hxh.trans hh)] at hxc
    exact Bool.false_ne_true hxc
  · intro k rows hrows r hr
    obtain ⟨-, -, hrows⟩ := getTopProducts_ok db s e st ch k rows hrows
    subst hrows
    have hr' := (topProductRows_perm _).mem_iff.1 (List.mem_of_mem_take hr)
    obtain ⟨g, hg, rfl⟩ := List.mem_map.1 hr'
    obtain ⟨⟨line, hline, hkey⟩, hg2⟩ := (mem_groupBy _ _ _).1 hg
    unfold completedLinesInRange at hline
    obtain ⟨hl1, hl2⟩ := List.mem_filter.1 hline
    rw [Bool.and_eq_true] at hl2
    refine ⟨?_, line, hl1, hl2.1, (inScope_iff s e st ch line.2.2).1 hl2.2, ?_⟩
    · apply List.length_pos_of_mem (a := line)
      show line ∈ g.2
      rw [hg2]
      exact List.mem_filter.2 ⟨hline, decide_eq_true hkey⟩
    · show line.2.1.name = g.1.2
      rw [← hkey]

/-- C23 on the example with a cancelled sale on Tuesday 2024-01-02 at 15:00 on channel 2:
the day has a row with 0 sales and no revenue, and so has the channel, while the hour 15
and the product B have no row. -/
theorem groups_without_completed_sale_witness :
    getSalesByDate cancelledDayExample 1704067200000000 1704240000000000 none none
        = .ok [⟨19723, 1, some 100⟩, ⟨19724, 0, none⟩] ∧
      getSalesByWeekday cancelledDayExample 1704067200000000 1704240000000000 none none
        = .ok [⟨1, some "Segunda", 1, some 100⟩, ⟨2, some "Terça", 0, none⟩] ∧
      getSalesByChannel cancelledDayExample 1704067200000000 1704240000000000 none
        = .ok [⟨"Balcao", "P", 0, none, none, none⟩,
               ⟨"iFood", "D", 1, some 100, some 100, none⟩] ∧
      getSalesByHour cancelledDayExample 1704067200000000 1704240000000000 none none
        = .ok [⟨10, 1, some 100⟩] ∧
      getTopProducts cancelledDayExample 1704067200000000 1704240000000000 none none (some 10)
        = .ok [⟨"A", 1, some 1, some 100, some 100⟩] ∧
      ∃ rows, getSalesByDate cancelledDayExample 1704067200000000 1704240000000000 none none
          = .ok rows ∧
        ⟨sqlDate 1704207600000000, 0, none⟩ ∈ rows :=
  ⟨by decide!, by decide!, by decide!, by decide!, by decide!,
    (((groups_without_completed_sale cancelledDayExample 1704067200000000 1704240000000000
        none none).1 (by decide)
      { id := 2, store_id := 1, channel_id := 2, customer_id := none,
        created_at := 1704207600000000, total_amount := 40, total_discount := 0,
        delivery_seconds := none, sale_status_desc := "CANCELLED" }
      (List.mem_cons_of_mem _ (List.mem_cons_self _ _))
      ((inScope_iff _ _ none none _).1 (by decide))).1
      (by
        intro y hy _ hd
        simp only [cancelledDayExample, List.mem_cons, List.mem_singleton,
          List.not_mem_nil, or_false] at hy
        rcases hy with rfl | rfl
        · exact absurd hd (by decide)
        · rfl))⟩

/-! ## Date-only texts -/

theorem daysFromCivil_fields (era c q yr doy : Int) (hc : 0 ≤ c ∧ c ≤ 3)
    (hq : 0 ≤ q ∧ q ≤ 24) (hyr : 0 ≤ yr ∧ yr ≤ 3) (hdoy : 0 ≤ doy ∧ doy ≤ 365) :
    daysFromCivil
        (if (if (5 * doy + 2) / 153 < 10 then (5 * doy + 2) / 153 + 3
              else (5 * doy + 2) / 153 - 9) ≤ 2
          then era * 400 + c * 100 + q * 4 + yr + 1 else era * 400 + c * 100 + q * 4 + yr)
        (if (5 * doy + 2) / 153 < 10 then (5 * doy + 2) / 153 + 3 else (5 * doy + 2) / 153 - 9)
        (doy - (153 * ((5 * doy + 2) / 153) + 2) / 5 + 1)
      = era * 146097 + c * 36524 + q * 1461 + yr * 365 + doy - 719468 := by
  have hmp : 0 ≤ (5 * doy + 2) / 153 ∧ (5 * doy + 2) / 153 ≤ 11 := by omega
  generalize (5 * doy + 2) / 153 = mp at hmp ⊢
  simp only [daysFromCivil]
  split_ifs <;> omega

theorem daysFromCivil_civilFromDays (z : Int) :
    daysFromCivil (civilFromDays z).1 (civilFromDays z).2.1 (civilFromDays z).2.2 = z := by
  have h := daysFromCivil_fields ((z + 719468) / 146097)
    (min ((z + 719468) % 146097 / 36524) 3)
    (((z + 719468) % 146097 - min ((z + 719468) % 146097 / 36524) 3 * 36524) / 1461)
    (min (((z + 719468) % 146097 - min ((z + 719468) % 146097 / 36524) 3 * 36524) % 1461 / 365) 3)
    (((z + 719468) % 146097 - min ((z + 719468) % 146097 / 36524) 3 * 36524) % 1461
      - min (((z + 719468) % 146097 - min ((z + 719468) % 146097 / 36524) 3 * 36524) % 1461 / 365) 3
        * 365)
    (by omega) (by omega) (by omega) (by omega)
  simp only [civilFromDays]
  rw [h]
  omega

theorem civilFromDays_month_day (z : Int) :
    1 ≤ (civilFromDays z).2.1 ∧ (civilFromDays z).2.1 ≤ 12 ∧
      1 ≤ (civilFromDays z).2.2 ∧ (civilFromDays z).2.2 ≤ 31 := by
  have hdoy : 0 ≤ ((z + 719468) % 146097 - min ((z + 719468) % 146097 / 36524) 3 * 36524) % 1461
      - min (((z + 719468) % 146097 - min ((z + 719468) % 146097 / 36524) 3 * 36524) % 1461 / 365) 3
        * 365 ∧
      ((z + 719468) % 146097 - min ((z + 719468) % 146097 / 36524) 3 * 36524) % 1461
      - min (((z + 719468) % 146097 - min ((z + 719468) % 146097 / 36524) 3 * 36524) % 1461 / 365) 3
        * 365 ≤ 365 := by omega
  simp only [civilFromDays]
  generalize ((z + 719468) % 146097 - min ((z + 719468) % 146097 / 36524) 3 * 36524) % 1461
      - min (((z + 719468) % 146097 - min ((z + 719468) % 146097 / 36524) 3 * 36524) % 1461 / 365) 3
        * 365 = doy at hdoy ⊢
  refine ⟨?_, ?_, ?_, ?_⟩ <;> (try split_ifs) <;> omega

theorem digitOf_digitChar (k : Nat) (hk : k < 10) : digitOf 10 (digitChar k) = some k := by
  interval_cases k <;> decide

theorem digitsNumber_twoDigits (n : Int) (h0 : 0 ≤ n) (h1 : n ≤ 99) :
    digitsNumber (twoDigits n) = some n := by
  simp only [digitsNumber, twoDigits, List.foldl_cons, List.foldl_nil,
    digitOf_digitChar _ (Nat.mod_lt _ (by decide : 10 > 0))]
  congr 1
  omega

theorem digitsNumber_fourDigits (n : Int) (h0 : 0 ≤ n) (h1 : n ≤ 9999) :
    digitsNumber (fourDigits n) = some n := by
  simp only [digitsNumber, fourDigits, List.foldl_cons, List.foldl_nil,
    digitOf_digitChar _ (Nat.mod_lt _ (by decide : 10 > 0))]
  congr 1
  omega

theorem dateOfText_formatDate (day : Int) (h0 : 0 ≤ (civilFromDays day).1)
    (h1 : (civilFromDays day).1 ≤ 9999) : dateOfText (formatDate day) = some day := by
  obtain ⟨hm1, hm2, hd1, hd2⟩ := civilFromDays_month_day day
  have hy := digitsNumber_fourDigits _ h0 h1
  have hm := digitsNumber_twoDigits (civilFromDays day).2.1 (by omega) (by omega)
  have hd := digitsNumber_twoDigits (civilFromDays day).2.2 (by omega) (by omega)
  have hround := daysFromCivil_civilFromDays day
  have hfields : dateOfFields (fourDigits (civilFromDays day).1)
      (twoDigits (civilFromDays day).2.1) (twoDigits (civilFromDays day).2.2) = some day := by
    simp only [dateOfFields, hy, hm, hd, hround, if_true]
  exact hfields

theorem dateOfText_ne_empty (text : String) (day : Int) (h : dateOfText text = some day) :
    text ≠ "" := by
  rintro rfl
  have h0 : dateOfText "" = none := by decide
  rw [h0] at h
  cases h

theorem midnight_lt_of_same_day (x day : Int) (h : sqlDate x = day)
    (hne : x ≠ midnight day) : midnight day < x := by
  have h1 : x / 86400000000 = day := h
  have h2 : x ≠ day * 86400000000 := hne
  show day * 86400000000 < x
  omega

/-! ## Sales after the end of the range -/

theorem inScope_le_end (s e : Timestamp) (st ch : Option (List Int)) (x : Sale)
    (h : inScope s e st ch x = true) : x.created_at ≤ e := by
  unfold inScope at h
  simp only [Bool.and_eq_true, decide_eq_true_eq] at h
  exact h.1.1.2

theorem filter_keep_inScope {α : Type} (saleOf : α → Sale) (keep : Sale → Bool)
    (s e : Timestamp) (st ch : Option (List Int))
    (hkeep : ∀ x : Sale, x.created_at ≤ e → keep x = true) (rows : List α) :
    ((rows.filter fun r => keep (saleOf r)).filter fun r => inScope s e st ch (saleOf r))
      = rows.filter fun r => inScope s e st ch (saleOf r) := by
  rw [List.filter_filter]
  apply List.filter_congr
  intro r _
  cases h : inScope s e st ch (saleOf r)
  · rfl
  · rw [hkeep _ (inScope_le_end s e st ch _ h)]
    rfl

theorem productJoin_keepSales (keep : Sale → Bool) (db : Database) :
    productJoin (keepSales keep db) = (productJoin db).filter fun r => keep r.2.2 := by
  unfold productJoin keepSales
  rw [List.filter_flatMap]
  congr 1
  funext ps
  rw [List.filter_flatMap]
  congr 1
  funext p
  rw [List.filter_map, filter_comm']
  rfl

theorem customerJoin_keepSales (keep : Sale → Bool) (db : Database) :
    customerJoin (keepSales keep db) = (customerJoin db).filter fun r => keep r.2 := by
  unfold customerJoin keepSales
  rw [filter_comm' (fun r : Customer × Sale => isCompleted r.2) (fun r => keep r.2)]
  congr 1
  rw [List.filter_flatMap]
  congr 1
  funext c
  rw [List.filter_map, filter_comm']
  rfl

theorem channelJoin_keepSales (keep : Sale → Bool) (db : Database) :
    channelJoin (keepSales keep db) = (channelJoin db).filter fun r => keep r.1 := by
  unfold channelJoin keepSales
  show (db.sales.filter keep).flatMap _ = _
  induction db.sales with
  | nil => rfl
  | cons x xs ih =>
    rw [List.flatMap_cons, List.filter_append, ← ih]
    by_cases hx : keep x = true
    · rw [List.filter_cons_of_pos hx, List.flatMap_cons]
      congr 1
      symm
      rw [List.filter_eq_self]
      intro r hr
      obtain ⟨c, -, rfl⟩ := List.mem_map.1 hr
      exact hx
    · rw [List.filter_cons_of_neg hx]
      have : (((db.channels.filter fun c => decide (c.id = x.channel_id)).map
          fun c => (x, c)).filter fun r => keep r.1) = [] := by
        rw [List.filter_eq_nil_iff]
        intro r hr
        obtain ⟨c, -, rfl⟩ := List.mem_map.1 hr
        exact hx
      rw [this, List.nil_append]

theorem filter_keep_inScope_sales (keep : Sale → Bool) (s e : Timestamp)
    (st ch : Option (List Int)) (hkeep : ∀ x : Sale, x.created_at ≤ e → keep x = true)
    (sales : List Sale) :
    ((sales.filter keep).filter fun r => inScope s e st ch r)
      = sales.filter fun r => inScope s e st ch r :=
  filter_keep_inScope id keep s e st ch hkeep sales

theorem getOverview_keepSales (keep : Sale → Bool) (db : Database) (s e : Timestamp)
    (st ch : Option (List Int)) (hkeep : ∀ x : Sale, x.created_at ≤ e → keep x = true) :
    getOverview (keepSales keep db) s e st ch = getOverview db s e st ch := by
  rw [getOverview_eq, getOverview_eq]
  show (if _ then _ else Except.ok (overviewRow ((db.sales.filter keep).filter _))) = _
  rw [filter_keep_inScope_sales keep s e _ _ hkeep]

theorem getSalesByDate_keepSales (keep : Sale → Bool) (db : Database) (s e : Timestamp)
    (st ch : Option (List Int)) (hkeep : ∀ x : Sale, x.created_at ≤ e → keep x = true) :
    getSalesByDate (keepSales keep db) s e st ch = getSalesByDate db s e st ch := by
  rw [getSalesByDate_eq, getSalesByDate_eq]
  show (if _ then _ else Except.ok (salesByDateRows ((db.sales.filter keep).filter _))) = _
  rw [filter_keep_inScope_sales keep s e _ _ hkeep]

theorem getSalesByWeekday_keepSales (keep : Sale → Bool) (db : Database) (s e : Timestamp)
    (st ch : Option (List Int)) (hkeep : ∀ x : Sale, x.created_at ≤ e → keep x = true) :
    getSalesByWeekday (keepSales keep db) s e st ch = getSalesByWeekday db s e st ch := by
  rw [getSalesByWeekday_eq, getSalesByWeekday_eq]
  show (if _ then _ else Except.ok (salesByWeekdayRows ((db.sales.filter keep).filter _))) = _
  rw [filter_keep_inScope_sales keep s e _ _ hkeep]

theorem getSalesByHour_keepSales (keep : Sale → Bool) (db : Database) (s e : Timestamp)
    (st ch : Option (List Int)) (hkeep : ∀ x : Sale, x.created_at ≤ e → keep x = true) :
    getSalesByHour (keepSales keep db) s e st ch = getSalesByHour db s e st ch := by
  rw [getSalesByHour_eq, getSalesByHour_eq]
  show (if _ then _ else Except.ok (salesByHourRows
    (((db.sales.filter keep).filter isCompleted).filter _))) = _
  rw [filter_comm' keep isCompleted, filter_keep_inScope_sales keep s e _ _ hkeep]

theorem getTopProducts_keepSales (keep : Sale → Bool) (db : Database) (s e : Timestamp)
    (st ch : Option (List Int)) (n : Int)
    (hkeep : ∀ x : Sale, x.created_at ≤ e → keep x = true) :
    getTopProducts (keepSales keep db) s e st ch (some n)
      = getTopProducts db s e st ch (some n) := by
  rw [getTopProducts_eq, getTopProducts_eq, productJoin_keepSales,
    filter_comm' (fun r : ProductSale × Product × Sale => keep r.2.2)
      (fun r => isCompleted r.2.2),
    filter_keep_inScope (fun r : ProductSale × Product × Sale => r.2.2) keep s e _ _ hkeep]

theorem getSalesByChannel_keepSales (keep : Sale → Bool) (db : Database) (s e : Timestamp)
    (st : Option (List Int)) (hkeep : ∀ x : Sale, x.created_at ≤ e → keep x = true) :
    getSalesByChannel (keepSales keep db) s e st = getSalesByChannel db s e st := by
  rw [getSalesByChannel_eq, getSalesByChannel_eq, channelJoin_keepSales,
    filter_keep_inScope (fun r : Sale × Channel => r.1) keep s e _ _ hkeep]

theorem getTopCustomers_keepSales (keep : Sale → Bool) (db : Database) (s e : Timestamp)
    (n : Int) (hkeep : ∀ x : Sale, x.created_at ≤ e → keep x = true) :
    getTopCustomers (keepSales keep db) s e (some n) = getTopCustomers db s e (some n) := by
  rw [getTopCustomers_eq, getTopCustomers_eq, customerJoin_keepSales,
    filter_keep_inScope (fun r : Customer × Sale => r.2) keep s e _ _ hkeep]

theorem extractFilters_endDate (now : Int) (query : RequestQuery) (f : ExtractedFilters)
    (text : String) (h : extractFilters now query = .ok f)
    (hend : query.endDate = some (.text text)) (hne : text ≠ "") :
    f.endDate = .supplied (.text text) := by
  unfold extractFilters at h
  cases hs : extractIds query.storeIds with
  | error t => rw [hs] at h; cases h
  | ok st =>
    cases hc : extractIds query.channelIds with
    | error t => rw [hs, hc] at h; cases h
    | ok c =>
      rw [hs, hc] at h
      injection h with h
      subst h
      simp [extractDate, hend, QueryValue.isTruthy, hne]

theorem resolveFilters_endDate (env : ServerEnv) (f : ExtractedFilters) (filters : Filters)
    (h : resolveFilters env f = .ok filters) : resolveDate env f.endDate = .ok filters.endDate := by
  unfold resolveFilters at h
  cases h1 : resolveDate env f.startDate with
  | error t => rw [h1] at h; cases h
  | ok a =>
    cases h2 : resolveDate env f.endDate with
    | error t => rw [h1, h2] at h; cases h
    | ok b =>
      cases h3 : resolveIds f.storeIds with
      | error t => rw [h1, h2, h3] at h; cases h
      | ok c =>
        cases h4 : resolveIds f.channelIds with
        | error t => rw [h1, h2, h3, h4] at h; cases h
        | ok d =>
          rw [h1, h2, h3, h4] at h
          injection h with h
          subst h
          rfl

theorem resolveDate_text (env : ServerEnv) (text : String) (t e : Timestamp)
    (hread : env.readTimestamp text = some t)
    (h : resolveDate env (.supplied (.text text)) = .ok e) : e = t := by
  simp only [resolveDate, hread] at h
  injection h with h
  exact h.symm

theorem filtered_outcome_congr {α : Type} (env : ServerEnv) (query : RequestQuery)
    (op op' : Filters → Except DbError α)
    (h : ∀ f filters, extractFilters env.now query = .ok f →
      resolveFilters env f = .ok filters → op filters = op' filters) :
    (do
      let f ← extractFilters env.now query
      let filters ← resolveFilters env f
      liftQuery (op filters) : Except Thrown α)
    = (do
      let f ← extractFilters env.now query
      let filters ← resolveFilters env f
      liftQuery (op' filters)) := by
  cases h1 : extractFilters env.now query with
  | error t => rfl
  | ok f =>
    cases h2 : resolveFilters env f with
    | error t =>
      show (resolveFilters env f >>= fun filters => liftQuery (op filters))
        = (resolveFilters env f >>= fun filters => liftQuery (op' filters))
      rw [h2]
      rfl
    | ok filters =>
      show (resolveFilters env f >>= fun filters => liftQuery (op filters))
        = (resolveFilters env f >>= fun filters => liftQuery (op' filters))
      rw [h2]
      show liftQuery (op filters) = liftQuery (op' filters)
      rw [h f filters h1 h2]

theorem except_bind_congr {ε α β : Type} (x : Except ε α) (k k' : α → Except ε β)
    (h : ∀ a, x = .ok a → k a = k' a) : (x >>= k) = (x >>= k') := by
  cases x with
  | error e => rfl
  | ok a => exact h a rfl

theorem same_answers_of_end (env : ServerEnv) (db : Database) (query : RequestQuery)
    (text : String) (t : Timestamp) (keep : Sale → Bool)
    (hend : query.endDate = some (.text text)) (hne : text ≠ "")
    (hread : env.readTimestamp text = some t)
    (hkeep : ∀ x : Sale, x.created_at ≤ t → keep x = true) :
    SameDateFilteredAnswers env query db (keepSales keep db) := by
  have hfilters : ∀ f filters, extractFilters env.now query = .ok f →
      resolveFilters env f = .ok filters →
      ∀ x : Sale, x.created_at ≤ filters.endDate → keep x = true := by
    intro f filters h1 h2
    have he := resolveFilters_endDate env f filters h2
    rw [extractFilters_endDate env.now query f text h1 hend hne] at he
    rw [resolveDate_text env text t _ hread he]
    exact hkeep
  refine ⟨?_, ?_, ?_, ?_, ?_, ?_, ?_⟩
  · exact congrArg respond (filtered_outcome_congr env query _ _ fun f filters h1 h2 =>
      (getOverview_keepSales keep db _ _ _ _ (hfilters f filters h1 h2)).symm)
  · exact congrArg respond (filtered_outcome_congr env query _ _ fun f filters h1 h2 =>
      (getSalesByDate_keepSales keep db _ _ _ _ (hfilters f filters h1 h2)).symm)
  · exact congrArg respond (filtered_outcome_congr env query
      (fun filters => getTopProducts db filters.startDate filters.endDate filters.storeIds
        filters.channelIds (some (parseIntOr (queryText query.limit) 10)))
      (fun filters => getTopProducts (keepSales keep db) filters.startDate filters.endDate
        filters.storeIds filters.channelIds (some (parseIntOr (queryText query.limit) 10)))
      fun f filters h1 h2 =>
        (getTopProducts_keepSales keep db _ _ _ _ _ (hfilters f filters h1 h2)).symm)
  · refine congrArg respond (except_bind_congr _ _ _ fun f h1 => ?_)
    have hfe := extractFilters_endDate env.now query f text h1 hend hne
    refine except_bind_congr _ _ _ fun s _ => ?_
    refine except_bind_congr _ _ _ fun e h3 => ?_
    refine except_bind_congr _ _ _ fun st _ => ?_
    rw [hfe] at h3
    rw [getSalesByChannel_keepSales keep db s e st
      (by rw [resolveDate_text env text t e hread h3]; exact hkeep)]
  · exact congrArg respond (filtered_outcome_congr env query _ _ fun f filters h1 h2 =>
      (getSalesByHour_keepSales keep db _ _ _ _ (hfilters f filters h1 h2)).symm)
  · exact congrArg respond (filtered_outcome_congr env query _ _ fun f filters h1 h2 =>
      (getSalesByWeekday_keepSales keep db _ _ _ _ (hfilters f filters h1 h2)).symm)
  · refine congrArg respond (except_bind_congr _ _ _ fun f h1 => ?_)
    have hfe := extractFilters_endDate env.now query f text h1 hend hne
    refine except_bind_congr _ _ _ fun s _ => ?_
    refine except_bind_congr _ _ _ fun e h3 => ?_
    rw [hfe] at h3
    rw [getTopCustomers_keepSales keep db s e _
      (by rw [resolveDate_text env text t e hread h3]; exact hkeep)]

theorem filtersRequest_endDate (filters : UiFilters) (limit : ClientValue)
    (h : filters.endDate ≠ "") :
    (filtersRequest filters limit).endDate = some (.text filters.endDate) := by
  have he : emitValue (.text filters.endDate) = some filters.endDate := by
    simp [emitValue, h]
  show queryValueOf "endDate" (buildQueryString _) = _
  unfold buildQueryString
  simp only [List.filterMap_cons, List.filterMap_nil, he]
  cases emitValue (.text filters.startDate) <;> cases emitValue (.numbers filters.storeIds) <;>
    cases emitValue (.numbers filters.channelIds) <;> cases emitValue limit <;>
    simp [queryValueOf]

theorem keep_of_le_midnight (day : Int) (x : Sale) (h : x.created_at ≤ midnight day) :
    (!(decide (sqlDate x.created_at = day) && decide (x.created_at ≠ midnight day))) = true := by
  by_cases hd : sqlDate x.created_at = day
  · by_cases hm : x.created_at = midnight day
    · simp [hm]
    · exact absurd (midnight_lt_of_same_day x.created_at day hd hm) (not_lt.2 h)
  · simp [hd]

/-- C24: let the database read a date-only text as 00:00:00 of its date.  For a request
whose `endDate` is a date-only text, the end of the range the query compares with is
00:00:00 of that date, a sale created on that date at another time is later than it, and
each of the seven date-filtered endpoints answers as on the dataset without the sales
created on that date after 00:00:00.  The end date of the default filters of a day in the
years 0 to 9999 is the text of that day, so that the same holds for the request of the
default filters and the sales of today. -/
theorem date_only_end_excludes_rest_of_day (env : ServerEnv) (db : Database)
    (hread : ∀ text day, dateOfText text = some day →
      env.readTimestamp text = some (midnight day)) :
    (∀ (query : RequestQuery) (text : String) (day : Int),
      query.endDate = some (.text text) → dateOfText text = some day →
      (∀ f filters, extractFilters env.now query = .ok f →
        resolveFilters env f = .ok filters → filters.endDate = midnight day) ∧
      (∀ x : Sale, sqlDate x.created_at = day → x.created_at ≠ midnight day →
        midnight day < x.created_at ∧ x ∉ (withoutRestOfDay day db).sales) ∧
      SameDateFilteredAnswers env query db (withoutRestOfDay day db)) ∧
    (∀ (today : Int) (limit : ClientValue),
      0 ≤ (civilFromDays today).1 → (civilFromDays today).1 ≤ 9999 →
      (filtersRequest (defaultFilters today) limit).endDate
        = some (.text (formatDate today)) ∧
      dateOfText (formatDate today) = some today ∧
      SameDateFilteredAnswers env (filtersRequest (defaultFilters today) limit) db
        (withoutRestOfDay today db)) := by
  have hfirst : ∀ (query : RequestQuery) (text : String) (day : Int),
      query.endDate = some (.text text) → dateOfText text = some day →
      (∀ f filters, extractFilters env.now query = .ok f →
        resolveFilters env f = .ok filters → filters.endDate = midnight day) ∧
      (∀ x : Sale, sqlDate x.created_at = day → x.created_at ≠ midnight day →
        midnight day < x.created_at ∧ x ∉ (withoutRestOfDay day db).sales) ∧
      SameDateFilteredAnswers env query db (withoutRestOfDay day db) := by
    intro query text day hend hday
    have hne := dateOfText_ne_empty text day hday
    refine ⟨?_, ?_, ?_⟩
    · intro f filters h1 h2
      have he := resolveFilters_endDate env f filters h2
      rw [extractFilters_endDate env.now query f text h1 hend hne] at he
      exact resolveDate_text env text _ _ (hread text day hday) he
    · intro x hd hm
      refine ⟨midnight_lt_of_same_day x.created_at day hd hm, fun hx => ?_⟩
      have hk := (List.mem_filter.1 hx).2
      simp [hd, hm] at hk
    · exact same_answers_of_end env db query text (midnight day) _ hend hne
        (hread text day hday) (keep_of_le_midnight day)
  refine ⟨hfirst, ?_⟩
  intro today limit h0 h1
  have hday := dateOfText_formatDate today h0 h1
  have hend := filtersRequest_endDate (defaultFilters today) limit
    (dateOfText_ne_empty _ today hday)
  exact ⟨hend, hday, (hfirst _ _ today hend hday).2.2⟩

/-- C24 on the overview example, whose sales of 2024-01-01 are of 10:00 and 12:00: with
`endDate=2024-01-01` the end of the range is 00:00:00 of that day and the overview counts
no sale, as on the dataset without the two sales; 2024-01-01 is the end date of the
default filters of that day. -/
theorem date_only_end_excludes_rest_of_day_witness :
    dateOfText "2024-01-01" = some 19723 ∧ midnight 19723 = 1704067200000000 ∧
      (withoutRestOfDay 19723 overviewExample).sales
        = [exampleSale 3 1704153600000000 20 "CANCELLED"] ∧
      apiOverview dateOnlyEnv overviewExample
          { startDate := some (.text "2024-01-01"), endDate := some (.text "2024-01-01") }
        = .json 200 ⟨0, 0, 0, none, none, none⟩ ∧
      SameDateFilteredAnswers dateOnlyEnv
        { startDate := some (.text "2024-01-01"), endDate := some (.text "2024-01-01") }
        overviewExample (withoutRestOfDay 19723 overviewExample) ∧
      (defaultFilters 19723).endDate = "2024-01-01" ∧
      (defaultFilters 19723).startDate = "2023-12-02" ∧
      SameDateFilteredAnswers dateOnlyEnv
        (filtersRequest (defaultFilters 19723) .undefined)
        overviewExample (withoutRestOfDay 19723 overviewExample) :=
  have hread : ∀ text day, dateOfText text = some day →
      dateOnlyEnv.readTimestamp text = some (midnight day) := by
    intro text day h
    show (dateOfText text).map midnight = _
    rw [h]
    rfl
  ⟨by decide, by decide, by decide!, by decide!,
    ((date_only_end_excludes_rest_of_day dateOnlyEnv overviewExample hread).1
      { startDate := some (.text "2024-01-01"), endDate := some (.text "2024-01-01") }
      "2024-01-01" 19723 rfl (by decide)).2.2,
    by decide, by decide,
    ((date_only_end_excludes_rest_of_day dateOnlyEnv overviewExample hread).2 19723
      .undefined (by decide) (by decide)).2.2⟩

/-! ## The effective limit -/

theorem readDigits_seen (radix : Nat) (cs : List Char) (acc : Nat) :
    ∃ n, readDigits radix cs acc true = some n := by
  induction cs generalizing acc with
  | nil => exact ⟨acc, rfl⟩
  | cons c rest ih =>
    unfold readDigits
    cases digitOf radix c with
    | none => exact ⟨acc, rfl⟩
    | some d => exact ih _

theorem readDigits_eq_none_iff (radix : Nat) (cs : List Char) :
    readDigits radix cs 0 false = none ↔
      (match cs with
        | c :: _ => (digitOf radix c).isSome
        | [] => false) = false := by
  cases cs with
  | nil => simp [readDigits]
  | cons c rest =>
    unfold readDigits
    cases h : digitOf radix c with
    | none => simp [h]
    | some d =>
      obtain ⟨n, hn⟩ := readDigits_seen radix rest (radix * 0 + d)
      show readDigits radix rest (radix * 0 + d) true = none ↔
        (digitOf radix c).isSome = false
      rw [hn, h]
      simp

theorem parseInt_eq_none_iff (s : String) :
    parseInt s = none ↔ startsWithInteger s = false := by
  unfold parseInt startsWithInteger
  simp only []
  rw [← readDigits_eq_none_iff]
  constructor
  · intro h
    split at h
    · cases h
    · assumption
  · intro h
    split
    · rename_i n heq
      exact absurd (heq.symm.trans h) (by simp)
    · rfl

theorem except_bind_eq_ok {ε α β : Type} (x : Except ε α) (k : α → Except ε β) (b : β)
    (h : (x >>= k) = .ok b) : ∃ a, x = .ok a ∧ k a = .ok b := by
  cases x with
  | error e => cases h
  | ok a => exact ⟨a, rfl, h⟩

theorem respond_eq_json {α : Type} (outcome : Except Thrown α) (status : Nat) (data : α)
    (h : respond outcome = .json status data) : outcome = .ok data := by
  cases outcome with
  | error e => cases h
  | ok d =>
    injection h with _ h
    rw [h]

theorem liftQuery_eq_ok {α : Type} (r : Except DbError α) (a : α)
    (h : liftQuery r = .ok a) : r = .ok a := by
  cases r with
  | error e => cases h
  | ok d =>
    injection h with h
    rw [h]

theorem bindNum_getTopProducts_limit (s e : Timestamp) (st ch : Option (List Int)) (n : Int) :
    bindNum (getTopProducts_query s e st ch n).params (limitPlaceholder st ch) = .ok n := by
  rcases st with _ | _ | ⟨a, l⟩ <;> rcases ch with _ | _ | ⟨b, m⟩ <;> rfl

theorem parseIntOr_ne_zero (raw : Option String) (dflt : Int) (h : dflt ≠ 0) :
    parseIntOr raw dflt ≠ 0 := by
  cases raw with
  | none => exact h
  | some text =>
    cases hp : parseInt text with
    | none =>
      simp only [parseIntOr, hp]
      exact h
    | some n =>
      by_cases hn : n = 0
      · simp only [parseIntOr, hp, hn, if_true]
        exact h
      · simp only [parseIntOr, hp, hn, if_false]
        exact hn

/-- C25: the effective value `parseInt(raw) || dflt` of `limit` and `days` is the default
when the parameter is absent, when its text does not start with an integer and when the
integer it starts with is 0, and is that integer otherwise; with a default that is not 0
it is never 0.  A request with `limit=0` (`days=0`) is answered as the request without
the parameter, with at most 10 rows by `/api/top-products` and at most 20 by
`/api/top-customers`, and a negative integer is the number the query binds to its
`LIMIT` placeholder (to `$1` for `days`). -/
theorem effective_limit_resolution :
    (∀ (raw : Option QueryValue) (dflt : Int),
      (raw = none → parseIntOr (queryText raw) dflt = dflt) ∧
      (∀ text, queryText raw = some text →
        (startsWithInteger text = false → parseIntOr (queryText raw) dflt = dflt) ∧
        (parseInt text = some 0 → parseIntOr (queryText raw) dflt = dflt) ∧
        (startsWithInteger text = true →
          ∃ n, parseInt text = some n ∧ (n ≠ 0 → parseIntOr (queryText raw) dflt = n))) ∧
      (dflt ≠ 0 → parseIntOr (queryText raw) dflt ≠ 0)) ∧
    (∀ (env : ServerEnv) (db : Database) (query : RequestQuery),
      query.limit = some (.text "0") →
      apiTopProducts env db query = apiTopProducts env db { query with limit := none } ∧
      apiTopCustomers env db query = apiTopCustomers env db { query with limit := none } ∧
      (∀ rows, apiTopProducts env db query = .json 200 rows → rows.length ≤ 10) ∧
      (∀ rows, apiTopCustomers env db query = .json 200 rows → rows.length ≤ 20)) ∧
    (∀ (env : ServerEnv) (db : Database) (query : RequestQuery),
      query.days = some (.text "0") →
      apiInactiveCustomers env db query
        = apiInactiveCustomers env db { query with days := none }) ∧
    (∀ (text : String) (n : Int), parseInt text = some n → n < 0 →
      (∀ dflt, parseIntOr (some text) dflt = n) ∧
      (∀ s e st ch, bindNum (getTopProducts_query s e st ch (parseIntOr (some text) 10)).params
        (limitPlaceholder st ch) = .ok n) ∧
      (∀ s e, bindNum (getTopCustomers_query s e (parseIntOr (some text) 20)).params 3
        = .ok n) ∧
      bindNum (getInactiveCustomers_query (parseIntOr (some text) 30)).params 1 = .ok n) := by
  have h10 : parseIntOr (some "0") 10 = 10 := by decide
  have h20 : parseIntOr (some "0") 20 = 20 := by decide
  have h30 : parseIntOr (some "0") 30 = 30 := by decide
  refine ⟨?_, ?_, ?_, ?_⟩
  · intro raw dflt
    refine ⟨fun h => by rw [h]; rfl, fun text htext => ?_,
      fun h => parseIntOr_ne_zero _ dflt h⟩
    rw [htext]
    refine ⟨?_, ?_, ?_⟩
    · intro h
      have hnone := (parseInt_eq_none_iff text).2 h
      simp only [parseIntOr, hnone]
    · intro h
      simp only [parseIntOr, h, if_true]
    · intro h
      cases hp : parseInt text with
      | none =>
        have := (parseInt_eq_none_iff text).1 hp
        rw [h] at this
        cases this
      | some n =>
        refine ⟨n, rfl, fun hn => ?_⟩
        simp only [parseIntOr, hp, hn, if_false]
  · intro env db query h
    have hP : apiTopProducts env db query
        = apiTopProducts env db { query with limit := none } := by
      simp only [apiTopProducts, topProductsOutcome, extractFilters, h, queryText, h10]
      rfl
    have hC : apiTopCustomers env db query
        = apiTopCustomers env db { query with limit := none } := by
      simp only [apiTopCustomers, topCustomersOutcome, extractFilters, h, queryText, h20]
      rfl
    refine ⟨hP, hC, ?_, ?_⟩
    · intro rows hrows
      have hout := respond_eq_json _ _ _ hrows
      unfold topProductsOutcome at hout
      obtain ⟨f, -, hout⟩ := except_bind_eq_ok _ _ _ hout
      obtain ⟨filters, -, hout⟩ := except_bind_eq_ok _ _ _ hout
      have hq := liftQuery_eq_ok _ _ hout
      rw [h] at hq
      obtain ⟨-, -, hrows'⟩ := getTopProducts_ok db _ _ _ _ _ rows hq
      rw [hrows']
      exact (List.length_take_le _ _).trans (by
        show (parseIntOr (queryText (some (.text "0"))) 10).toNat ≤ 10
        rw [show queryText (some (QueryValue.text "0")) = some "0" from rfl, h10]
        decide)
    · intro rows hrows
      have hout := respond_eq_json _ _ _ hrows
      unfold topCustomersOutcome at hout
      obtain ⟨f, -, hout⟩ := except_bind_eq_ok _ _ _ hout
      obtain ⟨s, -, hout⟩ := except_bind_eq_ok _ _ _ hout
      obtain ⟨e, -, hout⟩ := except_bind_eq_ok _ _ _ hout
      have hq := liftQuery_eq_ok _ _ hout
      rw [h] at hq
      obtain ⟨-, hrows'⟩ := getTopCustomers_ok db _ _ _ rows hq
      rw [hrows']
      exact (List.length_take_le _ _).trans (by
        show (parseIntOr (queryText (some (.text "0"))) 20).toNat ≤ 20
        rw [show queryText (some (QueryValue.text "0")) = some "0" from rfl, h20]
        decide)
  · intro env db query h
    simp only [apiInactiveCustomers, inactiveCustomersOutcome, h, queryText, h30]
    rfl
  · intro text n hp hn
    have hne : n ≠ 0 := by omega
    have hpar : ∀ dflt, parseIntOr (some text) dflt = n := by
      intro dflt
      simp only [parseIntOr, hp, hne, if_false]
    refine ⟨hpar, fun s e st ch => ?_, fun s e => ?_, ?_⟩
    · rw [hpar]
      exact bindNum_getTopProducts_limit s e st ch n
    · rw [hpar]
      rfl
    · rw [hpar]
      rfl

/-- C25 on `limit=0`, `limit=abc`, `limit=5` and `limit=-5`: the effective limit of
`/api/top-products` is 10, 10, 5 and -5, and on the top-products example `limit=0` is
answered with the two rows of the request without a limit. -/
theorem effective_limit_resolution_witness :
    parseIntOr (queryText (some (.text "0"))) 10 = 10 ∧
      parseIntOr (queryText (some (.text "abc"))) 10 = 10 ∧
      parseIntOr (queryText (some (.text "5"))) 10 = 5 ∧
      parseIntOr (queryText (some (.text "-5"))) 10 = -5 ∧
      startsWithInteger "abc" = false ∧ startsWithInteger "-5" = true ∧
      apiTopProducts exampleEnv productsExample
          { startDate := some (.text "2024-01-01"), endDate := some (.text "2024-01-02"),
            limit := some (.text "0") }
        = apiTopProducts exampleEnv productsExample
            { startDate := some (.text "2024-01-01"), endDate := some (.text "2024-01-02") } ∧
      apiTopProducts exampleEnv productsExample
          { startDate := some (.text "2024-01-01"), endDate := some (.text "2024-01-02"),
            limit := some (.text "0") }
        = .json 200 [⟨"B", 1, some 1, some 200, some 200⟩,
                     ⟨"A", 1, some 1, some 100, some 100⟩] ∧
      bindNum (getTopProducts_query 0 1 none none (parseIntOr (some "-5") 10)).params
        (limitPlaceholder none none) = .ok (-5) :=
  ⟨((effective_limit_resolution.1 (some (.text "0")) 10).2.1 "0" rfl).2.1 (by decide),
    ((effective_limit_resolution.1 (some (.text "abc")) 10).2.1 "abc" rfl).1 (by decide),
    by decide, by decide, by decide, by decide,
    (effective_limit_resolution.2.1 exampleEnv productsExample
      { startDate := some (.text "2024-01-01"), endDate := some (.text "2024-01-02"),
        limit := some (.text "0") } rfl).1,
    by decide!,
    ((effective_limit_resolution.2.2.2 "-5" (-5) (by decide) (by decide)).2.1 0 1 none none)⟩


/-! ## Defaults of `extractFilters`, amended -/

/-- C13 as stated fails: a request with `storeIds` given twice makes `extractFilters`
throw instead of yielding the defaults, and a supplied `startDate` that is the empty
string is not passed through but replaced by the default. -/
theorem extract_filters_throws_or_replaces :
    extractFilters 1706659200000 { storeIds := some (.array ["1", "2"]) }
        = .error .typeError ∧
      extractFilters 1706659200000 { startDate := some (.text "") }
        = .ok { startDate := .isoString 1704067200000
                endDate := .isoString 1706659200000
                storeIds := none
                channelIds := none } ∧
      DateArg.isoString 1704067200000 ≠ DateArg.supplied (.text "") := by
  decide

/-- C13 (amended): for a request evaluated at the time `now` whose `storeIds` and
`channelIds`, if present, are strings, `extractFilters` returns; a `startDate` that is
absent or the empty string becomes the ISO text of `now - 30*24*60*60*1000` milliseconds
and such an `endDate` the ISO text of `now`, while a supplied non-empty `startDate` or
`endDate` is passed through unchanged.  With `limit` absent `/api/top-products` answers
as for `limit=10` and `/api/top-customers` as for `limit=20`, and with `days` absent
`/api/inactive-customers` answers as for `days=30`. -/
theorem extract_filters_defaults (now : Int) (query : RequestQuery)
    (hs : ∀ w, query.storeIds = some w → ∃ s, w = .text s)
    (hc : ∀ w, query.channelIds = some w → ∃ s, w = .text s) :
    (∃ f, extractFilters now query = .ok f ∧
      (query.startDate = none ∨ query.startDate = some (.text "") →
        f.startDate = .isoString (now - 30 * 24 * 60 * 60 * 1000)) ∧
      (query.endDate = none ∨ query.endDate = some (.text "") → f.endDate = .isoString now) ∧
      (∀ v, query.startDate = some v → v.isTruthy = true → f.startDate = .supplied v) ∧
      (∀ v, query.endDate = some v → v.isTruthy = true → f.endDate = .supplied v) ∧
      (∀ s, s ≠ "" → query.startDate = some (.text s) → f.startDate = .supplied (.text s)) ∧
      (∀ s, s ≠ "" → query.endDate = some (.text s) → f.endDate = .supplied (.text s))) ∧
    (query.limit = none →
      parseIntOr (queryText query.limit) 10 = 10 ∧
      parseIntOr (queryText query.limit) 20 = 20 ∧
      (∀ env db, apiTopProducts env db query
        = apiTopProducts env db { query with limit := some (.text "10") }) ∧
      (∀ env db, apiTopCustomers env db query
        = apiTopCustomers env db { query with limit := some (.text "20") })) ∧
    (query.days = none →
      parseIntOr (queryText query.days) 30 = 30 ∧
      (∀ env db, apiInactiveCustomers env db query
        = apiInactiveCustomers env db { query with days := some (.text "30") })) := by
  refine ⟨?_, ?_, ?_⟩
  · obtain ⟨st, hst⟩ := extractIds_ok_of_text _ hs
    obtain ⟨ch, hch⟩ := extractIds_ok_of_text _ hc
    refine ⟨{ startDate := extractDate query.startDate (now - 30 * 24 * 60 * 60 * 1000)
              endDate := extractDate query.endDate now
              storeIds := st
              channelIds := ch },
      by simp only [extractFilters, hst, hch, bind, Except.bind, pure, Except.pure],
      ?_, ?_, ?_, ?_, ?_, ?_⟩
    · rintro (h | h) <;> simp [extractDate, h, QueryValue.isTruthy]
    · rintro (h | h) <;> simp [extractDate, h, QueryValue.isTruthy]
    · intro v h hv
      simp [extractDate, h, hv]
    · intro v h hv
      simp [extractDate, h, hv]
    · intro s hne h
      simp [extractDate, h, QueryValue.isTruthy, hne]
    · intro s hne h
      simp [extractDate, h, QueryValue.isTruthy, hne]
  · intro h
    have h10 : parseIntOr (some "10") 10 = 10 := by decide
    have h20 : parseIntOr (some "20") 20 = 20 := by decide
    refine ⟨by rw [h]; rfl, by rw [h]; rfl, ?_, ?_⟩
    · intro env db
      simp only [apiTopProducts, topProductsOutcome, extractFilters, h, queryText, h10]
      rfl
    · intro env db
      simp only [apiTopCustomers, topCustomersOutcome, extractFilters, h, queryText, h20]
      rfl
  · intro h
    have h30 : parseIntOr (some "30") 30 = 30 := by decide
    refine ⟨by rw [h]; rfl, ?_⟩
    intro env db
    simp only [apiInactiveCustomers, inactiveCustomersOutcome, h, queryText, h30]
    rfl

/-- C13 on a request with only `endDate=2024-01-02`, at the time 1706659200000 ms: the
start date is the ISO text of 30 days earlier, the end date is passed through. -/
theorem extract_filters_defaults_witness :
    extractFilters 1706659200000 { endDate := some (.text "2024-01-02") }
        = .ok { startDate := .isoString 1704067200000
                endDate := .supplied (.text "2024-01-02")
                storeIds := none
                channelIds := none } ∧
      (1706659200000 : Int) - 30 * 24 * 60 * 60 * 1000 = 1704067200000 ∧
      parseIntOr (queryText (none : Option QueryValue)) 10 = 10 :=
  ⟨by decide, by decide,
    ((extract_filters_defaults 1706659200000 { endDate := some (.text "2024-01-02") }
      (by intro w h; cases h) (by intro w h; cases h)).2.1 rfl).1⟩


/-! ## The overview example with date-only bounds -/

theorem overviewOutcome_exampleRequest (env : ServerEnv) (db : Database)
    (hread : ∀ text day, dateOfText text = some day →
      env.readTimestamp text = some (midnight day)) :
    overviewOutcome env db exampleRequest
      = liftQuery (getOverview db 1704067200000000 1704153600000000 none none) := by
  have h1 : env.readTimestamp "2024-01-01" = some 1704067200000000 :=
    hread "2024-01-01" 19723 (by decide)
  have h2 : env.readTimestamp "2024-01-02" = some 1704153600000000 :=
    hread "2024-01-02" 19724 (by decide)
  have hf : extractFilters env.now exampleRequest
      = .ok { startDate := .supplied (.text "2024-01-01")
              endDate := .supplied (.text "2024-01-02")
              storeIds := none
              channelIds := none } := rfl
  have hr : resolveFilters env { startDate := .supplied (.text "2024-01-01")
                                 endDate := .supplied (.text "2024-01-02")
                                 storeIds := none
                                 channelIds := none }
      = .ok ⟨1704067200000000, 1704153600000000, none, none⟩ := by
    simp only [resolveFilters, resolveDate, h1, h2, resolveIds]
    rfl
  unfold overviewOutcome
  rw [hf]
  show (resolveFilters env _ >>= fun filters => liftQuery _) = _
  rw [hr]
  simp only [bind, Except.bind]

theorem first_day_bounds (t : Int) (h : sqlDate t = 19723) :
    1704067200000000 ≤ t ∧ t ≤ 1704153600000000 := by
  have h1 : t / 86400000000 = 19723 := h
  omega

theorem second_day_bounds (t : Int) (h : sqlDate t = 19724) :
    1704067200000000 ≤ t ∧ (t ≠ 1704153600000000 → ¬ t ≤ 1704153600000000) := by
  have h1 : t / 86400000000 = 19724 := h
  omega

/-- C5 as stated fails in its example: with the CANCELLED sale of 20 on 2024-01-02 at
15:00, the request for the range `[2024-01-01, 2024-01-02]`, whose end the database
reads as 2024-01-02 00:00:00, is answered with `total_sales = 2`, `completed_sales = 2`
and `cancelled_sales = 0`, not with 3, 2 and 1. -/
theorem overview_example_excludes_late_cancelled_sale :
    readDateOnly "2024-01-01" = some 1704067200000000 ∧
      readDateOnly "2024-01-02" = some 1704153600000000 ∧
      (lateCancelledExample.sales.map fun x => (sqlDate x.created_at, x.sale_status_desc))
        = [(19723, "COMPLETED"), (19723, "COMPLETED"), (19724, "CANCELLED")] ∧
      dateOfText "2024-01-02" = some 19724 ∧
      getOverview lateCancelledExample 1704067200000000 1704153600000000 none none
        = .ok ⟨2, 2, 0, some 40, some 80, some 0⟩ ∧
      apiOverview dateOnlyEnv lateCancelledExample exampleRequest
        = .json 200 ⟨2, 2, 0, some 40, some 80, some 0⟩ := by
  decide!

/-- C5 (amended): whenever `getOverview` returns its row, `total_sales` counts the sales
in range of every status, while `avg_ticket`, `total_revenue` and `total_discounts` are
the mean of `total_amount`, the sum of `total_amount` and the sum of `total_discount`
over the COMPLETED sales in range only, each rounded to 2 decimals (NULL without a
COMPLETED sale).  In the example scenario (two COMPLETED sales of 50 and 30 on
2024-01-01, one CANCELLED sale of 20 on 2024-01-02, no filter), with the database
reading a date-only text as 00:00:00 of its date, the request for the range
`[2024-01-01, 2024-01-02]` is answered with `completed_sales = 2`, `avg_ticket = 40.00`
and `total_revenue = 80.00`; `total_sales = 3` and `cancelled_sales = 1` when the
cancelled sale is of 00:00:00, and `total_sales = 2` and `cancelled_sales = 0` when it
is of a later time of 2024-01-02. -/
theorem overview_aggregates_over_completed :
    (∀ (db : Database) (s e : Timestamp) (st ch : Option (List Int)) (row : OverviewRow),
      getOverview db s e st ch = .ok row →
      row.total_sales
          = (db.sales.filter fun x => inScope s e (activeIds st) (activeIds ch) x).length ∧
        row.avg_ticket
          = (if ((db.sales.filter fun x => inScope s e (activeIds st) (activeIds ch) x).filter
                fun x => x.sale_status_desc == "COMPLETED").length = 0 then none
             else some (roundTo 2
              ((((db.sales.filter fun x => inScope s e (activeIds st) (activeIds ch) x).filter
                  fun x => x.sale_status_desc == "COMPLETED").map (·.total_amount)).sum /
                ((db.sales.filter fun x => inScope s e (activeIds st) (activeIds ch) x).filter
                  fun x => x.sale_status_desc == "COMPLETED").length))) ∧
        row.total_revenue
          = (if ((db.sales.filter fun x => inScope s e (activeIds st) (activeIds ch) x).filter
                fun x => x.sale_status_desc == "COMPLETED").length = 0 then none
             else some (roundTo 2
              (((db.sales.filter fun x => inScope s e (activeIds st) (activeIds ch) x).filter
                  fun x => x.sale_status_desc == "COMPLETED").map (·.total_amount)).sum)) ∧
        row.total_discounts
          = (if ((db.sales.filter fun x => inScope s e (activeIds st) (activeIds ch) x).filter
                fun x => x.sale_status_desc == "COMPLETED").length = 0 then none
             else some (roundTo 2
              (((db.sales.filter fun x => inScope s e (activeIds st) (activeIds ch) x).filter
                  fun x => x.sale_status_desc == "COMPLETED").map (·.total_discount)).sum))) ∧
    (∀ (env : ServerEnv) (db : Database) (a b c : Sale),
      (∀ text day, dateOfText text = some day →
        env.readTimestamp text = some (midnight day)) →
      db.sales = [a, b, c] →
      a.sale_status_desc = "COMPLETED" → a.total_amount = 50 → sqlDate a.created_at = 19723 →
      b.sale_status_desc = "COMPLETED" → b.total_amount = 30 → sqlDate b.created_at = 19723 →
      c.sale_status_desc = "CANCELLED" → c.total_amount = 20 → sqlDate c.created_at = 19724 →
      dateOfText "2024-01-01" = some 19723 ∧ dateOfText "2024-01-02" = some 19724 ∧
      ∃ row, apiOverview env db exampleRequest = .json 200 row ∧
        row.completed_sales = 2 ∧ row.avg_ticket = some 40 ∧ row.total_revenue = some 80 ∧
        (c.created_at = midnight 19724 → row.total_sales = 3 ∧ row.cancelled_sales = 1) ∧
        (c.created_at ≠ midnight 19724 → row.total_sales = 2 ∧ row.cancelled_sales = 0)) := by
  constructor
  · intro db s e st ch row h
    rw [getOverview_eq] at h
    split at h
    · cases h
    · injection h with h
      subst h
      have hc : (fun x : Sale => x.sale_status_desc == "COMPLETED") = isCompleted := rfl
      simp only [hc, overviewRow, sqlSum_eq, sqlAvg_eq, sqlRound, List.length_map]
      refine ⟨?_, ?_, ?_, ?_⟩
      · trivial
      all_goals split <;> rfl
  · intro env db a b c hread hdb ha ha' hda hb hb' hdb' hc hc' hdc
    refine ⟨by decide, by decide, ?_⟩
    have ra := first_day_bounds _ hda
    have rb := first_day_bounds _ hdb'
    obtain ⟨rc, hc2⟩ := second_day_bounds _ hdc
    have hm : midnight 19724 = 1704153600000000 := by decide
    have hres : apiOverview env db exampleRequest
        = .json 200 (overviewRow (db.sales.filter fun r =>
            inScope 1704067200000000 1704153600000000 (activeIds none) (activeIds none) r)) := by
      unfold apiOverview
      rw [overviewOutcome_exampleRequest env db hread, getOverview_eq, if_neg (by decide)]
      rfl
    refine ⟨_, hres, ?_⟩
    rw [hm]
    by_cases hmid : c.created_at = 1704153600000000
    · have rc' : c.created_at ≤ 1704153600000000 := le_of_eq hmid
      simp [hdb, overviewRow, activeIds, hasLength, inScope, idMatches, ra, rb, rc, rc',
        isCompleted, isCancelled, ha, hb, hc, ha', hb', sqlSum, sqlAvg, sqlRound, hmid]
      norm_num
      exact ⟨roundTo_two_forty, roundTo_two_eighty⟩
    · have rc' : ¬ c.created_at ≤ 1704153600000000 := hc2 hmid
      simp [hdb, overviewRow, activeIds, hasLength, inScope, idMatches, ra, rb, rc, rc',
        isCompleted, isCancelled, ha, hb, hc, ha', hb', sqlSum, sqlAvg, sqlRound, hmid]
      norm_num
      exact ⟨roundTo_two_forty, roundTo_two_eighty⟩

/-- C5 on the two example scenarios: with the cancelled sale of 2024-01-02 at 00:00:00
the row is 3, 2, 1, 40, 80, and with the cancelled sale at 15:00 it is 2, 2, 0, 40,
80. -/
theorem overview_aggregates_over_completed_witness :
    apiOverview dateOnlyEnv overviewExample exampleRequest
        = .json 200 ⟨3, 2, 1, some 40, some 80, some 0⟩ ∧
      (∃ row, apiOverview dateOnlyEnv overviewExample exampleRequest = .json 200 row ∧
        row.completed_sales = 2 ∧ row.avg_ticket = some 40 ∧ row.total_revenue = some 80 ∧
        ((1704153600000000 : Int) = midnight 19724 →
          row.total_sales = 3 ∧ row.cancelled_sales = 1) ∧
        ((1704153600000000 : Int) ≠ midnight 19724 →
          row.total_sales = 2 ∧ row.cancelled_sales = 0)) :=
  ⟨by decide!,
    (overview_aggregates_over_completed.2 dateOnlyEnv overviewExample _ _ _
      (by
        intro text day h
        show (dateOfText text).map midnight = _
        rw [h]
        rfl)
      rfl rfl rfl (by decide) rfl rfl (by decide) rfl rfl (by decide)).2.2⟩


/-! ## A store filter that matches no sale, amended -/

/-- C11 as stated fails: on the channel example, whose sales are all of store 1, the
store list `[7]` matches no sale, and `getTopProducts` with the limit -1 fails instead
of returning the empty array. -/
theorem unmatched_store_filter_with_negative_limit_fails :
    (∀ sale ∈ channelsExample.sales, sale.store_id ∉ [(7 : Int)]) ∧
      getTopProducts channelsExample 1704067200000000 1704153600000000 (some [7]) none
        (some (-1)) = .error .negativeLimit ∧
      getTopProducts channelsExample 1704067200000000 1704153600000000 (some [7]) none
        (some (-1)) ≠ .ok [] := by
  decide!

/-- C11 (amended): for every dataset and date range, if `storeIds` is a non-empty list
of values of the SQL type `int` none of which is the `store_id` of a sale, and the ids
of `channelIds`, if any, are values of that type too, then `getSalesByDate`,
`getSalesByChannel`, `getSalesByHour` and `getSalesByWeekday` return the empty array and
do not fail, and so does `getTopProducts` without a limit (the default 10) and with a
limit from 0 to the greatest `bigint`; every parameter these calls hand to `db.query`
is then in the range of the type of its placeholder. -/
theorem unmatched_store_filter_gives_empty_reports (db : Database) (s e : Timestamp)
    (id : Int) (ids : List Int) (ch : Option (List Int)) (limit : Option Int)
    (hfit : ∀ i ∈ id :: ids, fitsInt4 i = true)
    (hch : ∀ l, ch = some l → ∀ i ∈ l, fitsInt4 i = true)
    (hlimit : ∀ k, limit = some k → 0 ≤ k ∧ fitsInt8 k = true)
    (h : ∀ sale ∈ db.sales, sale.store_id ∉ id :: ids) :
    (getSalesByDate db s e (some (id :: ids)) ch = .ok [] ∧
      getTopProducts db s e (some (id :: ids)) ch limit = .ok [] ∧
      getSalesByChannel db s e (some (id :: ids)) = .ok [] ∧
      getSalesByHour db s e (some (id :: ids)) ch = .ok [] ∧
      getSalesByWeekday db s e (some (id :: ids)) ch = .ok []) ∧
    (filterParams s e (some (id :: ids)) ch).all paramFits = true ∧
    (getTopProducts_params s e (some (id :: ids)) ch (limit.getD 10)).all paramFits = true ∧
    (getSalesByChannel_query s e (some (id :: ids))).params.all paramFits = true := by
  have hst : (id :: ids).all fitsInt4 = true := List.all_eq_true.2 hfit
  have hk : fitsInt8 (limit.getD 10) = true := by
    cases limit with
    | none => decide
    | some k => exact (hlimit k rfl).2
  refine ⟨?_, ?_, ?_, ?_⟩
  rotate_left
  · rcases ch with _ | _ | ⟨c, cs⟩
    · simp [filterParams, pushIds, paramFits, hst]
    · simp [filterParams, pushIds, paramFits, hst]
    · have hc : (c :: cs).all fitsInt4 = true := List.all_eq_true.2 (hch _ rfl)
      simp [filterParams, pushIds, paramFits, hst, hc]
  · rcases ch with _ | _ | ⟨c, cs⟩
    · simp [getTopProducts_params, spliceIds, hasLength, paramFits, hst, hk]
    · simp [getTopProducts_params, spliceIds, hasLength, paramFits, hst, hk]
    · have hc : (c :: cs).all fitsInt4 = true := List.all_eq_true.2 (hch _ rfl)
      simp [getTopProducts_params, spliceIds, hasLength, paramFits, hst, hk, hc]
  · simp [getSalesByChannel_query, pushIds, paramFits, hst]
  have hcomb : ¬ (hasLength (some (id :: ids)) = false ∧ hasLength ch = true) := by
    simp [hasLength]
  have ha : activeIds (some (id :: ids)) = some (id :: ids) := rfl
  have htop : ∀ k : Int, 0 ≤ k →
      getTopProducts db s e (some (id :: ids)) ch (some k) = .ok [] := by
    intro k hk
    rw [getTopProducts_eq, if_neg hcomb, if_neg (by omega), ha,
      filter_inScope_eq_nil (fun r : ProductSale × Product × Sale => r.2.2) _ s e _ _
        (fun r hr => h _ (productJoin_sale_mem db r (List.mem_filter.1 hr).1))]
    have h0 : topProductRows [] = [] := rfl
    rw [h0, List.take_nil]
  refine ⟨?_, ?_, ?_, ?_, ?_⟩
  · rw [getSalesByDate_eq, if_neg hcomb, ha,
      filter_inScope_eq_nil (fun x : Sale => x) db.sales s e _ _ h]
    rfl
  · cases limit with
    | none => exact htop 10 (by decide)
    | some k => exact htop k (hlimit k rfl).1
  · rw [getSalesByChannel_eq, ha,
      filter_inScope_eq_nil (fun r : Sale × Channel => r.1) _ s e _ _
        (fun r hr => h _ (channelJoin_sale_mem db r hr))]
    rfl
  · rw [getSalesByHour_eq, if_neg hcomb, ha,
      filter_inScope_eq_nil (fun x : Sale => x) _ s e _ _
        (fun r hr => h _ (List.mem_filter.1 hr).1)]
    rfl
  · rw [getSalesByWeekday_eq, if_neg hcomb, ha,
      filter_inScope_eq_nil (fun x : Sale => x) db.sales s e _ _ h]
    rfl

/-- C11 on the channel example, whose sales are all of store 1, with the store list
`[7]`, the channel list `[1]` and no limit. -/
theorem unmatched_store_filter_gives_empty_reports_witness :
    fitsInt4 7 = true ∧ fitsInt4 1 = true ∧ fitsInt4 3000000000 = false ∧
      (∀ sale ∈ channelsExample.sales, sale.store_id ∉ [(7 : Int)]) ∧
      getSalesByDate channelsExample 1704067200000000 1704153600000000 (some [7]) (some [1])
        = .ok [] ∧
      getTopProducts channelsExample 1704067200000000 1704153600000000 (some [7]) (some [1])
        none = .ok [] :=
  have h : ∀ sale ∈ channelsExample.sales, sale.store_id ∉ [(7 : Int)] := by decide
  have hfit : ∀ i ∈ [(7 : Int)], fitsInt4 i = true := by decide
  have hch : ∀ l, some [(1 : Int)] = some l → ∀ i ∈ l, fitsInt4 i = true := by
    intro l hl
    injection hl with hl
    subst hl
    decide
  have hlimit : ∀ k, (none : Option Int) = some k → 0 ≤ k ∧ fitsInt8 k = true := by
    intro k hk
    cases hk
  ⟨by decide, by decide, by decide, h,
    (unmatched_store_filter_gives_empty_reports channelsExample 1704067200000000
      1704153600000000 7 [] (some [1]) none hfit hch hlimit h).1.1,
    (unmatched_store_filter_gives_empty_reports channelsExample 1704067200000000
      1704153600000000 7 [] (some [1]) none hfit hch hlimit h).1.2.1⟩


/-! ## The inactive-customers report against the customers themselves -/

theorem foldl_max_spec (rest : List Int) (x : Int) :
    rest.foldl max x ∈ x :: rest ∧ ∀ y ∈ x :: rest, y ≤ rest.foldl max x := by
  induction rest generalizing x with
  | nil => simp
  | cons a rest ih =>
    obtain ⟨h1, h2⟩ := ih (max x a)
    rw [List.foldl_cons]
    refine ⟨?_, ?_⟩
    · rcases List.mem_cons.1 h1 with h | h
      · rw [h]
        rcases max_choice x a with hm | hm
        · rw [hm]; exact List.mem_cons_self _ _
        · rw [hm]; exact List.mem_cons_of_mem _ (List.mem_cons_self _ _)
      · exact List.mem_cons_of_mem _ (List.mem_cons_of_mem _ h)
    · intro y hy
      rcases List.mem_cons.1 hy with h | h
      · rw [h]
        exact le_trans (le_max_left x a) (h2 _ (List.mem_cons_self _ _))
      · rcases List.mem_cons.1 h with h' | h'
        · rw [h']
          exact le_trans (le_max_right x a) (h2 _ (List.mem_cons_self _ _))
        · exact h2 y (List.mem_cons_of_mem _ h')

theorem sqlMax_spec (l : List Timestamp) (m : Timestamp) (h : sqlMax l = some m) :
    m ∈ l ∧ ∀ y ∈ l, y ≤ m := by
  cases l with
  | nil => cases h
  | cons x rest =>
    have hm : rest.foldl max x = m := by
      simpa [sqlMax] using h
    rw [← hm]
    exact foldl_max_spec rest x

theorem sqlMax_isSome_of_ne_nil (l : List Timestamp) (h : l ≠ []) :
    ∃ m, sqlMax l = some m := by
  cases l with
  | nil => exact absurd rfl h
  | cons x rest => exact ⟨_, rfl⟩

theorem isInactive_iff_lapsed (db : Database) (now : Timestamp) (days : Int) (c : Customer) :
    IsInactive db now days c ↔ Lapsed db now days c := by
  unfold IsInactive Lapsed
  constructor
  · rintro ⟨h3, last, hlast, hlt⟩
    refine ⟨h3, fun x hx => ?_⟩
    have := (sqlMax_spec _ _ hlast).2 x.created_at (List.mem_map_of_mem _ hx)
    exact lt_of_le_of_lt this hlt
  · rintro ⟨h3, hall⟩
    have hne : (completedPurchases db c.id).map (·.created_at) ≠ [] := by
      intro h0
      rw [List.map_eq_nil_iff] at h0
      rw [h0] at h3
      simp at h3
    obtain ⟨m, hm⟩ := sqlMax_isSome_of_ne_nil _ hne
    obtain ⟨x, hx, hxm⟩ := List.mem_map.1 (sqlMax_spec _ _ hm).1
    exact ⟨h3, m, hm, hxm ▸ hall x hx⟩

theorem customerRow_describes (db : Database) (now : Timestamp) (c : Customer)
    (hne : completedPurchases db c.id ≠ []) :
    DescribesCustomer db now c (customerRow db now c) := by
  have hne' : (completedPurchases db c.id).map (·.created_at) ≠ [] := by
    simpa using hne
  obtain ⟨m, hm⟩ := sqlMax_isSome_of_ne_nil _ hne'
  obtain ⟨hmem, hmax⟩ := sqlMax_spec _ _ hm
  obtain ⟨x, hx, hxm⟩ := List.mem_map.1 hmem
  refine ⟨rfl, rfl, rfl, rfl, ?_, x, hx, ?_, ?_, ?_⟩
  · have hlen : ((completedPurchases db c.id).map (·.total_amount)).length ≠ 0 := by
      rw [List.length_map]
      exact fun h0 => hne (List.length_eq_zero.1 h0)
    simp only [customerRow, lifetimeValue, sqlSum_eq, if_neg hlen, sqlRound, Option.map_some']
  · intro y hy
    rw [hxm]
    exact hmax _ (List.mem_map_of_mem _ hy)
  · show sqlMax _ = _
    rw [hm, hxm]
  · show (sqlMax _).map _ = _
    rw [hm, hxm]
    rfl

theorem inactiveCustomerRow_lifetime (db : Database) (now : Timestamp)
    (hids : (db.customers.map (·.id)).Nodup)
    (g : Customer × List (Customer × Sale)) (hg : g ∈ groupBy (·.1) (customerJoin db)) :
    (inactiveCustomerRow now g).lifetime_value = some (lifetimeValue db g.1) := by
  have hne : completedPurchases db g.1.id ≠ [] := by
    intro h0
    have h2 := (customer_group_eq db hids g hg).2
    rw [h0] at h2
    exact groupBy_group_ne_nil _ _ g hg h2
  rw [inactiveCustomerRow_eq db now hids g hg]
  exact (customerRow_describes db now g.1 hne).2.2.2.2.1

/-- C9: for every dataset with unique customer ids and every threshold,
`getInactiveCustomers` returns at most 50 rows, which are, in order, the rows of
distinct customers that each have at least 3 COMPLETED purchases, every one of them
older than the threshold; the customers, and so the rows, are in descending order of
lifetime value, and a customer with at least 3 COMPLETED purchases, all older than the
threshold, is left out only of a full page of 50 customers, none of which has a smaller
lifetime value. -/
theorem inactive_customers_top_fifty (db : Database) (now : Timestamp) (days : Int)
    (hids : (db.customers.map (·.id)).Nodup) :
    ∃ rows returned, getInactiveCustomers db now (some days) = .ok rows ∧
      rows.length ≤ 50 ∧
      List.Forall₂ (DescribesCustomer db now) returned rows ∧
      returned.Nodup ∧
      (∀ c ∈ returned, c ∈ db.customers ∧ Lapsed db now days c) ∧
      returned.Pairwise (fun a b => lifetimeValue db b ≤ lifetimeValue db a) ∧
      rows.Pairwise
        (fun a b => ∃ x y, a.lifetime_value = some x ∧ b.lifetime_value = some y ∧ y ≤ x) ∧
      (∀ c ∈ db.customers, Lapsed db now days c → c ∉ returned →
        returned.length = 50 ∧
          ∀ q ∈ returned, lifetimeValue db c ≤ lifetimeValue db q) := by
  have hgroup : ∀ g ∈ inactiveCustomerGroups db now days,
      g ∈ groupBy (·.1) (customerJoin db) := fun g hg =>
    (inactiveCustomerGroups_sublist db now days g hg).1
  have hsorted : (inactiveCustomerGroups db now days).Pairwise
      (fun a b => lifetimeValue db b.1 ≤ lifetimeValue db a.1) := by
    have hs : (inactiveCustomerGroups db now days).Pairwise
        (byDesc fun g => (inactiveCustomerRow now g).lifetime_value) :=
      List.Pairwise.sublist (List.take_sublist _ _) (List.sorted_insertionSort _ _)
    refine List.Pairwise.imp_of_mem ?_ hs
    intro a b ha hb hab
    have h := hab
    unfold byDesc at h
    beta_reduce at h
    rw [inactiveCustomerRow_lifetime db now hids a (hgroup a ha),
      inactiveCustomerRow_lifetime db now hids b (hgroup b hb)] at h
    simpa [descOrder] using h
  refine ⟨(inactiveCustomerGroups db now days).map (inactiveCustomerRow now),
    (inactiveCustomerGroups db now days).map (·.1),
    getInactiveCustomers_eq db now days, ?_, ?_, ?_, ?_, ?_, ?_, ?_⟩
  · rw [List.length_map]
    unfold inactiveCustomerGroups
    exact List.length_take_le _ _
  · rw [List.forall₂_map_left_iff, List.forall₂_map_right_iff, List.forall₂_same]
    intro g hg
    have hG := hgroup g hg
    have hne : completedPurchases db g.1.id ≠ [] := by
      intro h0
      have h2 := (customer_group_eq db hids g hG).2
      rw [h0] at h2
      exact groupBy_group_ne_nil _ _ g hG h2
    rw [inactiveCustomerRow_eq db now hids g hG]
    exact customerRow_describes db now g.1 hne
  · have h1 : ((groupBy (·.1) (customerJoin db)).map (·.1)).Nodup := groupBy_keys_nodup _ _
    have h2 : (((groupBy (·.1) (customerJoin db)).filter (havingInactive now days)).map
        (·.1)).Nodup := h1.sublist ((List.filter_sublist _).map _)
    have h3 : ((((groupBy (·.1) (customerJoin db)).filter (havingInactive now days)).insertionSort
        (byDesc fun g => (inactiveCustomerRow now g).lifetime_value)).map (·.1)).Nodup :=
      ((List.perm_insertionSort _ _).map _).nodup_iff.2 h2
    exact h3.sublist ((List.take_sublist _ _).map _)
  · intro c hc
    obtain ⟨g, hg, rfl⟩ := List.mem_map.1 hc
    obtain ⟨hgG, hhav⟩ := inactiveCustomerGroups_sublist db now days g hg
    exact ⟨(customer_group_eq db hids g hgG).1,
      (isInactive_iff_lapsed db now days g.1).1
        ((havingInactive_iff db now days hids g hgG).1 hhav)⟩
  · rw [List.pairwise_map]
    exact hsorted
  · rw [List.pairwise_map]
    refine List.Pairwise.imp_of_mem ?_ hsorted
    intro a b ha hb hab
    exact ⟨_, _, inactiveCustomerRow_lifetime db now hids a (hgroup a ha),
      inactiveCustomerRow_lifetime db now hids b (hgroup b hb), hab⟩
  · intro c hc hlapsed hout
    have hin := (isInactive_iff_lapsed db now days c).2 hlapsed
    have hne : completedPurchases db c.id ≠ [] := by
      intro h0
      have := hin.1
      rw [h0] at this
      simp at this
    set g : Customer × List (Customer × Sale) :=
      (c, (customerJoin db).filter fun r => decide (r.1 = c)) with hgdef
    have hgG : g ∈ groupBy (·.1) (customerJoin db) := customer_group_mem db c hc hne
    have hhav : havingInactive now days g = true :=
      (havingInactive_iff db now days hids g hgG).2 hin
    set sorted := ((groupBy (·.1) (customerJoin db)).filter (havingInactive now days)).insertionSort
      (byDesc fun g => (inactiveCustomerRow now g).lifetime_value) with hsdef
    have hgs : g ∈ sorted :=
      (List.perm_insertionSort _ _).mem_iff.2 (List.mem_filter.2 ⟨hgG, hhav⟩)
    have hgroups : inactiveCustomerGroups db now days = sorted.take 50 := rfl
    rw [← List.take_append_drop 50 sorted, List.mem_append] at hgs
    rcases hgs with h | h
    · exact absurd (List.mem_map_of_mem (·.1) (hgroups ▸ h)) hout
    · have hlen : 50 < sorted.length := by
        by_contra hle
        rw [List.drop_of_length_le (not_lt.1 hle)] at h
        exact absurd h (List.not_mem_nil _)
      refine ⟨?_, ?_⟩
      · rw [List.length_map, hgroups, List.length_take]
        omega
      · intro q hq
        obtain ⟨g', hg', rfl⟩ := List.mem_map.1 hq
        have hg'G := hgroup g' hg'
        rw [hgroups] at hg'
        have hs : sorted.Sorted (byDesc fun g => (inactiveCustomerRow now g).lifetime_value) :=
          List.sorted_insertionSort _ _
        rw [← List.take_append_drop 50 sorted, List.Sorted, List.pairwise_append] at hs
        have hrel := hs.2.2 g' hg' g h
        unfold byDesc at hrel
        beta_reduce at hrel
        rw [inactiveCustomerRow_lifetime db now hids g' hg'G,
          inactiveCustomerRow_lifetime db now hids g hgG] at hrel
        simpa [descOrder] using hrel

/-- C9 on a dataset that lists purchases latest first: at 2025-01-01 with the threshold
30, Ana, whose three purchases are of 2024-01-01, has the one row, and Caio, whose latest
purchase is one day old, has none. -/
theorem inactive_customers_top_fifty_witness :
    (customersLatestFirstExample.customers.map (·.id)).Nodup ∧
      getInactiveCustomers customersLatestFirstExample 1735689600000000 (some 30)
        = .ok [⟨"Ana", "ana@example.com", "1", 3, some 60, some 1704114000000000, some 365⟩] ∧
      ∃ rows returned,
        getInactiveCustomers customersLatestFirstExample 1735689600000000 (some 30)
          = .ok rows ∧
        rows.length ≤ 50 ∧
        List.Forall₂ (DescribesCustomer customersLatestFirstExample 1735689600000000)
          returned rows ∧
        returned.Nodup ∧
        (∀ c ∈ returned, c ∈ customersLatestFirstExample.customers ∧
          Lapsed customersLatestFirstExample 1735689600000000 30 c) ∧
        returned.Pairwise (fun a b => lifetimeValue customersLatestFirstExample b
          ≤ lifetimeValue customersLatestFirstExample a) ∧
        rows.Pairwise
          (fun a b => ∃ x y, a.lifetime_value = some x ∧ b.lifetime_value = some y ∧ y ≤ x) ∧
        (∀ c ∈ customersLatestFirstExample.customers,
          Lapsed customersLatestFirstExample 1735689600000000 30 c → c ∉ returned →
          returned.length = 50 ∧
            ∀ q ∈ returned, lifetimeValue customersLatestFirstExample c
              ≤ lifetimeValue customersLatestFirstExample q) :=
  ⟨by decide, by decide!,
    inactive_customers_top_fifty customersLatestFirstExample 1735689600000000 30 (by decide)⟩


/-! ## The top-products report against the products themselves -/

theorem filter_unique {α : Type} (f : α → Int) (l : List α) (h : (l.map f).Nodup)
    (a : α) (ha : a ∈ l) : l.filter (fun x => decide (f x = f a)) = [a] := by
  induction l with
  | nil => cases ha
  | cons b l ih =>
    rw [List.map_cons, List.nodup_cons] at h
    rcases List.mem_cons.1 ha with hab | hal
    · subst hab
      have htail : l.filter (fun x => decide (f x = f a)) = [] := by
        rw [List.filter_eq_nil_iff]
        intro x hx hfx
        exact h.1 ((of_decide_eq_true hfx) ▸ List.mem_map_of_mem f hx)
      rw [List.filter_cons_of_pos (by simp), htail]
    · have hne : ¬ f b = f a := fun hfb => h.1 (hfb ▸ List.mem_map_of_mem f hal)
      rw [List.filter_cons_of_neg (by simpa using hne)]
      exact ih h.2 hal

theorem filter_key_length_le_one {α : Type} (f : α → Int) (l : List α)
    (h : (l.map f).Nodup) (v : Int) (Q : α → Bool) :
    (l.filter fun x => decide (f x = v) && Q x).length ≤ 1 := by
  by_cases hex : ∃ a ∈ l, f a = v
  · obtain ⟨a, ha, rfl⟩ := hex
    have hsplit : (l.filter fun x => decide (f x = f a) && Q x)
        = (l.filter fun x => decide (f x = f a)).filter Q := by
      rw [List.filter_filter]
      apply List.filter_congr
      intro x _
      exact Bool.and_comm _ _
    rw [hsplit, filter_unique f l h a ha]
    exact List.length_filter_le _ _
  · have : (l.filter fun x => decide (f x = v) && Q x) = [] := by
      rw [List.filter_eq_nil_iff]
      intro x hx hfx
      simp only [Bool.and_eq_true, decide_eq_true_eq] at hfx
      exact hex ⟨x, hx, hfx.1⟩
    rw [this]
    exact Nat.zero_le _

theorem map_const_of_length_le_one {α β : Type} (l : List α) (Q : α → Bool) (b : β)
    (h : (l.filter Q).length ≤ 1) :
    (l.filter Q).map (fun _ => b) = if l.any Q then [b] else [] := by
  cases hl : l.filter Q with
  | nil =>
    have : l.any Q = false := by
      rw [List.any_eq_false]
      intro x hx hq
      have := List.mem_filter.2 ⟨hx, hq⟩
      rw [hl] at this
      exact absurd this (List.not_mem_nil _)
    simp [this]
  | cons x xs =>
    have hx : x ∈ l.filter Q := by rw [hl]; exact List.mem_cons_self _ _
    have hany : l.any Q = true := List.any_eq_true.2 ⟨x, (List.mem_filter.1 hx).1,
      (List.mem_filter.1 hx).2⟩
    rw [hl] at h
    cases xs with
    | nil => simp [hany]
    | cons y ys => simp at h

theorem flatMap_ite_singleton {α : Type} (l : List α) (c : α → Bool) :
    (l.flatMap fun a => if c a then [a] else []) = l.filter c := by
  induction l with
  | nil => rfl
  | cons a l ih =>
    rw [List.flatMap_cons, ih]
    cases hc : c a <;> simp [hc]

/-- With unique product and sale ids, the joined rows of one line that pass the `WHERE`
clause and belong to the group of a product are the line itself when it is a line of
the product on a sale that counts, and none otherwise. -/
theorem joined_line_of_product (products : List Product) (sales : List Sale)
    (hproducts : (products.map (·.id)).Nodup) (hsales : (sales.map (·.id)).Nodup)
    (W : Sale → Bool) (p : Product) (hp : p ∈ products) (ps : ProductSale) :
    ((((products.filter fun q => decide (q.id = ps.product_id)).flatMap fun q =>
        (sales.filter fun x => decide (x.id = ps.sale_id)).map fun x => (ps, q, x)).filter
        fun r => W r.2.2).filter
        fun r => decide ((r.2.1.id, r.2.1.name) = (p.id, p.name))).map (·.1)
      = if (decide (ps.product_id = p.id) &&
          sales.any fun x => decide (x.id = ps.sale_id) && W x) = true then [ps] else [] := by
  by_cases hid : ps.product_id = p.id
  · have hfilter : (products.filter fun q => decide (q.id = ps.product_id)) = [p] := by
      rw [hid]
      exact filter_unique (·.id) products hproducts p hp
    rw [hfilter, List.flatMap_singleton, List.filter_map, List.filter_map, List.map_map]
    have hmap : ((fun (r : ProductSale × Product × Sale) => r.1) ∘
        fun x => (ps, p, x)) = fun _ => ps := rfl
    rw [hmap, List.filter_filter, List.filter_filter]
    have hcongr : (sales.filter fun x =>
        (((fun (r : ProductSale × Product × Sale) =>
            decide ((r.2.1.id, r.2.1.name) = (p.id, p.name))) ∘ fun x => (ps, p, x)) x
          && ((fun (r : ProductSale × Product × Sale) => W r.2.2) ∘ fun x => (ps, p, x)) x)
          && decide (x.id = ps.sale_id))
        = sales.filter fun x => decide (x.id = ps.sale_id) && W x := by
      apply List.filter_congr
      intro x _
      simp [Bool.and_comm]
    rw [hcongr, map_const_of_length_le_one sales _ ps
      (filter_key_length_le_one (·.id) sales hsales ps.sale_id W)]
    simp [hid]
  · have hnil : ((((products.filter fun q => decide (q.id = ps.product_id)).flatMap fun q =>
        (sales.filter fun x => decide (x.id = ps.sale_id)).map fun x => (ps, q, x)).filter
        fun r => W r.2.2).filter
        fun r => decide ((r.2.1.id, r.2.1.name) = (p.id, p.name))) = [] := by
      rw [List.filter_eq_nil_iff]
      intro r hr hkey
      simp only [List.mem_filter, List.mem_flatMap, List.mem_map, decide_eq_true_eq] at hr
      obtain ⟨⟨q, ⟨-, hq⟩, x, -, rfl⟩, -⟩ := hr
      simp only [decide_eq_true_eq, Prod.mk.injEq] at hkey
      exact hid (hq.symm.trans hkey.1)
    rw [hnil]
    simp [hid]

/-- With unique product and sale ids, the lines of the group of a product are the lines
that count for the product. -/
theorem product_group_lines (db : Database) (s e : Timestamp) (st ch : Option (List Int))
    (hproducts : (db.products.map (·.id)).Nodup) (hsales : (db.sales.map (·.id)).Nodup)
    (p : Product) (hp : p ∈ db.products) :
    ((completedLinesInRange db s e st ch).filter
        fun r => decide ((r.2.1.id, r.2.1.name) = (p.id, p.name))).map (·.1)
      = soldLines db s e st ch p := by
  unfold completedLinesInRange productJoin soldLines
  rw [List.filter_flatMap, List.filter_flatMap, List.map_flatMap]
  rw [← flatMap_ite_singleton]
  congr 1
  funext ps
  exact joined_line_of_product db.products db.sales hproducts hsales
    (fun x => isCompleted x && inScope s e (activeIds st) (activeIds ch) x) p hp ps

theorem mem_completedLinesInRange (db : Database) (s e : Timestamp)
    (st ch : Option (List Int)) (r : ProductSale × Product × Sale) :
    r ∈ completedLinesInRange db s e st ch ↔
      r.1 ∈ db.product_sales ∧ r.2.1 ∈ db.products ∧ r.2.1.id = r.1.product_id ∧
        r.2.2 ∈ db.sales ∧ r.2.2.id = r.1.sale_id ∧
        (isCompleted r.2.2 && inScope s e (activeIds st) (activeIds ch) r.2.2) = true := by
  rcases r with ⟨ps, q, x⟩
  simp only [completedLinesInRange, productJoin, List.mem_filter, List.mem_flatMap,
    List.mem_map, decide_eq_true_eq, Prod.mk.injEq]
  constructor
  · rintro ⟨⟨ps', hps, q', ⟨hq, hqid⟩, x', ⟨hx, hxid⟩, rfl, rfl, rfl⟩, hW⟩
    exact ⟨hps, hq, hqid, hx, hxid, hW⟩
  · rintro ⟨hps, hq, hqid, hx, hxid, hW⟩
    exact ⟨⟨ps, hps, q, ⟨hq, hqid⟩, x, ⟨hx, hxid⟩, rfl, rfl, rfl⟩, hW⟩

/-- With unique product and sale ids, a group of `getTopProducts` belongs to a product
of the dataset that was sold, and its row is the row of that product. -/
theorem product_group_eq (db : Database) (s e : Timestamp) (st ch : Option (List Int))
    (hproducts : (db.products.map (·.id)).Nodup) (hsales : (db.sales.map (·.id)).Nodup)
    (g : (Int × String) × List (ProductSale × Product × Sale))
    (hg : g ∈ groupBy (fun r => (r.2.1.id, r.2.1.name)) (completedLinesInRange db s e st ch)) :
    productOfKey g ∈ soldProducts db s e st ch ∧
      topProductRow g = productRow db s e st ch (productOfKey g) := by
  obtain ⟨⟨r, hr, hkey⟩, hrows⟩ := (mem_groupBy _ _ g).1 hg
  have hmem := (mem_completedLinesInRange db s e st ch r).1 hr
  have hprod : productOfKey g = r.2.1 := by
    unfold productOfKey
    rw [← hkey]
  have hlines : g.2.map (·.1) = soldLines db s e st ch (productOfKey g) := by
    rw [hrows, hprod, ← hkey]
    exact product_group_lines db s e st ch hproducts hsales r.2.1 hmem.2.1
  have hne : soldLines db s e st ch (productOfKey g) ≠ [] := by
    rw [← hlines]
    intro h0
    exact groupBy_group_ne_nil _ _ g hg (List.map_eq_nil_iff.1 h0)
  refine ⟨?_, ?_⟩
  · unfold soldProducts
    rw [List.mem_filter]
    refine ⟨hprod ▸ hmem.2.1, ?_⟩
    cases hl : soldLines db s e st ch (productOfKey g) with
    | nil => exact absurd hl hne
    | cons a l => rfl
  · have hq : g.2.map (·.1.quantity)
        = (soldLines db s e st ch (productOfKey g)).map (·.quantity) := by
      rw [← hlines, List.map_map]
      rfl
    have hpr : g.2.map (·.1.total_price)
        = (soldLines db s e st ch (productOfKey g)).map (·.total_price) := by
      rw [← hlines, List.map_map]
      rfl
    have hlen : g.2.length = (soldLines db s e st ch (productOfKey g)).length := by
      rw [← hlines, List.length_map]
    have hlen0 : (soldLines db s e st ch (productOfKey g)).length ≠ 0 :=
      fun h0 => hne (List.length_eq_zero.1 h0)
    simp only [topProductRow, productRow, productRevenue, hq, hpr, hlen, sqlSum_eq, sqlAvg_eq,
      List.length_map, if_neg hlen0, sqlRound, Option.map_some']
    rfl

theorem products_nodup (db : Database) (hproducts : (db.products.map (·.id)).Nodup) :
    db.products.Nodup := List.Nodup.of_map _ hproducts

/-- With unique product and sale ids, the groups of `getTopProducts` are, up to order,
the products that were sold. -/
theorem product_groups_perm (db : Database) (s e : Timestamp) (st ch : Option (List Int))
    (hproducts : (db.products.map (·.id)).Nodup) (hsales : (db.sales.map (·.id)).Nodup) :
    ((groupBy (fun r => (r.2.1.id, r.2.1.name)) (completedLinesInRange db s e st ch)).map
      productOfKey).Perm (soldProducts db s e st ch) := by
  have h1 : ((groupBy (fun r => (r.2.1.id, r.2.1.name))
      (completedLinesInRange db s e st ch)).map productOfKey).Nodup := by
    have hk := groupBy_keys_nodup (fun (r : ProductSale × Product × Sale) => (r.2.1.id, r.2.1.name))
      (completedLinesInRange db s e st ch)
    have hinj : Function.Injective (fun (k : Int × String) => (⟨k.1, k.2⟩ : Product)) := by
      rintro ⟨a, b⟩ ⟨c, d⟩ h
      injection h with h1 h2
      rw [Prod.mk.injEq]
      exact ⟨h1, h2⟩
    have := hk.map hinj
    rw [List.map_map] at this
    exact this
  have h2 : (soldProducts db s e st ch).Nodup := (products_nodup db hproducts).filter _
  rw [List.perm_ext_iff_of_nodup h1 h2]
  intro p
  constructor
  · intro hp
    obtain ⟨g, hg, rfl⟩ := List.mem_map.1 hp
    exact (product_group_eq db s e st ch hproducts hsales g hg).1
  · intro hp
    unfold soldProducts at hp
    obtain ⟨hpd, hne⟩ := List.mem_filter.1 hp
    cases hl : soldLines db s e st ch p with
    | nil => rw [hl] at hne; cases hne
    | cons ps l =>
      have hps : ps ∈ soldLines db s e st ch p := by rw [hl]; exact List.mem_cons_self _ _
      unfold soldLines at hps
      obtain ⟨hpsd, hcond⟩ := List.mem_filter.1 hps
      simp only [Bool.and_eq_true, decide_eq_true_eq, List.any_eq_true] at hcond
      obtain ⟨hid, x, hx, hxid, hW⟩ := hcond
      have hr : (ps, p, x) ∈ completedLinesInRange db s e st ch :=
        (mem_completedLinesInRange db s e st ch (ps, p, x)).2
          ⟨hpsd, hpd, hid.symm, hx, hxid, by simpa using hW⟩
      have hkey : (p.id, p.name) ∈ (groupBy (fun r => (r.2.1.id, r.2.1.name))
          (completedLinesInRange db s e st ch)).map (·.1) := by
        rw [groupBy_map_fst, List.mem_dedup]
        exact List.mem_map.2 ⟨(ps, p, x), hr, rfl⟩
      obtain ⟨g, hg, hgk⟩ := List.mem_map.1 hkey
      refine List.mem_map.2 ⟨g, hg, ?_⟩
      unfold productOfKey
      rw [hgk]

/-- The ordered rows of `getTopProducts` are the rows of the groups in an order in which
the total revenue descends. -/
theorem topProductRows_eq_map (joined : List (ProductSale × Product × Sale)) :
    topProductRows joined
      = ((groupBy (fun r => (r.2.1.id, r.2.1.name)) joined).insertionSort
          (byDesc fun g => (topProductRow g).total_revenue)).map topProductRow := by
  unfold topProductRows
  exact (List.map_insertionSort (byDesc fun g => (topProductRow g).total_revenue)
    (byDesc fun (r : TopProductRow) => r.total_revenue) topProductRow _
    (fun _ _ _ _ => Iff.rfl)).symm

/-- C7: for every dataset with unique product ids and unique sale ids and every limit
`k ≥ 1`: with the filters in a combination the query accepts and every parameter in the
range of its SQL type, `getTopProducts` returns rows; and whenever it returns rows, they
are, in order, the rows of `k` products that were sold (of all of them when fewer than
`k` were sold), the remaining sold products are omitted, and no omitted product has a
greater total revenue, the sum of `total_price` over its lines on COMPLETED sales in
range, than a returned one.  In the example scenario (products of revenue 100 and 200,
`limit = 1`) the result is the single row of the 200-revenue product. -/
theorem top_products_returns_highest_revenue :
    (∀ (db : Database) (s e : Timestamp) (st ch : Option (List Int)) (k : Int),
      (db.products.map (·.id)).Nodup → (db.sales.map (·.id)).Nodup → 1 ≤ k →
      (¬ (hasLength st = false ∧ hasLength ch = true) →
        (getTopProducts_params s e st ch k).all paramFits = true →
        ∃ rows, getTopProducts db s e st ch (some k) = .ok rows) ∧
      ∀ rows, getTopProducts db s e st ch (some k) = .ok rows →
        ∃ returned omitted : List Product,
          rows = returned.map (productRow db s e st ch) ∧
          (returned ++ omitted).Perm (soldProducts db s e st ch) ∧
          returned.length = min k.toNat (soldProducts db s e st ch).length ∧
          ∀ p ∈ returned, ∀ q ∈ omitted,
            productRevenue db s e st ch q ≤ productRevenue db s e st ch p) ∧
    getTopProducts productsExample 1704067200000000 1704153600000000 none none (some 1)
      = .ok [⟨"B", 1, some 1, some 200, some 200⟩] := by
  refine ⟨?_, by decide!⟩
  intro db s e st ch k hproducts hsales hk
  refine ⟨?_, ?_⟩
  · intro hcomb _
    exact ⟨_, by rw [getTopProducts_eq, if_neg hcomb, if_neg (by omega)]⟩
  · intro rows hrows
    obtain ⟨-, -, hrows⟩ := getTopProducts_ok db s e st ch k rows hrows
    set groups := groupBy (fun (r : ProductSale × Product × Sale) => (r.2.1.id, r.2.1.name))
      (completedLinesInRange db s e st ch) with hgroups
    set sorted := groups.insertionSort
      (byDesc fun g => (topProductRow g).total_revenue) with hsorted
    have hperm : sorted.Perm groups := List.perm_insertionSort _ _
    have hrow : ∀ g ∈ sorted, topProductRow g = productRow db s e st ch (productOfKey g) :=
      fun g hg => (product_group_eq db s e st ch hproducts hsales g (hperm.subset hg)).2
    have hall : (sorted.map productOfKey).Perm (soldProducts db s e st ch) :=
      (hperm.map _).trans (product_groups_perm db s e st ch hproducts hsales)
    refine ⟨(sorted.take k.toNat).map productOfKey, (sorted.drop k.toNat).map productOfKey,
      ?_, ?_, ?_, ?_⟩
    · rw [hrows, topProductRows_eq_map, ← List.map_take, List.map_map]
      apply List.map_congr_left
      intro g hg
      exact hrow g ((List.take_sublist _ _).subset hg)
    · rw [← List.map_append, List.take_append_drop]
      exact hall
    · rw [List.length_map, List.length_take, ← hall.length_eq, List.length_map]
    · intro p hp q hq
      obtain ⟨a, ha, rfl⟩ := List.mem_map.1 hp
      obtain ⟨b, hb, rfl⟩ := List.mem_map.1 hq
      have hs : sorted.Sorted (byDesc fun g => (topProductRow g).total_revenue) :=
        List.sorted_insertionSort _ _
      rw [← List.take_append_drop k.toNat sorted, List.Sorted, List.pairwise_append] at hs
      have hrel := hs.2.2 a ha b hb
      unfold byDesc at hrel
      beta_reduce at hrel
      rw [hrow a ((List.take_sublist _ _).subset ha),
        hrow b ((List.drop_sublist _ _).subset hb)] at hrel
      simpa [productRow, descOrder] using hrel

/-- C7 on a dataset where product A has two lines on COMPLETED sales and one on a
CANCELLED sale, with `limit = 1`: product B, of revenue 200, is returned and product A,
of revenue 130, omitted. -/
theorem top_products_returns_highest_revenue_witness :
    (productLinesExample.products.map (·.id)).Nodup ∧
      (productLinesExample.sales.map (·.id)).Nodup ∧ (1 : Int) ≤ 1 ∧
      ¬ (hasLength none = false ∧ hasLength none = true) ∧
      (getTopProducts_params 1704067200000000 1704153600000000 none none 1).all paramFits
        = true ∧
      getTopProducts productLinesExample 1704067200000000 1704153600000000 none none (some 2)
        = .ok [⟨"B", 1, some 1, some 200, some 200⟩, ⟨"A", 2, some 2, some 130, some 65⟩] ∧
      (∃ rows, getTopProducts productLinesExample 1704067200000000 1704153600000000 none none
          (some 1) = .ok rows) ∧
      ∀ rows, getTopProducts productLinesExample 1704067200000000 1704153600000000 none none
          (some 1) = .ok rows →
        ∃ returned omitted : List Product,
          rows = returned.map
            (productRow productLinesExample 1704067200000000 1704153600000000 none none) ∧
          (returned ++ omitted).Perm
            (soldProducts productLinesExample 1704067200000000 1704153600000000 none none) ∧
          returned.length = min (1 : Int).toNat
            (soldProducts productLinesExample 1704067200000000 1704153600000000 none
              none).length ∧
          ∀ p ∈ returned, ∀ q ∈ omitted,
            productRevenue productLinesExample 1704067200000000 1704153600000000 none none q
              ≤ productRevenue productLinesExample 1704067200000000 1704153600000000 none none
                p :=
  ⟨by decide, by decide, by decide, by decide, by decide, by decide!,
    (top_products_returns_highest_revenue.1 productLinesExample 1704067200000000
      1704153600000000 none none 1 (by decide) (by decide) (by decide)).1
      (by decide) (by decide),
    (top_products_returns_highest_revenue.1 productLinesExample 1704067200000000
      1704153600000000 none none 1 (by decide) (by decide) (by decide)).2⟩

end RestaurantAnalytics
